import Mathlib

set_option maxRecDepth 100000
set_option maxHeartbeats 2000000

/-!
Verification of the opcode dispatch table of `Opcodes.cpp`
(AzerothCore world-server protocol layer).

The C++ source registers ~1310 opcode handlers into a single fixed-size
table `_internalTableClient`, through two validated registration paths
(`ValidateAndSetClientOpcode`, `ValidateAndSetServerOpcode`), and formats
opcode names for logging (`GetOpcodeNameForLoggingImpl`).

The embedding below translates those functions directly.  Machine integers
are modelled as `Nat` with explicit `% 2 ^ 16` where the source casts to
`uint16`.  The handler member-function pointers are type-erased in the
source already (stored behind a virtual `Call`); here the binding is
identified by the member function's name.
-/

/-- Session status requirement enumeration (`SessionStatus` in the source).
`STATUS_LOGGEDIN_OR_RECENTLY_LOGGOUT` is spelled as in the source manifest. -/
inductive SessionStatus where
  | STATUS_AUTHED
  | STATUS_LOGGEDIN
  | STATUS_TRANSFER
  | STATUS_NEVER
  | STATUS_UNHANDLED
  | STATUS_LOGGEDIN_OR_RECENTLY_LOGGOUT
deriving DecidableEq, Repr

/-- Concurrency class enumeration (`PacketProcessing` in the source). -/
inductive PacketProcessing where
  | PROCESS_INPLACE
  | PROCESS_THREADSAFE
  | PROCESS_THREADUNSAFE
deriving DecidableEq, Repr

/-- One installed table entry: models a `ClientOpcodeHandler` object
(name, status, processing) together with the bound handler, identified by
the `WorldSession` member-function name captured by the `PacketHandler`
template (server-path entries always bind `Handle_ServerSide`). -/
structure OpcodeHandler where
  Name : String
  Status : SessionStatus
  Processing : PacketProcessing
  Handler : String
deriving DecidableEq, Repr

/-- Modelled from the spec: `NUM_OPCODE_HANDLERS` is defined in `Opcodes.h`,
which is not part of the given sources.  The spec sizes the table to the
maximum valid opcode id + 1; the manifest's largest id is `0x51E`. -/
def NUM_OPCODE_HANDLERS : Nat := 0x051F

/-- Modelled from the spec: `NULL_OPCODE`, the sentinel "unset" opcode value
from `Opcodes.h` (not in the given sources); the unset value `0x0000`. -/
def NULL_OPCODE : Nat := 0

/-- The opcode table: the single array `_internalTableClient`, shared by the
client and the server registration paths.  A null pointer is `none`. -/
structure OpcodeTable where
  _internalTableClient : Nat → Option OpcodeHandler

/-- The `OpcodeTable` constructor: `memset(_internalTableClient, 0, ...)`. -/
def OpcodeTable.empty : OpcodeTable := ⟨fun _ => none⟩

/-- `OpcodeTable::ValidateAndSetClientOpcode`: reject the null sentinel,
reject out-of-range ids, reject an occupied slot; otherwise install a
`PacketHandler` built from the given name, status, processing and handler. -/
def OpcodeTable.ValidateAndSetClientOpcode (t : OpcodeTable) (opcode : Nat)
    (name : String) (status : SessionStatus) (processing : PacketProcessing)
    (handler : String) : OpcodeTable :=
  if opcode = NULL_OPCODE then t
  else if NUM_OPCODE_HANDLERS ≤ opcode then t
  else if (t._internalTableClient opcode).isSome then t
  else ⟨fun i => if i = opcode then some ⟨name, status, processing, handler⟩
                 else t._internalTableClient i⟩

/-- `OpcodeTable::ValidateAndSetServerOpcode`: the same three checks against
the same table; on success installs a handler bound to
`WorldSession::Handle_ServerSide` with `PROCESS_INPLACE`. -/
def OpcodeTable.ValidateAndSetServerOpcode (t : OpcodeTable) (opcode : Nat)
    (name : String) (status : SessionStatus) : OpcodeTable :=
  if opcode = NULL_OPCODE then t
  else if NUM_OPCODE_HANDLERS ≤ opcode then t
  else if (t._internalTableClient opcode).isSome then t
  else ⟨fun i => if i = opcode then
                   some ⟨name, status, .PROCESS_INPLACE, "Handle_ServerSide"⟩
                 else t._internalTableClient i⟩

/-- One line of the registration manifest in `OpcodeTable::Initialize`:
either a `DEFINE_HANDLER` expansion (client path) or a
`DEFINE_SERVER_OPCODE_HANDLER` expansion (server path).  The name is the
stringized enumerator (`#opcode`); the numeric id is the enumerator's value,
recorded in the source by the per-entry `/*0xNNN*/` comment. -/
inductive ManifestEntry where
  | client (opcode : Nat) (name : String) (status : SessionStatus)
      (processing : PacketProcessing) (handler : String)
  | server (opcode : Nat) (name : String) (status : SessionStatus)
deriving DecidableEq, Repr

/-- The opcode id a manifest entry registers at. -/
def ManifestEntry.opcodeOf : ManifestEntry → Nat
  | .client op _ _ _ _ => op
  | .server op _ _ => op

/-- The descriptor a manifest entry installs when its registration succeeds. -/
def ManifestEntry.descriptorOf : ManifestEntry → OpcodeHandler
  | .client _ nm st pr hd => ⟨nm, st, pr, hd⟩
  | .server _ nm st => ⟨nm, st, .PROCESS_INPLACE, "Handle_ServerSide"⟩

/-- Apply one manifest entry to the table through its registration path. -/
def OpcodeTable.applyEntry (t : OpcodeTable) : ManifestEntry → OpcodeTable
  | .client op nm st pr hd => t.ValidateAndSetClientOpcode op nm st pr hd
  | .server op nm st => t.ValidateAndSetServerOpcode op nm st

/-- Run a list of registrations in order, as `Initialize` does. -/
def OpcodeTable.registerAll (t : OpcodeTable) (es : List ManifestEntry) :
    OpcodeTable :=
  es.foldl OpcodeTable.applyEntry t

/-- The condition of the `static_assert` inside the
`DEFINE_SERVER_OPCODE_HANDLER` macro: a server opcode's status must be
`STATUS_NEVER` or `STATUS_UNHANDLED`, checked at build time for every
expansion of the macro. -/
def serverOpcodeStatusAssert (status : SessionStatus) : Prop :=
  status = .STATUS_NEVER ∨ status = .STATUS_UNHANDLED

instance (status : SessionStatus) : Decidable (serverOpcodeStatusAssert status) := by
  unfold serverOpcodeStatusAssert; infer_instance

/-- Whether a registration passes all three validation checks at table `t`
(so that it installs its descriptor rather than returning unchanged). -/
def registrationSucceeds (t : OpcodeTable) (e : ManifestEntry) : Bool :=
  !(e.opcodeOf == NULL_OPCODE) &&
    decide (e.opcodeOf < NUM_OPCODE_HANDLERS) &&
    !(t._internalTableClient e.opcodeOf).isSome

/-- Modelled from the spec: the table subscript `OpcodeTable::operator[]` is
declared in `Opcodes.h`, which is not part of the given sources; the spec
states `lookup(id)` is O(1) and returns none for out-of-range or
unregistered ids. -/
def OpcodeTable.lookup (t : OpcodeTable) (id : Nat) : Option OpcodeHandler :=
  if id < NUM_OPCODE_HANDLERS then t._internalTableClient id else none

/-- One uppercase hexadecimal digit. -/
def hexDigit (n : Nat) : Char :=
  if n < 10 then Char.ofNat (48 + n) else Char.ofNat (55 + n)

/-- `std::hex << std::setw(4) << std::setfill('0') << std::uppercase` applied
to a `uint16` value: exactly four uppercase hex digits, zero padded. -/
def hex4 (n : Nat) : String :=
  String.mk [hexDigit (n / 4096 % 16), hexDigit (n / 256 % 16),
             hexDigit (n / 16 % 16), hexDigit (n % 16)]

/-- `GetOpcodeNameForLoggingImpl`: truncates the id to `uint16` for the range
check and for the printed hex/decimal value, but indexes the table with the
untruncated id (`opcodeTable[id]`). -/
def GetOpcodeNameForLoggingImpl (t : OpcodeTable) (id : Nat) : String :=
  let opcode : Nat := id % 2 ^ 16
  let nameStr : String :=
    if id % 2 ^ 16 < NUM_OPCODE_HANDLERS then
      match t.lookup id with
      | some handler => handler.Name
      | none => "UNKNOWN OPCODE"
    else "INVALID OPCODE"
  "[" ++ nameStr ++ " 0x" ++ hex4 opcode ++ " (" ++ Nat.repr opcode ++ ")]"

/-- `GetOpcodeNameForLogging`, the public wrapper over the template impl. -/
def GetOpcodeNameForLogging (t : OpcodeTable) (id : Nat) : String :=
  GetOpcodeNameForLoggingImpl t id

/-- Modelled from the spec: a session's protocol-level state, carrying its
authentication/login status and the bounded post-logout grace flag. -/
structure SessionState where
  status : SessionStatus
  recentlyLoggedOut : Bool

/-- Modelled from the spec: the AdmissionGate decides allow/deny from an
opcode's required status and the session's actual state; `LoggedIn` is
satisfied by `LoggedIn` and `Transfer` but not by `Authed` alone, `Never`
is never satisfied, `Unhandled` is always satisfied, and the grace window
additionally satisfies the recently-logged-out requirement. -/
def AdmissionGate (required : SessionStatus) (s : SessionState) : Bool :=
  match required with
  | .STATUS_NEVER => false
  | .STATUS_UNHANDLED => true
  | .STATUS_AUTHED =>
      s.status == .STATUS_AUTHED || s.status == .STATUS_LOGGEDIN ||
        s.status == .STATUS_TRANSFER
  | .STATUS_LOGGEDIN =>
      s.status == .STATUS_LOGGEDIN || s.status == .STATUS_TRANSFER
  | .STATUS_TRANSFER => s.status == .STATUS_TRANSFER
  | .STATUS_LOGGEDIN_OR_RECENTLY_LOGGOUT =>
      s.status == .STATUS_LOGGEDIN || s.status == .STATUS_TRANSFER ||
        s.recentlyLoggedOut

/-- Modelled from the spec: the outcome of `DispatchEngine.dispatch` for one
message: dropped (unknown opcode or admission denied) or routed to the
execution context selected by the concurrency class. -/
inductive DispatchOutcome where
  | dropUnknown
  | dropDenied
  | runInPlace (handler : String)
  | toWorkerPool (handler : String)
  | toSerializedQueue (handler : String)
deriving DecidableEq, Repr

/-- Modelled from the spec: `dispatch` looks the opcode up, applies the
AdmissionGate, then routes by concurrency class (`InPlace` synchronous,
`ThreadSafe` to the worker pool, `ThreadUnsafe` to the single serialized
queue). -/
def dispatchRoute (t : OpcodeTable) (s : SessionState) (id : Nat) :
    DispatchOutcome :=
  match t.lookup id with
  | none => .dropUnknown
  | some h =>
      if AdmissionGate h.Status s then
        match h.Processing with
        | .PROCESS_INPLACE => .runInPlace h.Handler
        | .PROCESS_THREADSAFE => .toWorkerPool h.Handler
        | .PROCESS_THREADUNSAFE => .toSerializedQueue h.Handler
      else .dropDenied

/-- Modelled from the spec: the serialized (`ThreadUnsafe`) queue contents
after dispatching, from one session, a list of (arrival sequence number,
opcode id) envelopes in arrival order; the single-consumer queue preserves
that order. -/
def serializedQueueAfter (t : OpcodeTable) (s : SessionState)
    (envelopes : List (Nat × Nat)) : List (Nat × String) :=
  envelopes.filterMap fun env =>
    match dispatchRoute t s env.2 with
    | .toSerializedQueue h => some (env.1, h)
    | _ => none


/-- The registration manifest of `OpcodeTable::Initialize`: every
`DEFINE_HANDLER` / `DEFINE_SERVER_OPCODE_HANDLER` expansion, in source
order.  Names are the stringized enumerators (`#opcode`); numeric ids are
the enumerator values recorded by the per-entry `/*0xNNN*/` comments. -/
def manifest : List ManifestEntry := [
  ManifestEntry.client 0x001 "CMSG_BOOTME" SessionStatus.STATUS_NEVER PacketProcessing.PROCESS_INPLACE "Handle_NULL",
  ManifestEntry.client 0x002 "CMSG_DBLOOKUP" SessionStatus.STATUS_NEVER PacketProcessing.PROCESS_INPLACE "Handle_NULL",
  ManifestEntry.server 0x003 "SMSG_DBLOOKUP" SessionStatus.STATUS_NEVER,
  ManifestEntry.client 0x004 "CMSG_QUERY_OBJECT_POSITION" SessionStatus.STATUS_NEVER PacketProcessing.PROCESS_INPLACE "Handle_NULL",
  ManifestEntry.server 0x005 "SMSG_QUERY_OBJECT_POSITION" SessionStatus.STATUS_NEVER,
  ManifestEntry.client 0x006 "CMSG_QUERY_OBJECT_ROTATION" SessionStatus.STATUS_NEVER PacketProcessing.PROCESS_INPLACE "Handle_NULL",
  ManifestEntry.server 0x007 "SMSG_QUERY_OBJECT_ROTATION" SessionStatus.STATUS_NEVER,
  ManifestEntry.client 0x008 "CMSG_WORLD_TELEPORT" SessionStatus.STATUS_LOGGEDIN PacketProcessing.PROCESS_THREADUNSAFE "HandleWorldTeleportOpcode",
  ManifestEntry.client 0x009 "CMSG_TELEPORT_TO_UNIT" SessionStatus.STATUS_LOGGEDIN PacketProcessing.PROCESS_INPLACE "Handle_NULL",
  ManifestEntry.client 0x00A "CMSG_ZONE_MAP" SessionStatus.STATUS_NEVER PacketProcessing.PROCESS_INPLACE "Handle_NULL",
  ManifestEntry.server 0x00B "SMSG_ZONE_MAP" SessionStatus.STATUS_NEVER,
  ManifestEntry.client 0x00C "CMSG_DEBUG_CHANGECELLZONE" SessionStatus.STATUS_NEVER PacketProcessing.PROCESS_INPLACE "Handle_NULL",
  ManifestEntry.client 0x00D "CMSG_MOVE_CHARACTER_CHEAT" SessionStatus.STATUS_NEVER PacketProcessing.PROCESS_INPLACE "Handle_NULL",
  ManifestEntry.server 0x00E "SMSG_MOVE_CHARACTER_CHEAT" SessionStatus.STATUS_NEVER,
  ManifestEntry.client 0x00F "CMSG_RECHARGE" SessionStatus.STATUS_NEVER PacketProcessing.PROCESS_INPLACE "Handle_NULL",
  ManifestEntry.client 0x010 "CMSG_LEARN_SPELL" SessionStatus.STATUS_NEVER PacketProcessing.PROCESS_INPLACE "Handle_NULL",
  ManifestEntry.client 0x011 "CMSG_CREATEMONSTER" SessionStatus.STATUS_NEVER PacketProcessing.PROCESS_INPLACE "Handle_NULL",
  ManifestEntry.client 0x012 "CMSG_DESTROYMONSTER" SessionStatus.STATUS_NEVER PacketProcessing.PROCESS_INPLACE "Handle_NULL",
  ManifestEntry.client 0x013 "CMSG_CREATEITEM" SessionStatus.STATUS_NEVER PacketProcessing.PROCESS_INPLACE "Handle_NULL",
  ManifestEntry.client 0x014 "CMSG_CREATEGAMEOBJECT" SessionStatus.STATUS_NEVER PacketProcessing.PROCESS_INPLACE "Handle_NULL",
  ManifestEntry.server 0x015 "SMSG_CHECK_FOR_BOTS" SessionStatus.STATUS_NEVER,
  ManifestEntry.client 0x016 "CMSG_MAKEMONSTERATTACKGUID" SessionStatus.STATUS_NEVER PacketProcessing.PROCESS_INPLACE "Handle_NULL",
  ManifestEntry.client 0x017 "CMSG_BOT_DETECTED2" SessionStatus.STATUS_NEVER PacketProcessing.PROCESS_INPLACE "Handle_NULL",
  ManifestEntry.client 0x018 "CMSG_FORCEACTION" SessionStatus.STATUS_NEVER PacketProcessing.PROCESS_INPLACE "Handle_NULL",
  ManifestEntry.client 0x019 "CMSG_FORCEACTIONONOTHER" SessionStatus.STATUS_NEVER PacketProcessing.PROCESS_INPLACE "Handle_NULL",
  ManifestEntry.client 0x01A "CMSG_FORCEACTIONSHOW" SessionStatus.STATUS_NEVER PacketProcessing.PROCESS_INPLACE "Handle_NULL",
  ManifestEntry.server 0x01B "SMSG_FORCEACTIONSHOW" SessionStatus.STATUS_NEVER,
  ManifestEntry.client 0x01C "CMSG_PETGODMODE" SessionStatus.STATUS_NEVER PacketProcessing.PROCESS_INPLACE "Handle_NULL",
  ManifestEntry.server 0x01D "SMSG_PETGODMODE" SessionStatus.STATUS_NEVER,
  ManifestEntry.server 0x01E "SMSG_REFER_A_FRIEND_EXPIRED" SessionStatus.STATUS_NEVER,
  ManifestEntry.client 0x01F "CMSG_WEATHER_SPEED_CHEAT" SessionStatus.STATUS_NEVER PacketProcessing.PROCESS_INPLACE "Handle_NULL",
  ManifestEntry.client 0x020 "CMSG_UNDRESSPLAYER" SessionStatus.STATUS_NEVER PacketProcessing.PROCESS_INPLACE "Handle_NULL",
  ManifestEntry.client 0x021 "CMSG_BEASTMASTER" SessionStatus.STATUS_NEVER PacketProcessing.PROCESS_INPLACE "Handle_NULL",
  ManifestEntry.client 0x022 "CMSG_GODMODE" SessionStatus.STATUS_NEVER PacketProcessing.PROCESS_INPLACE "Handle_NULL",
  ManifestEntry.server 0x023 "SMSG_GODMODE" SessionStatus.STATUS_NEVER,
  ManifestEntry.client 0x024 "CMSG_CHEAT_SETMONEY" SessionStatus.STATUS_NEVER PacketProcessing.PROCESS_INPLACE "Handle_NULL",
  ManifestEntry.client 0x025 "CMSG_LEVEL_CHEAT" SessionStatus.STATUS_NEVER PacketProcessing.PROCESS_INPLACE "Handle_NULL",
  ManifestEntry.client 0x026 "CMSG_PET_LEVEL_CHEAT" SessionStatus.STATUS_NEVER PacketProcessing.PROCESS_INPLACE "Handle_NULL",
  ManifestEntry.client 0x027 "CMSG_SET_WORLDSTATE" SessionStatus.STATUS_NEVER PacketProcessing.PROCESS_INPLACE "Handle_NULL",
  ManifestEntry.client 0x028 "CMSG_COOLDOWN_CHEAT" SessionStatus.STATUS_NEVER PacketProcessing.PROCESS_INPLACE "Handle_NULL",
  ManifestEntry.client 0x029 "CMSG_USE_SKILL_CHEAT" SessionStatus.STATUS_NEVER PacketProcessing.PROCESS_INPLACE "Handle_NULL",
  ManifestEntry.client 0x02A "CMSG_FLAG_QUEST" SessionStatus.STATUS_NEVER PacketProcessing.PROCESS_INPLACE "Handle_NULL",
  ManifestEntry.client 0x02B "CMSG_FLAG_QUEST_FINISH" SessionStatus.STATUS_NEVER PacketProcessing.PROCESS_INPLACE "Handle_NULL",
  ManifestEntry.client 0x02C "CMSG_CLEAR_QUEST" SessionStatus.STATUS_NEVER PacketProcessing.PROCESS_INPLACE "Handle_NULL",
  ManifestEntry.client 0x02D "CMSG_SEND_EVENT" SessionStatus.STATUS_NEVER PacketProcessing.PROCESS_INPLACE "Handle_NULL",
  ManifestEntry.client 0x02E "CMSG_DEBUG_AISTATE" SessionStatus.STATUS_NEVER PacketProcessing.PROCESS_INPLACE "Handle_NULL",
  ManifestEntry.server 0x02F "SMSG_DEBUG_AISTATE" SessionStatus.STATUS_NEVER,
  ManifestEntry.client 0x030 "CMSG_DISABLE_PVP_CHEAT" SessionStatus.STATUS_NEVER PacketProcessing.PROCESS_INPLACE "Handle_NULL",
  ManifestEntry.client 0x031 "CMSG_ADVANCE_SPAWN_TIME" SessionStatus.STATUS_NEVER PacketProcessing.PROCESS_INPLACE "Handle_NULL",
  ManifestEntry.server 0x032 "SMSG_DESTRUCTIBLE_BUILDING_DAMAGE" SessionStatus.STATUS_NEVER,
  ManifestEntry.client 0x033 "CMSG_AUTH_SRP6_BEGIN" SessionStatus.STATUS_NEVER PacketProcessing.PROCESS_INPLACE "Handle_NULL",
  ManifestEntry.client 0x034 "CMSG_AUTH_SRP6_PROOF" SessionStatus.STATUS_NEVER PacketProcessing.PROCESS_INPLACE "Handle_NULL",
  ManifestEntry.client 0x035 "CMSG_AUTH_SRP6_RECODE" SessionStatus.STATUS_NEVER PacketProcessing.PROCESS_INPLACE "Handle_NULL",
  ManifestEntry.client 0x036 "CMSG_CHAR_CREATE" SessionStatus.STATUS_AUTHED PacketProcessing.PROCESS_THREADUNSAFE "HandleCharCreateOpcode",
  ManifestEntry.client 0x037 "CMSG_CHAR_ENUM" SessionStatus.STATUS_AUTHED PacketProcessing.PROCESS_THREADUNSAFE "HandleCharEnumOpcode",
  ManifestEntry.client 0x038 "CMSG_CHAR_DELETE" SessionStatus.STATUS_AUTHED PacketProcessing.PROCESS_THREADUNSAFE "HandleCharDeleteOpcode",
  ManifestEntry.server 0x039 "SMSG_AUTH_SRP6_RESPONSE" SessionStatus.STATUS_NEVER,
  ManifestEntry.server 0x03A "SMSG_CHAR_CREATE" SessionStatus.STATUS_NEVER,
  ManifestEntry.server 0x03B "SMSG_CHAR_ENUM" SessionStatus.STATUS_NEVER,
  ManifestEntry.server 0x03C "SMSG_CHAR_DELETE" SessionStatus.STATUS_NEVER,
  ManifestEntry.client 0x03D "CMSG_PLAYER_LOGIN" SessionStatus.STATUS_AUTHED PacketProcessing.PROCESS_THREADUNSAFE "HandlePlayerLoginOpcode",
  ManifestEntry.server 0x03E "SMSG_NEW_WORLD" SessionStatus.STATUS_NEVER,
  ManifestEntry.server 0x03F "SMSG_TRANSFER_PENDING" SessionStatus.STATUS_NEVER,
  ManifestEntry.server 0x040 "SMSG_TRANSFER_ABORTED" SessionStatus.STATUS_NEVER,
  ManifestEntry.server 0x041 "SMSG_CHARACTER_LOGIN_FAILED" SessionStatus.STATUS_NEVER,
  ManifestEntry.server 0x042 "SMSG_LOGIN_SETTIMESPEED" SessionStatus.STATUS_NEVER,
  ManifestEntry.server 0x043 "SMSG_GAMETIME_UPDATE" SessionStatus.STATUS_NEVER,
  ManifestEntry.client 0x044 "CMSG_GAMETIME_SET" SessionStatus.STATUS_NEVER PacketProcessing.PROCESS_INPLACE "Handle_NULL",
  ManifestEntry.server 0x045 "SMSG_GAMETIME_SET" SessionStatus.STATUS_NEVER,
  ManifestEntry.client 0x046 "CMSG_GAMESPEED_SET" SessionStatus.STATUS_NEVER PacketProcessing.PROCESS_INPLACE "Handle_NULL",
  ManifestEntry.server 0x047 "SMSG_GAMESPEED_SET" SessionStatus.STATUS_NEVER,
  ManifestEntry.client 0x048 "CMSG_SERVERTIME" SessionStatus.STATUS_NEVER PacketProcessing.PROCESS_INPLACE "Handle_NULL",
  ManifestEntry.server 0x049 "SMSG_SERVERTIME" SessionStatus.STATUS_NEVER,
  ManifestEntry.client 0x04A "CMSG_PLAYER_LOGOUT" SessionStatus.STATUS_LOGGEDIN PacketProcessing.PROCESS_THREADUNSAFE "HandlePlayerLogoutOpcode",
  ManifestEntry.client 0x04B "CMSG_LOGOUT_REQUEST" SessionStatus.STATUS_LOGGEDIN PacketProcessing.PROCESS_THREADUNSAFE "HandleLogoutRequestOpcode",
  ManifestEntry.server 0x04C "SMSG_LOGOUT_RESPONSE" SessionStatus.STATUS_NEVER,
  ManifestEntry.server 0x04D "SMSG_LOGOUT_COMPLETE" SessionStatus.STATUS_NEVER,
  ManifestEntry.client 0x04E "CMSG_LOGOUT_CANCEL" SessionStatus.STATUS_LOGGEDIN_OR_RECENTLY_LOGGOUT PacketProcessing.PROCESS_THREADUNSAFE "HandleLogoutCancelOpcode",
  ManifestEntry.server 0x04F "SMSG_LOGOUT_CANCEL_ACK" SessionStatus.STATUS_NEVER,
  ManifestEntry.client 0x050 "CMSG_NAME_QUERY" SessionStatus.STATUS_LOGGEDIN PacketProcessing.PROCESS_INPLACE "HandleNameQueryOpcode",
  ManifestEntry.server 0x051 "SMSG_NAME_QUERY_RESPONSE" SessionStatus.STATUS_NEVER,
  ManifestEntry.client 0x052 "CMSG_PET_NAME_QUERY" SessionStatus.STATUS_LOGGEDIN PacketProcessing.PROCESS_INPLACE "HandlePetNameQuery",
  ManifestEntry.server 0x053 "SMSG_PET_NAME_QUERY_RESPONSE" SessionStatus.STATUS_NEVER,
  ManifestEntry.client 0x054 "CMSG_GUILD_QUERY" SessionStatus.STATUS_AUTHED PacketProcessing.PROCESS_THREADUNSAFE "HandleGuildQueryOpcode",
  ManifestEntry.server 0x055 "SMSG_GUILD_QUERY_RESPONSE" SessionStatus.STATUS_NEVER,
  ManifestEntry.client 0x056 "CMSG_ITEM_QUERY_SINGLE" SessionStatus.STATUS_LOGGEDIN PacketProcessing.PROCESS_THREADSAFE "HandleItemQuerySingleOpcode",
  ManifestEntry.client 0x057 "CMSG_ITEM_QUERY_MULTIPLE" SessionStatus.STATUS_NEVER PacketProcessing.PROCESS_INPLACE "Handle_NULL",
  ManifestEntry.server 0x058 "SMSG_ITEM_QUERY_SINGLE_RESPONSE" SessionStatus.STATUS_NEVER,
  ManifestEntry.server 0x059 "SMSG_ITEM_QUERY_MULTIPLE_RESPONSE" SessionStatus.STATUS_NEVER,
  ManifestEntry.client 0x05A "CMSG_PAGE_TEXT_QUERY" SessionStatus.STATUS_LOGGEDIN PacketProcessing.PROCESS_INPLACE "HandlePageTextQueryOpcode",
  ManifestEntry.server 0x05B "SMSG_PAGE_TEXT_QUERY_RESPONSE" SessionStatus.STATUS_NEVER,
  ManifestEntry.client 0x05C "CMSG_QUEST_QUERY" SessionStatus.STATUS_LOGGEDIN PacketProcessing.PROCESS_INPLACE "HandleQuestQueryOpcode",
  ManifestEntry.server 0x05D "SMSG_QUEST_QUERY_RESPONSE" SessionStatus.STATUS_NEVER,
  ManifestEntry.client 0x05E "CMSG_GAMEOBJECT_QUERY" SessionStatus.STATUS_LOGGEDIN PacketProcessing.PROCESS_THREADSAFE "HandleGameObjectQueryOpcode",
  ManifestEntry.server 0x05F "SMSG_GAMEOBJECT_QUERY_RESPONSE" SessionStatus.STATUS_NEVER,
  ManifestEntry.client 0x060 "CMSG_CREATURE_QUERY" SessionStatus.STATUS_LOGGEDIN PacketProcessing.PROCESS_THREADSAFE "HandleCreatureQueryOpcode",
  ManifestEntry.server 0x061 "SMSG_CREATURE_QUERY_RESPONSE" SessionStatus.STATUS_NEVER,
  ManifestEntry.client 0x062 "CMSG_WHO" SessionStatus.STATUS_LOGGEDIN PacketProcessing.PROCESS_THREADSAFE "HandleWhoOpcode",
  ManifestEntry.server 0x063 "SMSG_WHO" SessionStatus.STATUS_NEVER,
  ManifestEntry.client 0x064 "CMSG_WHOIS" SessionStatus.STATUS_LOGGEDIN PacketProcessing.PROCESS_THREADUNSAFE "HandleWhoisOpcode",
  ManifestEntry.server 0x065 "SMSG_WHOIS" SessionStatus.STATUS_NEVER,
  ManifestEntry.client 0x066 "CMSG_CONTACT_LIST" SessionStatus.STATUS_LOGGEDIN PacketProcessing.PROCESS_THREADSAFE "HandleContactListOpcode",
  ManifestEntry.server 0x067 "SMSG_CONTACT_LIST" SessionStatus.STATUS_NEVER,
  ManifestEntry.server 0x068 "SMSG_FRIEND_STATUS" SessionStatus.STATUS_NEVER,
  ManifestEntry.client 0x069 "CMSG_ADD_FRIEND" SessionStatus.STATUS_LOGGEDIN PacketProcessing.PROCESS_THREADUNSAFE "HandleAddFriendOpcode",
  ManifestEntry.client 0x06A "CMSG_DEL_FRIEND" SessionStatus.STATUS_LOGGEDIN PacketProcessing.PROCESS_THREADUNSAFE "HandleDelFriendOpcode",
  ManifestEntry.client 0x06B "CMSG_SET_CONTACT_NOTES" SessionStatus.STATUS_LOGGEDIN PacketProcessing.PROCESS_THREADUNSAFE "HandleSetContactNotesOpcode",
  ManifestEntry.client 0x06C "CMSG_ADD_IGNORE" SessionStatus.STATUS_LOGGEDIN PacketProcessing.PROCESS_THREADUNSAFE "HandleAddIgnoreOpcode",
  ManifestEntry.client 0x06D "CMSG_DEL_IGNORE" SessionStatus.STATUS_LOGGEDIN PacketProcessing.PROCESS_THREADUNSAFE "HandleDelIgnoreOpcode",
  ManifestEntry.client 0x06E "CMSG_GROUP_INVITE" SessionStatus.STATUS_LOGGEDIN PacketProcessing.PROCESS_THREADUNSAFE "HandleGroupInviteOpcode",
  ManifestEntry.server 0x06F "SMSG_GROUP_INVITE" SessionStatus.STATUS_NEVER,
  ManifestEntry.client 0x070 "CMSG_GROUP_CANCEL" SessionStatus.STATUS_LOGGEDIN PacketProcessing.PROCESS_INPLACE "Handle_NULL",
  ManifestEntry.server 0x071 "SMSG_GROUP_CANCEL" SessionStatus.STATUS_NEVER,
  ManifestEntry.client 0x072 "CMSG_GROUP_ACCEPT" SessionStatus.STATUS_LOGGEDIN PacketProcessing.PROCESS_THREADUNSAFE "HandleGroupAcceptOpcode",
  ManifestEntry.client 0x073 "CMSG_GROUP_DECLINE" SessionStatus.STATUS_LOGGEDIN PacketProcessing.PROCESS_THREADUNSAFE "HandleGroupDeclineOpcode",
  ManifestEntry.server 0x074 "SMSG_GROUP_DECLINE" SessionStatus.STATUS_NEVER,
  ManifestEntry.client 0x075 "CMSG_GROUP_UNINVITE" SessionStatus.STATUS_LOGGEDIN PacketProcessing.PROCESS_THREADUNSAFE "HandleGroupUninviteOpcode",
  ManifestEntry.client 0x076 "CMSG_GROUP_UNINVITE_GUID" SessionStatus.STATUS_LOGGEDIN PacketProcessing.PROCESS_THREADUNSAFE "HandleGroupUninviteGuidOpcode",
  ManifestEntry.server 0x077 "SMSG_GROUP_UNINVITE" SessionStatus.STATUS_NEVER,
  ManifestEntry.client 0x078 "CMSG_GROUP_SET_LEADER" SessionStatus.STATUS_LOGGEDIN PacketProcessing.PROCESS_THREADUNSAFE "HandleGroupSetLeaderOpcode",
  ManifestEntry.server 0x079 "SMSG_GROUP_SET_LEADER" SessionStatus.STATUS_NEVER,
  ManifestEntry.client 0x07A "CMSG_LOOT_METHOD" SessionStatus.STATUS_LOGGEDIN PacketProcessing.PROCESS_THREADUNSAFE "HandleLootMethodOpcode",
  ManifestEntry.client 0x07B "CMSG_GROUP_DISBAND" SessionStatus.STATUS_LOGGEDIN PacketProcessing.PROCESS_THREADUNSAFE "HandleGroupDisbandOpcode",
  ManifestEntry.server 0x07C "SMSG_GROUP_DESTROYED" SessionStatus.STATUS_NEVER,
  ManifestEntry.server 0x07D "SMSG_GROUP_LIST" SessionStatus.STATUS_NEVER,
  ManifestEntry.server 0x07E "SMSG_PARTY_MEMBER_STATS" SessionStatus.STATUS_NEVER,
  ManifestEntry.server 0x07F "SMSG_PARTY_COMMAND_RESULT" SessionStatus.STATUS_NEVER,
  ManifestEntry.client 0x080 "UMSG_UPDATE_GROUP_MEMBERS" SessionStatus.STATUS_NEVER PacketProcessing.PROCESS_INPLACE "Handle_NULL",
  ManifestEntry.client 0x081 "CMSG_GUILD_CREATE" SessionStatus.STATUS_LOGGEDIN PacketProcessing.PROCESS_THREADUNSAFE "HandleGuildCreateOpcode",
  ManifestEntry.client 0x082 "CMSG_GUILD_INVITE" SessionStatus.STATUS_LOGGEDIN PacketProcessing.PROCESS_THREADUNSAFE "HandleGuildInviteOpcode",
  ManifestEntry.server 0x083 "SMSG_GUILD_INVITE" SessionStatus.STATUS_NEVER,
  ManifestEntry.client 0x084 "CMSG_GUILD_ACCEPT" SessionStatus.STATUS_LOGGEDIN PacketProcessing.PROCESS_THREADUNSAFE "HandleGuildAcceptOpcode",
  ManifestEntry.client 0x085 "CMSG_GUILD_DECLINE" SessionStatus.STATUS_LOGGEDIN PacketProcessing.PROCESS_THREADUNSAFE "HandleGuildDeclineOpcode",
  ManifestEntry.server 0x086 "SMSG_GUILD_DECLINE" SessionStatus.STATUS_NEVER,
  ManifestEntry.client 0x087 "CMSG_GUILD_INFO" SessionStatus.STATUS_LOGGEDIN PacketProcessing.PROCESS_THREADUNSAFE "HandleGuildInfoOpcode",
  ManifestEntry.server 0x088 "SMSG_GUILD_INFO" SessionStatus.STATUS_NEVER,
  ManifestEntry.client 0x089 "CMSG_GUILD_ROSTER" SessionStatus.STATUS_LOGGEDIN PacketProcessing.PROCESS_THREADUNSAFE "HandleGuildRosterOpcode",
  ManifestEntry.server 0x08A "SMSG_GUILD_ROSTER" SessionStatus.STATUS_NEVER,
  ManifestEntry.client 0x08B "CMSG_GUILD_PROMOTE" SessionStatus.STATUS_LOGGEDIN PacketProcessing.PROCESS_THREADUNSAFE "HandleGuildPromoteOpcode",
  ManifestEntry.client 0x08C "CMSG_GUILD_DEMOTE" SessionStatus.STATUS_LOGGEDIN PacketProcessing.PROCESS_THREADUNSAFE "HandleGuildDemoteOpcode",
  ManifestEntry.client 0x08D "CMSG_GUILD_LEAVE" SessionStatus.STATUS_LOGGEDIN PacketProcessing.PROCESS_THREADUNSAFE "HandleGuildLeaveOpcode",
  ManifestEntry.client 0x08E "CMSG_GUILD_REMOVE" SessionStatus.STATUS_LOGGEDIN PacketProcessing.PROCESS_THREADUNSAFE "HandleGuildRemoveOpcode",
  ManifestEntry.client 0x08F "CMSG_GUILD_DISBAND" SessionStatus.STATUS_LOGGEDIN PacketProcessing.PROCESS_THREADUNSAFE "HandleGuildDisbandOpcode",
  ManifestEntry.client 0x090 "CMSG_GUILD_LEADER" SessionStatus.STATUS_LOGGEDIN PacketProcessing.PROCESS_THREADUNSAFE "HandleGuildLeaderOpcode",
  ManifestEntry.client 0x091 "CMSG_GUILD_MOTD" SessionStatus.STATUS_LOGGEDIN PacketProcessing.PROCESS_THREADUNSAFE "HandleGuildMOTDOpcode",
  ManifestEntry.server 0x092 "SMSG_GUILD_EVENT" SessionStatus.STATUS_NEVER,
  ManifestEntry.server 0x093 "SMSG_GUILD_COMMAND_RESULT" SessionStatus.STATUS_NEVER,
  ManifestEntry.client 0x094 "UMSG_UPDATE_GUILD" SessionStatus.STATUS_NEVER PacketProcessing.PROCESS_INPLACE "Handle_NULL",
  ManifestEntry.client 0x095 "CMSG_MESSAGECHAT" SessionStatus.STATUS_LOGGEDIN PacketProcessing.PROCESS_THREADUNSAFE "HandleMessagechatOpcode",
  ManifestEntry.server 0x096 "SMSG_MESSAGECHAT" SessionStatus.STATUS_NEVER,
  ManifestEntry.client 0x097 "CMSG_JOIN_CHANNEL" SessionStatus.STATUS_LOGGEDIN PacketProcessing.PROCESS_THREADUNSAFE "HandleJoinChannel",
  ManifestEntry.client 0x098 "CMSG_LEAVE_CHANNEL" SessionStatus.STATUS_LOGGEDIN PacketProcessing.PROCESS_THREADUNSAFE "HandleLeaveChannel",
  ManifestEntry.server 0x099 "SMSG_CHANNEL_NOTIFY" SessionStatus.STATUS_NEVER,
  ManifestEntry.client 0x09A "CMSG_CHANNEL_LIST" SessionStatus.STATUS_LOGGEDIN PacketProcessing.PROCESS_THREADUNSAFE "HandleChannelList",
  ManifestEntry.server 0x09B "SMSG_CHANNEL_LIST" SessionStatus.STATUS_NEVER,
  ManifestEntry.client 0x09C "CMSG_CHANNEL_PASSWORD" SessionStatus.STATUS_LOGGEDIN PacketProcessing.PROCESS_THREADUNSAFE "HandleChannelPassword",
  ManifestEntry.client 0x09D "CMSG_CHANNEL_SET_OWNER" SessionStatus.STATUS_LOGGEDIN PacketProcessing.PROCESS_THREADUNSAFE "HandleChannelSetOwner",
  ManifestEntry.client 0x09E "CMSG_CHANNEL_OWNER" SessionStatus.STATUS_LOGGEDIN PacketProcessing.PROCESS_THREADUNSAFE "HandleChannelOwner",
  ManifestEntry.client 0x09F "CMSG_CHANNEL_MODERATOR" SessionStatus.STATUS_LOGGEDIN PacketProcessing.PROCESS_THREADUNSAFE "HandleChannelModerator",
  ManifestEntry.client 0x0A0 "CMSG_CHANNEL_UNMODERATOR" SessionStatus.STATUS_LOGGEDIN PacketProcessing.PROCESS_THREADUNSAFE "HandleChannelUnmoderator",
  ManifestEntry.client 0x0A1 "CMSG_CHANNEL_MUTE" SessionStatus.STATUS_LOGGEDIN PacketProcessing.PROCESS_THREADUNSAFE "HandleChannelMute",
  ManifestEntry.client 0x0A2 "CMSG_CHANNEL_UNMUTE" SessionStatus.STATUS_LOGGEDIN PacketProcessing.PROCESS_THREADUNSAFE "HandleChannelUnmute",
  ManifestEntry.client 0x0A3 "CMSG_CHANNEL_INVITE" SessionStatus.STATUS_LOGGEDIN PacketProcessing.PROCESS_THREADUNSAFE "HandleChannelInvite",
  ManifestEntry.client 0x0A4 "CMSG_CHANNEL_KICK" SessionStatus.STATUS_LOGGEDIN PacketProcessing.PROCESS_THREADUNSAFE "HandleChannelKick",
  ManifestEntry.client 0x0A5 "CMSG_CHANNEL_BAN" SessionStatus.STATUS_LOGGEDIN PacketProcessing.PROCESS_THREADUNSAFE "HandleChannelBan",
  ManifestEntry.client 0x0A6 "CMSG_CHANNEL_UNBAN" SessionStatus.STATUS_LOGGEDIN PacketProcessing.PROCESS_THREADUNSAFE "HandleChannelUnban",
  ManifestEntry.client 0x0A7 "CMSG_CHANNEL_ANNOUNCEMENTS" SessionStatus.STATUS_LOGGEDIN PacketProcessing.PROCESS_THREADUNSAFE "HandleChannelAnnouncements",
  ManifestEntry.client 0x0A8 "CMSG_CHANNEL_MODERATE" SessionStatus.STATUS_LOGGEDIN PacketProcessing.PROCESS_THREADUNSAFE "HandleChannelModerateOpcode",
  ManifestEntry.server 0x0A9 "SMSG_UPDATE_OBJECT" SessionStatus.STATUS_NEVER,
  ManifestEntry.server 0x0AA "SMSG_DESTROY_OBJECT" SessionStatus.STATUS_NEVER,
  ManifestEntry.client 0x0AB "CMSG_USE_ITEM" SessionStatus.STATUS_LOGGEDIN PacketProcessing.PROCESS_INPLACE "HandleUseItemOpcode",
  ManifestEntry.client 0x0AC "CMSG_OPEN_ITEM" SessionStatus.STATUS_LOGGEDIN PacketProcessing.PROCESS_INPLACE "HandleOpenItemOpcode",
  ManifestEntry.client 0x0AD "CMSG_READ_ITEM" SessionStatus.STATUS_LOGGEDIN PacketProcessing.PROCESS_INPLACE "HandleReadItem",
  ManifestEntry.server 0x0AE "SMSG_READ_ITEM_OK" SessionStatus.STATUS_NEVER,
  ManifestEntry.server 0x0AF "SMSG_READ_ITEM_FAILED" SessionStatus.STATUS_NEVER,
  ManifestEntry.server 0x0B0 "SMSG_ITEM_COOLDOWN" SessionStatus.STATUS_NEVER,
  ManifestEntry.client 0x0B1 "CMSG_GAMEOBJ_USE" SessionStatus.STATUS_LOGGEDIN PacketProcessing.PROCESS_INPLACE "HandleGameObjectUseOpcode",
  ManifestEntry.client 0x0B2 "CMSG_DESTROY_ITEMS" SessionStatus.STATUS_NEVER PacketProcessing.PROCESS_INPLACE "Handle_NULL",
  ManifestEntry.server 0x0B3 "SMSG_GAMEOBJECT_CUSTOM_ANIM" SessionStatus.STATUS_NEVER,
  ManifestEntry.client 0x0B4 "CMSG_AREATRIGGER" SessionStatus.STATUS_LOGGEDIN PacketProcessing.PROCESS_INPLACE "HandleAreaTriggerOpcode",
  ManifestEntry.client 0x0B5 "MSG_MOVE_START_FORWARD" SessionStatus.STATUS_LOGGEDIN PacketProcessing.PROCESS_THREADSAFE "HandleMovementOpcodes",
  ManifestEntry.client 0x0B6 "MSG_MOVE_START_BACKWARD" SessionStatus.STATUS_LOGGEDIN PacketProcessing.PROCESS_THREADSAFE "HandleMovementOpcodes",
  ManifestEntry.client 0x0B7 "MSG_MOVE_STOP" SessionStatus.STATUS_LOGGEDIN PacketProcessing.PROCESS_THREADSAFE "HandleMovementOpcodes",
  ManifestEntry.client 0x0B8 "MSG_MOVE_START_STRAFE_LEFT" SessionStatus.STATUS_LOGGEDIN PacketProcessing.PROCESS_THREADSAFE "HandleMovementOpcodes",
  ManifestEntry.client 0x0B9 "MSG_MOVE_START_STRAFE_RIGHT" SessionStatus.STATUS_LOGGEDIN PacketProcessing.PROCESS_THREADSAFE "HandleMovementOpcodes",
  ManifestEntry.client 0x0BA "MSG_MOVE_STOP_STRAFE" SessionStatus.STATUS_LOGGEDIN PacketProcessing.PROCESS_THREADSAFE "HandleMovementOpcodes",
  ManifestEntry.client 0x0BB "MSG_MOVE_JUMP" SessionStatus.STATUS_LOGGEDIN PacketProcessing.PROCESS_THREADSAFE "HandleMovementOpcodes",
  ManifestEntry.client 0x0BC "MSG_MOVE_START_TURN_LEFT" SessionStatus.STATUS_LOGGEDIN PacketProcessing.PROCESS_THREADSAFE "HandleMovementOpcodes",
  ManifestEntry.client 0x0BD "MSG_MOVE_START_TURN_RIGHT" SessionStatus.STATUS_LOGGEDIN PacketProcessing.PROCESS_THREADSAFE "HandleMovementOpcodes",
  ManifestEntry.client 0x0BE "MSG_MOVE_STOP_TURN" SessionStatus.STATUS_LOGGEDIN PacketProcessing.PROCESS_THREADSAFE "HandleMovementOpcodes",
  ManifestEntry.client 0x0BF "MSG_MOVE_START_PITCH_UP" SessionStatus.STATUS_LOGGEDIN PacketProcessing.PROCESS_THREADSAFE "HandleMovementOpcodes",
  ManifestEntry.client 0x0C0 "MSG_MOVE_START_PITCH_DOWN" SessionStatus.STATUS_LOGGEDIN PacketProcessing.PROCESS_THREADSAFE "HandleMovementOpcodes",
  ManifestEntry.client 0x0C1 "MSG_MOVE_STOP_PITCH" SessionStatus.STATUS_LOGGEDIN PacketProcessing.PROCESS_THREADSAFE "HandleMovementOpcodes",
  ManifestEntry.client 0x0C2 "MSG_MOVE_SET_RUN_MODE" SessionStatus.STATUS_LOGGEDIN PacketProcessing.PROCESS_THREADSAFE "HandleMovementOpcodes",
  ManifestEntry.client 0x0C3 "MSG_MOVE_SET_WALK_MODE" SessionStatus.STATUS_LOGGEDIN PacketProcessing.PROCESS_THREADSAFE "HandleMovementOpcodes",
  ManifestEntry.client 0x0C4 "MSG_MOVE_TOGGLE_LOGGING" SessionStatus.STATUS_NEVER PacketProcessing.PROCESS_INPLACE "Handle_NULL",
  ManifestEntry.client 0x0C5 "MSG_MOVE_TELEPORT" SessionStatus.STATUS_NEVER PacketProcessing.PROCESS_INPLACE "Handle_NULL",
  ManifestEntry.client 0x0C6 "MSG_MOVE_TELEPORT_CHEAT" SessionStatus.STATUS_NEVER PacketProcessing.PROCESS_INPLACE "Handle_NULL",
  ManifestEntry.client 0x0C7 "MSG_MOVE_TELEPORT_ACK" SessionStatus.STATUS_LOGGEDIN PacketProcessing.PROCESS_THREADSAFE "HandleMoveTeleportAck",
  ManifestEntry.client 0x0C8 "MSG_MOVE_TOGGLE_FALL_LOGGING" SessionStatus.STATUS_NEVER PacketProcessing.PROCESS_INPLACE "Handle_NULL",
  ManifestEntry.client 0x0C9 "MSG_MOVE_FALL_LAND" SessionStatus.STATUS_LOGGEDIN PacketProcessing.PROCESS_THREADSAFE "HandleMovementOpcodes",
  ManifestEntry.client 0x0CA "MSG_MOVE_START_SWIM" SessionStatus.STATUS_LOGGEDIN PacketProcessing.PROCESS_THREADSAFE "HandleMovementOpcodes",
  ManifestEntry.client 0x0CB "MSG_MOVE_STOP_SWIM" SessionStatus.STATUS_LOGGEDIN PacketProcessing.PROCESS_THREADSAFE "HandleMovementOpcodes",
  ManifestEntry.client 0x0CC "MSG_MOVE_SET_RUN_SPEED_CHEAT" SessionStatus.STATUS_NEVER PacketProcessing.PROCESS_INPLACE "Handle_NULL",
  ManifestEntry.client 0x0CD "MSG_MOVE_SET_RUN_SPEED" SessionStatus.STATUS_NEVER PacketProcessing.PROCESS_INPLACE "Handle_NULL",
  ManifestEntry.client 0x0CE "MSG_MOVE_SET_RUN_BACK_SPEED_CHEAT" SessionStatus.STATUS_NEVER PacketProcessing.PROCESS_INPLACE "Handle_NULL",
  ManifestEntry.client 0x0CF "MSG_MOVE_SET_RUN_BACK_SPEED" SessionStatus.STATUS_NEVER PacketProcessing.PROCESS_INPLACE "Handle_NULL",
  ManifestEntry.client 0x0D0 "MSG_MOVE_SET_WALK_SPEED_CHEAT" SessionStatus.STATUS_NEVER PacketProcessing.PROCESS_INPLACE "Handle_NULL",
  ManifestEntry.client 0x0D1 "MSG_MOVE_SET_WALK_SPEED" SessionStatus.STATUS_NEVER PacketProcessing.PROCESS_INPLACE "Handle_NULL",
  ManifestEntry.client 0x0D2 "MSG_MOVE_SET_SWIM_SPEED_CHEAT" SessionStatus.STATUS_NEVER PacketProcessing.PROCESS_INPLACE "Handle_NULL",
  ManifestEntry.client 0x0D3 "MSG_MOVE_SET_SWIM_SPEED" SessionStatus.STATUS_NEVER PacketProcessing.PROCESS_INPLACE "Handle_NULL",
  ManifestEntry.client 0x0D4 "MSG_MOVE_SET_SWIM_BACK_SPEED_CHEAT" SessionStatus.STATUS_NEVER PacketProcessing.PROCESS_INPLACE "Handle_NULL",
  ManifestEntry.client 0x0D5 "MSG_MOVE_SET_SWIM_BACK_SPEED" SessionStatus.STATUS_NEVER PacketProcessing.PROCESS_INPLACE "Handle_NULL",
  ManifestEntry.client 0x0D6 "MSG_MOVE_SET_ALL_SPEED_CHEAT" SessionStatus.STATUS_NEVER PacketProcessing.PROCESS_INPLACE "Handle_NULL",
  ManifestEntry.client 0x0D7 "MSG_MOVE_SET_TURN_RATE_CHEAT" SessionStatus.STATUS_NEVER PacketProcessing.PROCESS_INPLACE "Handle_NULL",
  ManifestEntry.client 0x0D8 "MSG_MOVE_SET_TURN_RATE" SessionStatus.STATUS_NEVER PacketProcessing.PROCESS_INPLACE "Handle_NULL",
  ManifestEntry.client 0x0D9 "MSG_MOVE_TOGGLE_COLLISION_CHEAT" SessionStatus.STATUS_NEVER PacketProcessing.PROCESS_INPLACE "Handle_NULL",
  ManifestEntry.client 0x0DA "MSG_MOVE_SET_FACING" SessionStatus.STATUS_LOGGEDIN PacketProcessing.PROCESS_THREADSAFE "HandleMovementOpcodes",
  ManifestEntry.client 0x0DB "MSG_MOVE_SET_PITCH" SessionStatus.STATUS_LOGGEDIN PacketProcessing.PROCESS_THREADSAFE "HandleMovementOpcodes",
  ManifestEntry.client 0x0DC "MSG_MOVE_WORLDPORT_ACK" SessionStatus.STATUS_TRANSFER PacketProcessing.PROCESS_THREADUNSAFE "HandleMoveWorldportAckOpcode",
  ManifestEntry.server 0x0DD "SMSG_MONSTER_MOVE" SessionStatus.STATUS_NEVER,
  ManifestEntry.server 0x0DE "SMSG_MOVE_WATER_WALK" SessionStatus.STATUS_NEVER,
  ManifestEntry.server 0x0DF "SMSG_MOVE_LAND_WALK" SessionStatus.STATUS_NEVER,
  ManifestEntry.client 0x0E0 "CMSG_MOVE_CHARM_PORT_CHEAT" SessionStatus.STATUS_NEVER PacketProcessing.PROCESS_INPLACE "Handle_NULL",
  ManifestEntry.client 0x0E1 "CMSG_MOVE_SET_RAW_POSITION" SessionStatus.STATUS_NEVER PacketProcessing.PROCESS_INPLACE "Handle_NULL",
  ManifestEntry.server 0x0E2 "SMSG_FORCE_RUN_SPEED_CHANGE" SessionStatus.STATUS_NEVER,
  ManifestEntry.client 0x0E3 "CMSG_FORCE_RUN_SPEED_CHANGE_ACK" SessionStatus.STATUS_LOGGEDIN PacketProcessing.PROCESS_THREADSAFE "HandleForceSpeedChangeAck",
  ManifestEntry.server 0x0E4 "SMSG_FORCE_RUN_BACK_SPEED_CHANGE" SessionStatus.STATUS_NEVER,
  ManifestEntry.client 0x0E5 "CMSG_FORCE_RUN_BACK_SPEED_CHANGE_ACK" SessionStatus.STATUS_LOGGEDIN PacketProcessing.PROCESS_THREADSAFE "HandleForceSpeedChangeAck",
  ManifestEntry.server 0x0E6 "SMSG_FORCE_SWIM_SPEED_CHANGE" SessionStatus.STATUS_NEVER,
  ManifestEntry.client 0x0E7 "CMSG_FORCE_SWIM_SPEED_CHANGE_ACK" SessionStatus.STATUS_LOGGEDIN PacketProcessing.PROCESS_THREADSAFE "HandleForceSpeedChangeAck",
  ManifestEntry.server 0x0E8 "SMSG_FORCE_MOVE_ROOT" SessionStatus.STATUS_NEVER,
  ManifestEntry.client 0x0E9 "CMSG_FORCE_MOVE_ROOT_ACK" SessionStatus.STATUS_LOGGEDIN PacketProcessing.PROCESS_THREADSAFE "HandleMoveRootAck",
  ManifestEntry.server 0x0EA "SMSG_FORCE_MOVE_UNROOT" SessionStatus.STATUS_NEVER,
  ManifestEntry.client 0x0EB "CMSG_FORCE_MOVE_UNROOT_ACK" SessionStatus.STATUS_LOGGEDIN PacketProcessing.PROCESS_THREADSAFE "HandleMoveUnRootAck",
  ManifestEntry.client 0x0EC "MSG_MOVE_ROOT" SessionStatus.STATUS_NEVER PacketProcessing.PROCESS_INPLACE "Handle_NULL",
  ManifestEntry.client 0x0ED "MSG_MOVE_UNROOT" SessionStatus.STATUS_NEVER PacketProcessing.PROCESS_INPLACE "Handle_NULL",
  ManifestEntry.client 0x0EE "MSG_MOVE_HEARTBEAT" SessionStatus.STATUS_LOGGEDIN PacketProcessing.PROCESS_THREADSAFE "HandleMovementOpcodes",
  ManifestEntry.server 0x0EF "SMSG_MOVE_KNOCK_BACK" SessionStatus.STATUS_NEVER,
  ManifestEntry.client 0x0F0 "CMSG_MOVE_KNOCK_BACK_ACK" SessionStatus.STATUS_LOGGEDIN PacketProcessing.PROCESS_THREADSAFE "HandleMoveKnockBackAck",
  ManifestEntry.client 0x0F1 "MSG_MOVE_KNOCK_BACK" SessionStatus.STATUS_NEVER PacketProcessing.PROCESS_INPLACE "Handle_NULL",
  ManifestEntry.server 0x0F2 "SMSG_MOVE_FEATHER_FALL" SessionStatus.STATUS_NEVER,
  ManifestEntry.server 0x0F3 "SMSG_MOVE_NORMAL_FALL" SessionStatus.STATUS_NEVER,
  ManifestEntry.server 0x0F4 "SMSG_MOVE_SET_HOVER" SessionStatus.STATUS_NEVER,
  ManifestEntry.server 0x0F5 "SMSG_MOVE_UNSET_HOVER" SessionStatus.STATUS_NEVER,
  ManifestEntry.client 0x0F6 "CMSG_MOVE_HOVER_ACK" SessionStatus.STATUS_LOGGEDIN PacketProcessing.PROCESS_THREADUNSAFE "HandleMoveHoverAck",
  ManifestEntry.server 0x0F7 "MSG_MOVE_HOVER" SessionStatus.STATUS_NEVER,
  ManifestEntry.client 0x0F8 "CMSG_TRIGGER_CINEMATIC_CHEAT" SessionStatus.STATUS_NEVER PacketProcessing.PROCESS_INPLACE "Handle_NULL",
  ManifestEntry.client 0x0F9 "CMSG_OPENING_CINEMATIC" SessionStatus.STATUS_NEVER PacketProcessing.PROCESS_INPLACE "Handle_NULL",
  ManifestEntry.server 0x0FA "SMSG_TRIGGER_CINEMATIC" SessionStatus.STATUS_NEVER,
  ManifestEntry.client 0x0FB "CMSG_NEXT_CINEMATIC_CAMERA" SessionStatus.STATUS_LOGGEDIN PacketProcessing.PROCESS_THREADUNSAFE "HandleNextCinematicCamera",
  ManifestEntry.client 0x0FC "CMSG_COMPLETE_CINEMATIC" SessionStatus.STATUS_LOGGEDIN PacketProcessing.PROCESS_THREADUNSAFE "HandleCompleteCinematic",
  ManifestEntry.server 0x0FD "SMSG_TUTORIAL_FLAGS" SessionStatus.STATUS_NEVER,
  ManifestEntry.client 0x0FE "CMSG_TUTORIAL_FLAG" SessionStatus.STATUS_LOGGEDIN PacketProcessing.PROCESS_THREADUNSAFE "HandleTutorialFlag",
  ManifestEntry.client 0x0FF "CMSG_TUTORIAL_CLEAR" SessionStatus.STATUS_LOGGEDIN PacketProcessing.PROCESS_THREADUNSAFE "HandleTutorialClear",
  ManifestEntry.client 0x100 "CMSG_TUTORIAL_RESET" SessionStatus.STATUS_LOGGEDIN PacketProcessing.PROCESS_THREADUNSAFE "HandleTutorialReset",
  ManifestEntry.client 0x101 "CMSG_STANDSTATECHANGE" SessionStatus.STATUS_LOGGEDIN PacketProcessing.PROCESS_THREADUNSAFE "HandleStandStateChangeOpcode",
  ManifestEntry.client 0x102 "CMSG_EMOTE" SessionStatus.STATUS_LOGGEDIN PacketProcessing.PROCESS_THREADSAFE "HandleEmoteOpcode",
  ManifestEntry.server 0x103 "SMSG_EMOTE" SessionStatus.STATUS_NEVER,
  ManifestEntry.client 0x104 "CMSG_TEXT_EMOTE" SessionStatus.STATUS_LOGGEDIN PacketProcessing.PROCESS_THREADSAFE "HandleTextEmoteOpcode",
  ManifestEntry.server 0x105 "SMSG_TEXT_EMOTE" SessionStatus.STATUS_NEVER,
  ManifestEntry.client 0x106 "CMSG_AUTOEQUIP_GROUND_ITEM" SessionStatus.STATUS_NEVER PacketProcessing.PROCESS_INPLACE "Handle_NULL",
  ManifestEntry.client 0x107 "CMSG_AUTOSTORE_GROUND_ITEM" SessionStatus.STATUS_NEVER PacketProcessing.PROCESS_INPLACE "Handle_NULL",
  ManifestEntry.client 0x108 "CMSG_AUTOSTORE_LOOT_ITEM" SessionStatus.STATUS_LOGGEDIN PacketProcessing.PROCESS_INPLACE "HandleAutostoreLootItemOpcode",
  ManifestEntry.client 0x109 "CMSG_STORE_LOOT_IN_SLOT" SessionStatus.STATUS_NEVER PacketProcessing.PROCESS_INPLACE "Handle_NULL",
  ManifestEntry.client 0x10A "CMSG_AUTOEQUIP_ITEM" SessionStatus.STATUS_LOGGEDIN PacketProcessing.PROCESS_INPLACE "HandleAutoEquipItemOpcode",
  ManifestEntry.client 0x10B "CMSG_AUTOSTORE_BAG_ITEM" SessionStatus.STATUS_LOGGEDIN PacketProcessing.PROCESS_INPLACE "HandleAutoStoreBagItemOpcode",
  ManifestEntry.client 0x10C "CMSG_SWAP_ITEM" SessionStatus.STATUS_LOGGEDIN PacketProcessing.PROCESS_INPLACE "HandleSwapItem",
  ManifestEntry.client 0x10D "CMSG_SWAP_INV_ITEM" SessionStatus.STATUS_LOGGEDIN PacketProcessing.PROCESS_INPLACE "HandleSwapInvItemOpcode",
  ManifestEntry.client 0x10E "CMSG_SPLIT_ITEM" SessionStatus.STATUS_LOGGEDIN PacketProcessing.PROCESS_INPLACE "HandleSplitItemOpcode",
  ManifestEntry.client 0x10F "CMSG_AUTOEQUIP_ITEM_SLOT" SessionStatus.STATUS_LOGGEDIN PacketProcessing.PROCESS_INPLACE "HandleAutoEquipItemSlotOpcode",
  ManifestEntry.client 0x110 "CMSG_UNCLAIM_LICENSE" SessionStatus.STATUS_NEVER PacketProcessing.PROCESS_INPLACE "Handle_NULL",
  ManifestEntry.client 0x111 "CMSG_DESTROYITEM" SessionStatus.STATUS_LOGGEDIN PacketProcessing.PROCESS_INPLACE "HandleDestroyItemOpcode",
  ManifestEntry.server 0x112 "SMSG_INVENTORY_CHANGE_FAILURE" SessionStatus.STATUS_NEVER,
  ManifestEntry.server 0x113 "SMSG_OPEN_CONTAINER" SessionStatus.STATUS_NEVER,
  ManifestEntry.client 0x114 "CMSG_INSPECT" SessionStatus.STATUS_LOGGEDIN PacketProcessing.PROCESS_INPLACE "HandleInspectOpcode",
  ManifestEntry.server 0x115 "SMSG_INSPECT_RESULTS_UPDATE" SessionStatus.STATUS_NEVER,
  ManifestEntry.client 0x116 "CMSG_INITIATE_TRADE" SessionStatus.STATUS_LOGGEDIN PacketProcessing.PROCESS_THREADUNSAFE "HandleInitiateTradeOpcode",
  ManifestEntry.client 0x117 "CMSG_BEGIN_TRADE" SessionStatus.STATUS_LOGGEDIN PacketProcessing.PROCESS_THREADUNSAFE "HandleBeginTradeOpcode",
  ManifestEntry.client 0x118 "CMSG_BUSY_TRADE" SessionStatus.STATUS_LOGGEDIN PacketProcessing.PROCESS_THREADUNSAFE "HandleBusyTradeOpcode",
  ManifestEntry.client 0x119 "CMSG_IGNORE_TRADE" SessionStatus.STATUS_LOGGEDIN PacketProcessing.PROCESS_THREADUNSAFE "HandleIgnoreTradeOpcode",
  ManifestEntry.client 0x11A "CMSG_ACCEPT_TRADE" SessionStatus.STATUS_LOGGEDIN PacketProcessing.PROCESS_THREADUNSAFE "HandleAcceptTradeOpcode",
  ManifestEntry.client 0x11B "CMSG_UNACCEPT_TRADE" SessionStatus.STATUS_LOGGEDIN PacketProcessing.PROCESS_THREADUNSAFE "HandleUnacceptTradeOpcode",
  ManifestEntry.client 0x11C "CMSG_CANCEL_TRADE" SessionStatus.STATUS_LOGGEDIN_OR_RECENTLY_LOGGOUT PacketProcessing.PROCESS_THREADUNSAFE "HandleCancelTradeOpcode",
  ManifestEntry.client 0x11D "CMSG_SET_TRADE_ITEM" SessionStatus.STATUS_LOGGEDIN PacketProcessing.PROCESS_THREADUNSAFE "HandleSetTradeItemOpcode",
  ManifestEntry.client 0x11E "CMSG_CLEAR_TRADE_ITEM" SessionStatus.STATUS_LOGGEDIN PacketProcessing.PROCESS_THREADUNSAFE "HandleClearTradeItemOpcode",
  ManifestEntry.client 0x11F "CMSG_SET_TRADE_GOLD" SessionStatus.STATUS_LOGGEDIN PacketProcessing.PROCESS_THREADUNSAFE "HandleSetTradeGoldOpcode",
  ManifestEntry.server 0x120 "SMSG_TRADE_STATUS" SessionStatus.STATUS_NEVER,
  ManifestEntry.server 0x121 "SMSG_TRADE_STATUS_EXTENDED" SessionStatus.STATUS_NEVER,
  ManifestEntry.server 0x122 "SMSG_INITIALIZE_FACTIONS" SessionStatus.STATUS_NEVER,
  ManifestEntry.server 0x123 "SMSG_SET_FACTION_VISIBLE" SessionStatus.STATUS_NEVER,
  ManifestEntry.server 0x124 "SMSG_SET_FACTION_STANDING" SessionStatus.STATUS_NEVER,
  ManifestEntry.client 0x125 "CMSG_SET_FACTION_ATWAR" SessionStatus.STATUS_LOGGEDIN PacketProcessing.PROCESS_THREADUNSAFE "HandleSetFactionAtWar",
  ManifestEntry.client 0x126 "CMSG_SET_FACTION_CHEAT" SessionStatus.STATUS_LOGGEDIN PacketProcessing.PROCESS_THREADUNSAFE "HandleSetFactionCheat",
  ManifestEntry.server 0x127 "SMSG_SET_PROFICIENCY" SessionStatus.STATUS_NEVER,
  ManifestEntry.client 0x128 "CMSG_SET_ACTION_BUTTON" SessionStatus.STATUS_LOGGEDIN PacketProcessing.PROCESS_THREADUNSAFE "HandleSetActionButtonOpcode",
  ManifestEntry.server 0x129 "SMSG_ACTION_BUTTONS" SessionStatus.STATUS_NEVER,
  ManifestEntry.server 0x12A "SMSG_INITIAL_SPELLS" SessionStatus.STATUS_NEVER,
  ManifestEntry.server 0x12B "SMSG_LEARNED_SPELL" SessionStatus.STATUS_NEVER,
  ManifestEntry.server 0x12C "SMSG_SUPERCEDED_SPELL" SessionStatus.STATUS_NEVER,
  ManifestEntry.client 0x12D "CMSG_NEW_SPELL_SLOT" SessionStatus.STATUS_NEVER PacketProcessing.PROCESS_INPLACE "Handle_NULL",
  ManifestEntry.client 0x12E "CMSG_CAST_SPELL" SessionStatus.STATUS_LOGGEDIN PacketProcessing.PROCESS_THREADSAFE "HandleCastSpellOpcode",
  ManifestEntry.client 0x12F "CMSG_CANCEL_CAST" SessionStatus.STATUS_LOGGEDIN PacketProcessing.PROCESS_THREADSAFE "HandleCancelCastOpcode",
  ManifestEntry.server 0x130 "SMSG_CAST_FAILED" SessionStatus.STATUS_NEVER,
  ManifestEntry.server 0x131 "SMSG_SPELL_START" SessionStatus.STATUS_NEVER,
  ManifestEntry.server 0x132 "SMSG_SPELL_GO" SessionStatus.STATUS_NEVER,
  ManifestEntry.server 0x133 "SMSG_SPELL_FAILURE" SessionStatus.STATUS_NEVER,
  ManifestEntry.server 0x134 "SMSG_SPELL_COOLDOWN" SessionStatus.STATUS_NEVER,
  ManifestEntry.server 0x135 "SMSG_COOLDOWN_EVENT" SessionStatus.STATUS_NEVER,
  ManifestEntry.client 0x136 "CMSG_CANCEL_AURA" SessionStatus.STATUS_LOGGEDIN PacketProcessing.PROCESS_INPLACE "HandleCancelAuraOpcode",
  ManifestEntry.server 0x137 "SMSG_EQUIPMENT_SET_SAVED" SessionStatus.STATUS_NEVER,
  ManifestEntry.server 0x138 "SMSG_PET_CAST_FAILED" SessionStatus.STATUS_NEVER,
  ManifestEntry.client 0x139 "MSG_CHANNEL_START" SessionStatus.STATUS_NEVER PacketProcessing.PROCESS_INPLACE "Handle_NULL",
  ManifestEntry.client 0x13A "MSG_CHANNEL_UPDATE" SessionStatus.STATUS_NEVER PacketProcessing.PROCESS_INPLACE "Handle_NULL",
  ManifestEntry.client 0x13B "CMSG_CANCEL_CHANNELLING" SessionStatus.STATUS_LOGGEDIN PacketProcessing.PROCESS_INPLACE "HandleCancelChanneling",
  ManifestEntry.server 0x13C "SMSG_AI_REACTION" SessionStatus.STATUS_NEVER,
  ManifestEntry.client 0x13D "CMSG_SET_SELECTION" SessionStatus.STATUS_LOGGEDIN PacketProcessing.PROCESS_THREADSAFE "HandleSetSelectionOpcode",
  ManifestEntry.client 0x13E "CMSG_DELETEEQUIPMENT_SET" SessionStatus.STATUS_LOGGEDIN PacketProcessing.PROCESS_THREADUNSAFE "HandleEquipmentSetDelete",
  ManifestEntry.client 0x13F "CMSG_INSTANCE_LOCK_RESPONSE" SessionStatus.STATUS_LOGGEDIN PacketProcessing.PROCESS_THREADUNSAFE "HandleInstanceLockResponse",
  ManifestEntry.client 0x140 "CMSG_DEBUG_PASSIVE_AURA" SessionStatus.STATUS_NEVER PacketProcessing.PROCESS_INPLACE "Handle_NULL",
  ManifestEntry.client 0x141 "CMSG_ATTACKSWING" SessionStatus.STATUS_LOGGEDIN PacketProcessing.PROCESS_THREADSAFE "HandleAttackSwingOpcode",
  ManifestEntry.client 0x142 "CMSG_ATTACKSTOP" SessionStatus.STATUS_LOGGEDIN PacketProcessing.PROCESS_THREADSAFE "HandleAttackStopOpcode",
  ManifestEntry.server 0x143 "SMSG_ATTACKSTART" SessionStatus.STATUS_NEVER,
  ManifestEntry.server 0x144 "SMSG_ATTACKSTOP" SessionStatus.STATUS_NEVER,
  ManifestEntry.server 0x145 "SMSG_ATTACKSWING_NOTINRANGE" SessionStatus.STATUS_NEVER,
  ManifestEntry.server 0x146 "SMSG_ATTACKSWING_BADFACING" SessionStatus.STATUS_NEVER,
  ManifestEntry.server 0x147 "SMSG_INSTANCE_LOCK_WARNING_QUERY" SessionStatus.STATUS_NEVER,
  ManifestEntry.server 0x148 "SMSG_ATTACKSWING_DEADTARGET" SessionStatus.STATUS_NEVER,
  ManifestEntry.server 0x149 "SMSG_ATTACKSWING_CANT_ATTACK" SessionStatus.STATUS_NEVER,
  ManifestEntry.server 0x14A "SMSG_ATTACKERSTATEUPDATE" SessionStatus.STATUS_NEVER,
  ManifestEntry.server 0x14B "SMSG_BATTLEFIELD_PORT_DENIED" SessionStatus.STATUS_NEVER,
  ManifestEntry.client 0x14C "CMSG_PERFORM_ACTION_SET" SessionStatus.STATUS_NEVER PacketProcessing.PROCESS_INPLACE "Handle_NULL",
  ManifestEntry.server 0x14D "SMSG_RESUME_CAST_BAR" SessionStatus.STATUS_NEVER,
  ManifestEntry.server 0x14E "SMSG_CANCEL_COMBAT" SessionStatus.STATUS_NEVER,
  ManifestEntry.server 0x14F "SMSG_SPELLBREAKLOG" SessionStatus.STATUS_NEVER,
  ManifestEntry.server 0x150 "SMSG_SPELLHEALLOG" SessionStatus.STATUS_NEVER,
  ManifestEntry.server 0x151 "SMSG_SPELLENERGIZELOG" SessionStatus.STATUS_NEVER,
  ManifestEntry.server 0x152 "SMSG_BREAK_TARGET" SessionStatus.STATUS_NEVER,
  ManifestEntry.client 0x153 "CMSG_SAVE_PLAYER" SessionStatus.STATUS_NEVER PacketProcessing.PROCESS_INPLACE "Handle_NULL",
  ManifestEntry.client 0x154 "CMSG_SETDEATHBINDPOINT" SessionStatus.STATUS_NEVER PacketProcessing.PROCESS_INPLACE "Handle_NULL",
  ManifestEntry.server 0x155 "SMSG_BINDPOINTUPDATE" SessionStatus.STATUS_NEVER,
  ManifestEntry.client 0x156 "CMSG_GETDEATHBINDZONE" SessionStatus.STATUS_NEVER PacketProcessing.PROCESS_INPLACE "Handle_NULL",
  ManifestEntry.server 0x157 "SMSG_BINDZONEREPLY" SessionStatus.STATUS_NEVER,
  ManifestEntry.server 0x158 "SMSG_PLAYERBOUND" SessionStatus.STATUS_NEVER,
  ManifestEntry.server 0x159 "SMSG_CLIENT_CONTROL_UPDATE" SessionStatus.STATUS_NEVER,
  ManifestEntry.client 0x15A "CMSG_REPOP_REQUEST" SessionStatus.STATUS_LOGGEDIN PacketProcessing.PROCESS_THREADSAFE "HandleRepopRequestOpcode",
  ManifestEntry.server 0x15B "SMSG_RESURRECT_REQUEST" SessionStatus.STATUS_NEVER,
  ManifestEntry.client 0x15C "CMSG_RESURRECT_RESPONSE" SessionStatus.STATUS_LOGGEDIN PacketProcessing.PROCESS_THREADSAFE "HandleResurrectResponseOpcode",
  ManifestEntry.client 0x15D "CMSG_LOOT" SessionStatus.STATUS_LOGGEDIN PacketProcessing.PROCESS_THREADUNSAFE "HandleLootOpcode",
  ManifestEntry.client 0x15E "CMSG_LOOT_MONEY" SessionStatus.STATUS_LOGGEDIN PacketProcessing.PROCESS_THREADUNSAFE "HandleLootMoneyOpcode",
  ManifestEntry.client 0x15F "CMSG_LOOT_RELEASE" SessionStatus.STATUS_LOGGEDIN PacketProcessing.PROCESS_THREADUNSAFE "HandleLootReleaseOpcode",
  ManifestEntry.server 0x160 "SMSG_LOOT_RESPONSE" SessionStatus.STATUS_NEVER,
  ManifestEntry.server 0x161 "SMSG_LOOT_RELEASE_RESPONSE" SessionStatus.STATUS_NEVER,
  ManifestEntry.server 0x162 "SMSG_LOOT_REMOVED" SessionStatus.STATUS_NEVER,
  ManifestEntry.server 0x163 "SMSG_LOOT_MONEY_NOTIFY" SessionStatus.STATUS_NEVER,
  ManifestEntry.server 0x164 "SMSG_LOOT_ITEM_NOTIFY" SessionStatus.STATUS_NEVER,
  ManifestEntry.server 0x165 "SMSG_LOOT_CLEAR_MONEY" SessionStatus.STATUS_NEVER,
  ManifestEntry.server 0x166 "SMSG_ITEM_PUSH_RESULT" SessionStatus.STATUS_NEVER,
  ManifestEntry.server 0x167 "SMSG_DUEL_REQUESTED" SessionStatus.STATUS_NEVER,
  ManifestEntry.server 0x168 "SMSG_DUEL_OUTOFBOUNDS" SessionStatus.STATUS_NEVER,
  ManifestEntry.server 0x169 "SMSG_DUEL_INBOUNDS" SessionStatus.STATUS_NEVER,
  ManifestEntry.server 0x16A "SMSG_DUEL_COMPLETE" SessionStatus.STATUS_NEVER,
  ManifestEntry.server 0x16B "SMSG_DUEL_WINNER" SessionStatus.STATUS_NEVER,
  ManifestEntry.client 0x16C "CMSG_DUEL_ACCEPTED" SessionStatus.STATUS_LOGGEDIN PacketProcessing.PROCESS_THREADUNSAFE "HandleDuelAcceptedOpcode",
  ManifestEntry.client 0x16D "CMSG_DUEL_CANCELLED" SessionStatus.STATUS_LOGGEDIN PacketProcessing.PROCESS_THREADUNSAFE "HandleDuelCancelledOpcode",
  ManifestEntry.server 0x16E "SMSG_MOUNTRESULT" SessionStatus.STATUS_NEVER,
  ManifestEntry.server 0x16F "SMSG_DISMOUNTRESULT" SessionStatus.STATUS_NEVER,
  ManifestEntry.server 0x170 "SMSG_REMOVED_FROM_PVP_QUEUE" SessionStatus.STATUS_NEVER,
  ManifestEntry.client 0x171 "CMSG_MOUNTSPECIAL_ANIM" SessionStatus.STATUS_LOGGEDIN PacketProcessing.PROCESS_THREADUNSAFE "HandleMountSpecialAnimOpcode",
  ManifestEntry.server 0x172 "SMSG_MOUNTSPECIAL_ANIM" SessionStatus.STATUS_NEVER,
  ManifestEntry.server 0x173 "SMSG_PET_TAME_FAILURE" SessionStatus.STATUS_NEVER,
  ManifestEntry.client 0x174 "CMSG_PET_SET_ACTION" SessionStatus.STATUS_LOGGEDIN PacketProcessing.PROCESS_THREADUNSAFE "HandlePetSetAction",
  ManifestEntry.client 0x175 "CMSG_PET_ACTION" SessionStatus.STATUS_LOGGEDIN PacketProcessing.PROCESS_THREADSAFE "HandlePetAction",
  ManifestEntry.client 0x176 "CMSG_PET_ABANDON" SessionStatus.STATUS_LOGGEDIN PacketProcessing.PROCESS_THREADUNSAFE "HandlePetAbandon",
  ManifestEntry.client 0x177 "CMSG_PET_RENAME" SessionStatus.STATUS_LOGGEDIN PacketProcessing.PROCESS_THREADUNSAFE "HandlePetRename",
  ManifestEntry.server 0x178 "SMSG_PET_NAME_INVALID" SessionStatus.STATUS_NEVER,
  ManifestEntry.server 0x179 "SMSG_PET_SPELLS" SessionStatus.STATUS_NEVER,
  ManifestEntry.server 0x17A "SMSG_PET_MODE" SessionStatus.STATUS_NEVER,
  ManifestEntry.client 0x17B "CMSG_GOSSIP_HELLO" SessionStatus.STATUS_LOGGEDIN PacketProcessing.PROCESS_INPLACE "HandleGossipHelloOpcode",
  ManifestEntry.client 0x17C "CMSG_GOSSIP_SELECT_OPTION" SessionStatus.STATUS_LOGGEDIN PacketProcessing.PROCESS_THREADUNSAFE "HandleGossipSelectOptionOpcode",
  ManifestEntry.server 0x17D "SMSG_GOSSIP_MESSAGE" SessionStatus.STATUS_NEVER,
  ManifestEntry.server 0x17E "SMSG_GOSSIP_COMPLETE" SessionStatus.STATUS_NEVER,
  ManifestEntry.client 0x17F "CMSG_NPC_TEXT_QUERY" SessionStatus.STATUS_LOGGEDIN PacketProcessing.PROCESS_INPLACE "HandleNpcTextQueryOpcode",
  ManifestEntry.server 0x180 "SMSG_NPC_TEXT_UPDATE" SessionStatus.STATUS_NEVER,
  ManifestEntry.server 0x181 "SMSG_NPC_WONT_TALK" SessionStatus.STATUS_NEVER,
  ManifestEntry.client 0x182 "CMSG_QUESTGIVER_STATUS_QUERY" SessionStatus.STATUS_LOGGEDIN PacketProcessing.PROCESS_THREADSAFE "HandleQuestgiverStatusQueryOpcode",
  ManifestEntry.server 0x183 "SMSG_QUESTGIVER_STATUS" SessionStatus.STATUS_NEVER,
  ManifestEntry.client 0x184 "CMSG_QUESTGIVER_HELLO" SessionStatus.STATUS_LOGGEDIN PacketProcessing.PROCESS_INPLACE "HandleQuestgiverHelloOpcode",
  ManifestEntry.server 0x185 "SMSG_QUESTGIVER_QUEST_LIST" SessionStatus.STATUS_NEVER,
  ManifestEntry.client 0x186 "CMSG_QUESTGIVER_QUERY_QUEST" SessionStatus.STATUS_LOGGEDIN PacketProcessing.PROCESS_INPLACE "HandleQuestgiverQueryQuestOpcode",
  ManifestEntry.client 0x187 "CMSG_QUESTGIVER_QUEST_AUTOLAUNCH" SessionStatus.STATUS_LOGGEDIN PacketProcessing.PROCESS_INPLACE "HandleQuestgiverQuestAutoLaunch",
  ManifestEntry.server 0x188 "SMSG_QUESTGIVER_QUEST_DETAILS" SessionStatus.STATUS_NEVER,
  ManifestEntry.client 0x189 "CMSG_QUESTGIVER_ACCEPT_QUEST" SessionStatus.STATUS_LOGGEDIN PacketProcessing.PROCESS_INPLACE "HandleQuestgiverAcceptQuestOpcode",
  ManifestEntry.client 0x18A "CMSG_QUESTGIVER_COMPLETE_QUEST" SessionStatus.STATUS_LOGGEDIN PacketProcessing.PROCESS_INPLACE "HandleQuestgiverCompleteQuest",
  ManifestEntry.server 0x18B "SMSG_QUESTGIVER_REQUEST_ITEMS" SessionStatus.STATUS_NEVER,
  ManifestEntry.client 0x18C "CMSG_QUESTGIVER_REQUEST_REWARD" SessionStatus.STATUS_LOGGEDIN PacketProcessing.PROCESS_INPLACE "HandleQuestgiverRequestRewardOpcode",
  ManifestEntry.server 0x18D "SMSG_QUESTGIVER_OFFER_REWARD" SessionStatus.STATUS_NEVER,
  ManifestEntry.client 0x18E "CMSG_QUESTGIVER_CHOOSE_REWARD" SessionStatus.STATUS_LOGGEDIN PacketProcessing.PROCESS_INPLACE "HandleQuestgiverChooseRewardOpcode",
  ManifestEntry.server 0x18F "SMSG_QUESTGIVER_QUEST_INVALID" SessionStatus.STATUS_NEVER,
  ManifestEntry.client 0x190 "CMSG_QUESTGIVER_CANCEL" SessionStatus.STATUS_LOGGEDIN PacketProcessing.PROCESS_INPLACE "HandleQuestgiverCancel",
  ManifestEntry.server 0x191 "SMSG_QUESTGIVER_QUEST_COMPLETE" SessionStatus.STATUS_NEVER,
  ManifestEntry.server 0x192 "SMSG_QUESTGIVER_QUEST_FAILED" SessionStatus.STATUS_NEVER,
  ManifestEntry.client 0x193 "CMSG_QUESTLOG_SWAP_QUEST" SessionStatus.STATUS_LOGGEDIN PacketProcessing.PROCESS_INPLACE "HandleQuestLogSwapQuest",
  ManifestEntry.client 0x194 "CMSG_QUESTLOG_REMOVE_QUEST" SessionStatus.STATUS_LOGGEDIN PacketProcessing.PROCESS_INPLACE "HandleQuestLogRemoveQuest",
  ManifestEntry.server 0x195 "SMSG_QUESTLOG_FULL" SessionStatus.STATUS_NEVER,
  ManifestEntry.server 0x196 "SMSG_QUESTUPDATE_FAILED" SessionStatus.STATUS_NEVER,
  ManifestEntry.server 0x197 "SMSG_QUESTUPDATE_FAILEDTIMER" SessionStatus.STATUS_NEVER,
  ManifestEntry.server 0x198 "SMSG_QUESTUPDATE_COMPLETE" SessionStatus.STATUS_NEVER,
  ManifestEntry.server 0x199 "SMSG_QUESTUPDATE_ADD_KILL" SessionStatus.STATUS_NEVER,
  ManifestEntry.server 0x19A "SMSG_QUESTUPDATE_ADD_ITEM" SessionStatus.STATUS_NEVER,
  ManifestEntry.client 0x19B "CMSG_QUEST_CONFIRM_ACCEPT" SessionStatus.STATUS_LOGGEDIN PacketProcessing.PROCESS_THREADUNSAFE "HandleQuestConfirmAccept",
  ManifestEntry.server 0x19C "SMSG_QUEST_CONFIRM_ACCEPT" SessionStatus.STATUS_NEVER,
  ManifestEntry.client 0x19D "CMSG_PUSHQUESTTOPARTY" SessionStatus.STATUS_LOGGEDIN PacketProcessing.PROCESS_THREADUNSAFE "HandlePushQuestToParty",
  ManifestEntry.client 0x19E "CMSG_LIST_INVENTORY" SessionStatus.STATUS_LOGGEDIN PacketProcessing.PROCESS_INPLACE "HandleListInventoryOpcode",
  ManifestEntry.server 0x19F "SMSG_LIST_INVENTORY" SessionStatus.STATUS_NEVER,
  ManifestEntry.client 0x1A0 "CMSG_SELL_ITEM" SessionStatus.STATUS_LOGGEDIN PacketProcessing.PROCESS_INPLACE "HandleSellItemOpcode",
  ManifestEntry.server 0x1A1 "SMSG_SELL_ITEM" SessionStatus.STATUS_NEVER,
  ManifestEntry.client 0x1A2 "CMSG_BUY_ITEM" SessionStatus.STATUS_LOGGEDIN PacketProcessing.PROCESS_INPLACE "HandleBuyItemOpcode",
  ManifestEntry.client 0x1A3 "CMSG_BUY_ITEM_IN_SLOT" SessionStatus.STATUS_LOGGEDIN PacketProcessing.PROCESS_INPLACE "HandleBuyItemInSlotOpcode",
  ManifestEntry.server 0x1A4 "SMSG_BUY_ITEM" SessionStatus.STATUS_NEVER,
  ManifestEntry.server 0x1A5 "SMSG_BUY_FAILED" SessionStatus.STATUS_NEVER,
  ManifestEntry.client 0x1A6 "CMSG_TAXICLEARALLNODES" SessionStatus.STATUS_NEVER PacketProcessing.PROCESS_INPLACE "Handle_NULL",
  ManifestEntry.client 0x1A7 "CMSG_TAXIENABLEALLNODES" SessionStatus.STATUS_NEVER PacketProcessing.PROCESS_INPLACE "Handle_NULL",
  ManifestEntry.client 0x1A8 "CMSG_TAXISHOWNODES" SessionStatus.STATUS_NEVER PacketProcessing.PROCESS_INPLACE "Handle_NULL",
  ManifestEntry.server 0x1A9 "SMSG_SHOWTAXINODES" SessionStatus.STATUS_NEVER,
  ManifestEntry.client 0x1AA "CMSG_TAXINODE_STATUS_QUERY" SessionStatus.STATUS_LOGGEDIN PacketProcessing.PROCESS_THREADSAFE "HandleTaxiNodeStatusQueryOpcode",
  ManifestEntry.server 0x1AB "SMSG_TAXINODE_STATUS" SessionStatus.STATUS_NEVER,
  ManifestEntry.client 0x1AC "CMSG_TAXIQUERYAVAILABLENODES" SessionStatus.STATUS_LOGGEDIN PacketProcessing.PROCESS_THREADSAFE "HandleTaxiQueryAvailableNodes",
  ManifestEntry.client 0x1AD "CMSG_ACTIVATETAXI" SessionStatus.STATUS_LOGGEDIN PacketProcessing.PROCESS_THREADSAFE "HandleActivateTaxiOpcode",
  ManifestEntry.server 0x1AE "SMSG_ACTIVATETAXIREPLY" SessionStatus.STATUS_NEVER,
  ManifestEntry.server 0x1AF "SMSG_NEW_TAXI_PATH" SessionStatus.STATUS_NEVER,
  ManifestEntry.client 0x1B0 "CMSG_TRAINER_LIST" SessionStatus.STATUS_LOGGEDIN PacketProcessing.PROCESS_INPLACE "HandleTrainerListOpcode",
  ManifestEntry.server 0x1B1 "SMSG_TRAINER_LIST" SessionStatus.STATUS_NEVER,
  ManifestEntry.client 0x1B2 "CMSG_TRAINER_BUY_SPELL" SessionStatus.STATUS_LOGGEDIN PacketProcessing.PROCESS_INPLACE "HandleTrainerBuySpellOpcode",
  ManifestEntry.server 0x1B3 "SMSG_TRAINER_BUY_SUCCEEDED" SessionStatus.STATUS_NEVER,
  ManifestEntry.server 0x1B4 "SMSG_TRAINER_BUY_FAILED" SessionStatus.STATUS_NEVER,
  ManifestEntry.client 0x1B5 "CMSG_BINDER_ACTIVATE" SessionStatus.STATUS_LOGGEDIN PacketProcessing.PROCESS_INPLACE "HandleBinderActivateOpcode",
  ManifestEntry.server 0x1B6 "SMSG_PLAYERBINDERROR" SessionStatus.STATUS_NEVER,
  ManifestEntry.client 0x1B7 "CMSG_BANKER_ACTIVATE" SessionStatus.STATUS_LOGGEDIN PacketProcessing.PROCESS_INPLACE "HandleBankerActivateOpcode",
  ManifestEntry.server 0x1B8 "SMSG_SHOW_BANK" SessionStatus.STATUS_NEVER,
  ManifestEntry.client 0x1B9 "CMSG_BUY_BANK_SLOT" SessionStatus.STATUS_LOGGEDIN PacketProcessing.PROCESS_INPLACE "HandleBuyBankSlotOpcode",
  ManifestEntry.server 0x1BA "SMSG_BUY_BANK_SLOT_RESULT" SessionStatus.STATUS_NEVER,
  ManifestEntry.client 0x1BB "CMSG_PETITION_SHOWLIST" SessionStatus.STATUS_LOGGEDIN PacketProcessing.PROCESS_THREADSAFE "HandlePetitionShowListOpcode",
  ManifestEntry.server 0x1BC "SMSG_PETITION_SHOWLIST" SessionStatus.STATUS_NEVER,
  ManifestEntry.client 0x1BD "CMSG_PETITION_BUY" SessionStatus.STATUS_LOGGEDIN PacketProcessing.PROCESS_THREADSAFE "HandlePetitionBuyOpcode",
  ManifestEntry.client 0x1BE "CMSG_PETITION_SHOW_SIGNATURES" SessionStatus.STATUS_LOGGEDIN PacketProcessing.PROCESS_THREADSAFE "HandlePetitionShowSignOpcode",
  ManifestEntry.server 0x1BF "SMSG_PETITION_SHOW_SIGNATURES" SessionStatus.STATUS_NEVER,
  ManifestEntry.client 0x1C0 "CMSG_PETITION_SIGN" SessionStatus.STATUS_LOGGEDIN PacketProcessing.PROCESS_THREADSAFE "HandlePetitionSignOpcode",
  ManifestEntry.server 0x1C1 "SMSG_PETITION_SIGN_RESULTS" SessionStatus.STATUS_NEVER,
  ManifestEntry.client 0x1C2 "MSG_PETITION_DECLINE" SessionStatus.STATUS_LOGGEDIN PacketProcessing.PROCESS_THREADSAFE "HandlePetitionDeclineOpcode",
  ManifestEntry.client 0x1C3 "CMSG_OFFER_PETITION" SessionStatus.STATUS_LOGGEDIN PacketProcessing.PROCESS_THREADSAFE "HandleOfferPetitionOpcode",
  ManifestEntry.client 0x1C4 "CMSG_TURN_IN_PETITION" SessionStatus.STATUS_LOGGEDIN PacketProcessing.PROCESS_THREADUNSAFE "HandleTurnInPetitionOpcode",
  ManifestEntry.server 0x1C5 "SMSG_TURN_IN_PETITION_RESULTS" SessionStatus.STATUS_NEVER,
  ManifestEntry.client 0x1C6 "CMSG_PETITION_QUERY" SessionStatus.STATUS_LOGGEDIN PacketProcessing.PROCESS_THREADSAFE "HandlePetitionQueryOpcode",
  ManifestEntry.server 0x1C7 "SMSG_PETITION_QUERY_RESPONSE" SessionStatus.STATUS_NEVER,
  ManifestEntry.server 0x1C8 "SMSG_FISH_NOT_HOOKED" SessionStatus.STATUS_NEVER,
  ManifestEntry.server 0x1C9 "SMSG_FISH_ESCAPED" SessionStatus.STATUS_NEVER,
  ManifestEntry.client 0x1CA "CMSG_BUG" SessionStatus.STATUS_LOGGEDIN PacketProcessing.PROCESS_THREADUNSAFE "HandleBugOpcode",
  ManifestEntry.server 0x1CB "SMSG_NOTIFICATION" SessionStatus.STATUS_NEVER,
  ManifestEntry.client 0x1CC "CMSG_PLAYED_TIME" SessionStatus.STATUS_LOGGEDIN PacketProcessing.PROCESS_INPLACE "HandlePlayedTime",
  ManifestEntry.server 0x1CD "SMSG_PLAYED_TIME" SessionStatus.STATUS_NEVER,
  ManifestEntry.client 0x1CE "CMSG_QUERY_TIME" SessionStatus.STATUS_LOGGEDIN PacketProcessing.PROCESS_INPLACE "HandleQueryTimeOpcode",
  ManifestEntry.server 0x1CF "SMSG_QUERY_TIME_RESPONSE" SessionStatus.STATUS_NEVER,
  ManifestEntry.server 0x1D0 "SMSG_LOG_XPGAIN" SessionStatus.STATUS_NEVER,
  ManifestEntry.server 0x1D1 "SMSG_AURACASTLOG" SessionStatus.STATUS_NEVER,
  ManifestEntry.client 0x1D2 "CMSG_RECLAIM_CORPSE" SessionStatus.STATUS_LOGGEDIN PacketProcessing.PROCESS_THREADSAFE "HandleReclaimCorpseOpcode",
  ManifestEntry.client 0x1D3 "CMSG_WRAP_ITEM" SessionStatus.STATUS_LOGGEDIN PacketProcessing.PROCESS_THREADSAFE "HandleWrapItemOpcode",
  ManifestEntry.server 0x1D4 "SMSG_LEVELUP_INFO" SessionStatus.STATUS_NEVER,
  ManifestEntry.client 0x1D5 "MSG_MINIMAP_PING" SessionStatus.STATUS_LOGGEDIN PacketProcessing.PROCESS_THREADUNSAFE "HandleMinimapPingOpcode",
  ManifestEntry.server 0x1D6 "SMSG_RESISTLOG" SessionStatus.STATUS_NEVER,
  ManifestEntry.server 0x1D7 "SMSG_ENCHANTMENTLOG" SessionStatus.STATUS_NEVER,
  ManifestEntry.client 0x1D8 "CMSG_SET_SKILL_CHEAT" SessionStatus.STATUS_NEVER PacketProcessing.PROCESS_INPLACE "Handle_NULL",
  ManifestEntry.server 0x1D9 "SMSG_START_MIRROR_TIMER" SessionStatus.STATUS_NEVER,
  ManifestEntry.server 0x1DA "SMSG_PAUSE_MIRROR_TIMER" SessionStatus.STATUS_NEVER,
  ManifestEntry.server 0x1DB "SMSG_STOP_MIRROR_TIMER" SessionStatus.STATUS_NEVER,
  ManifestEntry.client 0x1DC "CMSG_PING" SessionStatus.STATUS_NEVER PacketProcessing.PROCESS_INPLACE "Handle_EarlyProccess",
  ManifestEntry.server 0x1DD "SMSG_PONG" SessionStatus.STATUS_NEVER,
  ManifestEntry.server 0x1DE "SMSG_CLEAR_COOLDOWN" SessionStatus.STATUS_NEVER,
  ManifestEntry.server 0x1DF "SMSG_GAMEOBJECT_PAGETEXT" SessionStatus.STATUS_NEVER,
  ManifestEntry.client 0x1E0 "CMSG_SET_SHEATHED" SessionStatus.STATUS_LOGGEDIN PacketProcessing.PROCESS_THREADSAFE "HandleSetSheathedOpcode",
  ManifestEntry.server 0x1E1 "SMSG_COOLDOWN_CHEAT" SessionStatus.STATUS_NEVER,
  ManifestEntry.server 0x1E2 "SMSG_SPELL_DELAYED" SessionStatus.STATUS_NEVER,
  ManifestEntry.client 0x1E3 "CMSG_QUEST_POI_QUERY" SessionStatus.STATUS_LOGGEDIN PacketProcessing.PROCESS_INPLACE "HandleQuestPOIQuery",
  ManifestEntry.server 0x1E4 "SMSG_QUEST_POI_QUERY_RESPONSE" SessionStatus.STATUS_NEVER,
  ManifestEntry.client 0x1E5 "CMSG_GHOST" SessionStatus.STATUS_NEVER PacketProcessing.PROCESS_INPLACE "Handle_NULL",
  ManifestEntry.client 0x1E6 "CMSG_GM_INVIS" SessionStatus.STATUS_NEVER PacketProcessing.PROCESS_INPLACE "Handle_NULL",
  ManifestEntry.server 0x1E7 "SMSG_INVALID_PROMOTION_CODE" SessionStatus.STATUS_NEVER,
  ManifestEntry.client 0x1E8 "MSG_GM_BIND_OTHER" SessionStatus.STATUS_NEVER PacketProcessing.PROCESS_INPLACE "Handle_NULL",
  ManifestEntry.client 0x1E9 "MSG_GM_SUMMON" SessionStatus.STATUS_NEVER PacketProcessing.PROCESS_INPLACE "Handle_NULL",
  ManifestEntry.server 0x1EA "SMSG_ITEM_TIME_UPDATE" SessionStatus.STATUS_NEVER,
  ManifestEntry.server 0x1EB "SMSG_ITEM_ENCHANT_TIME_UPDATE" SessionStatus.STATUS_NEVER,
  ManifestEntry.server 0x1EC "SMSG_AUTH_CHALLENGE" SessionStatus.STATUS_NEVER,
  ManifestEntry.client 0x1ED "CMSG_AUTH_SESSION" SessionStatus.STATUS_NEVER PacketProcessing.PROCESS_THREADUNSAFE "Handle_EarlyProccess",
  ManifestEntry.server 0x1EE "SMSG_AUTH_RESPONSE" SessionStatus.STATUS_NEVER,
  ManifestEntry.client 0x1EF "MSG_GM_SHOWLABEL" SessionStatus.STATUS_NEVER PacketProcessing.PROCESS_INPLACE "Handle_NULL",
  ManifestEntry.client 0x1F0 "CMSG_PET_CAST_SPELL" SessionStatus.STATUS_LOGGEDIN PacketProcessing.PROCESS_INPLACE "HandlePetCastSpellOpcode",
  ManifestEntry.client 0x1F1 "MSG_SAVE_GUILD_EMBLEM" SessionStatus.STATUS_LOGGEDIN PacketProcessing.PROCESS_THREADUNSAFE "HandleSaveGuildEmblemOpcode",
  ManifestEntry.client 0x1F2 "MSG_TABARDVENDOR_ACTIVATE" SessionStatus.STATUS_LOGGEDIN PacketProcessing.PROCESS_INPLACE "HandleTabardVendorActivateOpcode",
  ManifestEntry.server 0x1F3 "SMSG_PLAY_SPELL_VISUAL" SessionStatus.STATUS_NEVER,
  ManifestEntry.client 0x1F4 "CMSG_ZONEUPDATE" SessionStatus.STATUS_LOGGEDIN PacketProcessing.PROCESS_INPLACE "HandleZoneUpdateOpcode",
  ManifestEntry.server 0x1F5 "SMSG_PARTYKILLLOG" SessionStatus.STATUS_NEVER,
  ManifestEntry.server 0x1F6 "SMSG_COMPRESSED_UPDATE_OBJECT" SessionStatus.STATUS_NEVER,
  ManifestEntry.server 0x1F7 "SMSG_PLAY_SPELL_IMPACT" SessionStatus.STATUS_NEVER,
  ManifestEntry.server 0x1F8 "SMSG_EXPLORATION_EXPERIENCE" SessionStatus.STATUS_NEVER,
  ManifestEntry.client 0x1F9 "CMSG_GM_SET_SECURITY_GROUP" SessionStatus.STATUS_NEVER PacketProcessing.PROCESS_INPLACE "Handle_NULL",
  ManifestEntry.client 0x1FA "CMSG_GM_NUKE" SessionStatus.STATUS_NEVER PacketProcessing.PROCESS_INPLACE "Handle_NULL",
  ManifestEntry.client 0x1FB "MSG_RANDOM_ROLL" SessionStatus.STATUS_LOGGEDIN PacketProcessing.PROCESS_THREADSAFE "HandleRandomRollOpcode",
  ManifestEntry.server 0x1FC "SMSG_ENVIRONMENTAL_DAMAGE_LOG" SessionStatus.STATUS_NEVER,
  ManifestEntry.client 0x1FD "CMSG_CHANGEPLAYER_DIFFICULTY" SessionStatus.STATUS_NEVER PacketProcessing.PROCESS_INPLACE "Handle_NULL",
  ManifestEntry.server 0x1FE "SMSG_RWHOIS" SessionStatus.STATUS_NEVER,
  ManifestEntry.server 0x1FF "SMSG_LFG_PLAYER_REWARD" SessionStatus.STATUS_NEVER,
  ManifestEntry.server 0x200 "SMSG_LFG_TELEPORT_DENIED" SessionStatus.STATUS_NEVER,
  ManifestEntry.client 0x201 "CMSG_UNLEARN_SPELL" SessionStatus.STATUS_NEVER PacketProcessing.PROCESS_INPLACE "Handle_NULL",
  ManifestEntry.client 0x202 "CMSG_UNLEARN_SKILL" SessionStatus.STATUS_LOGGEDIN PacketProcessing.PROCESS_INPLACE "HandleUnlearnSkillOpcode",
  ManifestEntry.server 0x203 "SMSG_REMOVED_SPELL" SessionStatus.STATUS_NEVER,
  ManifestEntry.client 0x204 "CMSG_DECHARGE" SessionStatus.STATUS_NEVER PacketProcessing.PROCESS_INPLACE "Handle_NULL",
  ManifestEntry.client 0x205 "CMSG_GMTICKET_CREATE" SessionStatus.STATUS_LOGGEDIN PacketProcessing.PROCESS_THREADUNSAFE "HandleGMTicketCreateOpcode",
  ManifestEntry.server 0x206 "SMSG_GMTICKET_CREATE" SessionStatus.STATUS_NEVER,
  ManifestEntry.client 0x207 "CMSG_GMTICKET_UPDATETEXT" SessionStatus.STATUS_LOGGEDIN PacketProcessing.PROCESS_THREADUNSAFE "HandleGMTicketUpdateOpcode",
  ManifestEntry.server 0x208 "SMSG_GMTICKET_UPDATETEXT" SessionStatus.STATUS_NEVER,
  ManifestEntry.server 0x209 "SMSG_ACCOUNT_DATA_TIMES" SessionStatus.STATUS_NEVER,
  ManifestEntry.client 0x20A "CMSG_REQUEST_ACCOUNT_DATA" SessionStatus.STATUS_AUTHED PacketProcessing.PROCESS_THREADUNSAFE "HandleRequestAccountData",
  ManifestEntry.client 0x20B "CMSG_UPDATE_ACCOUNT_DATA" SessionStatus.STATUS_AUTHED PacketProcessing.PROCESS_THREADUNSAFE "HandleUpdateAccountData",
  ManifestEntry.server 0x20C "SMSG_UPDATE_ACCOUNT_DATA" SessionStatus.STATUS_NEVER,
  ManifestEntry.server 0x20D "SMSG_CLEAR_FAR_SIGHT_IMMEDIATE" SessionStatus.STATUS_NEVER,
  ManifestEntry.server 0x20E "SMSG_CHANGEPLAYER_DIFFICULTY_RESULT" SessionStatus.STATUS_NEVER,
  ManifestEntry.client 0x20F "CMSG_GM_TEACH" SessionStatus.STATUS_NEVER PacketProcessing.PROCESS_INPLACE "Handle_NULL",
  ManifestEntry.client 0x210 "CMSG_GM_CREATE_ITEM_TARGET" SessionStatus.STATUS_NEVER PacketProcessing.PROCESS_INPLACE "Handle_NULL",
  ManifestEntry.client 0x211 "CMSG_GMTICKET_GETTICKET" SessionStatus.STATUS_LOGGEDIN PacketProcessing.PROCESS_THREADUNSAFE "HandleGMTicketGetTicketOpcode",
  ManifestEntry.server 0x212 "SMSG_GMTICKET_GETTICKET" SessionStatus.STATUS_NEVER,
  ManifestEntry.client 0x213 "CMSG_UNLEARN_TALENTS" SessionStatus.STATUS_NEVER PacketProcessing.PROCESS_INPLACE "Handle_NULL",
  ManifestEntry.server 0x214 "SMSG_UPDATE_INSTANCE_ENCOUNTER_UNIT" SessionStatus.STATUS_NEVER,
  ManifestEntry.server 0x215 "SMSG_GAMEOBJECT_DESPAWN_ANIM" SessionStatus.STATUS_NEVER,
  ManifestEntry.client 0x216 "MSG_CORPSE_QUERY" SessionStatus.STATUS_LOGGEDIN PacketProcessing.PROCESS_THREADUNSAFE "HandleCorpseQueryOpcode",
  ManifestEntry.client 0x217 "CMSG_GMTICKET_DELETETICKET" SessionStatus.STATUS_LOGGEDIN PacketProcessing.PROCESS_THREADUNSAFE "HandleGMTicketDeleteOpcode",
  ManifestEntry.server 0x218 "SMSG_GMTICKET_DELETETICKET" SessionStatus.STATUS_NEVER,
  ManifestEntry.server 0x219 "SMSG_CHAT_WRONG_FACTION" SessionStatus.STATUS_NEVER,
  ManifestEntry.client 0x21A "CMSG_GMTICKET_SYSTEMSTATUS" SessionStatus.STATUS_LOGGEDIN PacketProcessing.PROCESS_THREADUNSAFE "HandleGMTicketSystemStatusOpcode",
  ManifestEntry.server 0x21B "SMSG_GMTICKET_SYSTEMSTATUS" SessionStatus.STATUS_NEVER,
  ManifestEntry.client 0x21C "CMSG_SPIRIT_HEALER_ACTIVATE" SessionStatus.STATUS_LOGGEDIN PacketProcessing.PROCESS_THREADUNSAFE "HandleSpiritHealerActivateOpcode",
  ManifestEntry.client 0x21D "CMSG_SET_STAT_CHEAT" SessionStatus.STATUS_NEVER PacketProcessing.PROCESS_INPLACE "Handle_NULL",
  ManifestEntry.server 0x21E "SMSG_QUEST_FORCE_REMOVE" SessionStatus.STATUS_NEVER,
  ManifestEntry.client 0x21F "CMSG_SKILL_BUY_STEP" SessionStatus.STATUS_NEVER PacketProcessing.PROCESS_INPLACE "Handle_NULL",
  ManifestEntry.client 0x220 "CMSG_SKILL_BUY_RANK" SessionStatus.STATUS_NEVER PacketProcessing.PROCESS_INPLACE "Handle_NULL",
  ManifestEntry.client 0x221 "CMSG_XP_CHEAT" SessionStatus.STATUS_NEVER PacketProcessing.PROCESS_INPLACE "Handle_NULL",
  ManifestEntry.server 0x222 "SMSG_SPIRIT_HEALER_CONFIRM" SessionStatus.STATUS_NEVER,
  ManifestEntry.client 0x223 "CMSG_CHARACTER_POINT_CHEAT" SessionStatus.STATUS_NEVER PacketProcessing.PROCESS_INPLACE "Handle_NULL",
  ManifestEntry.server 0x224 "SMSG_GOSSIP_POI" SessionStatus.STATUS_NEVER,
  ManifestEntry.client 0x225 "CMSG_CHAT_IGNORED" SessionStatus.STATUS_LOGGEDIN PacketProcessing.PROCESS_THREADUNSAFE "HandleChatIgnoredOpcode",
  ManifestEntry.client 0x226 "CMSG_GM_VISION" SessionStatus.STATUS_NEVER PacketProcessing.PROCESS_INPLACE "Handle_NULL",
  ManifestEntry.client 0x227 "CMSG_SERVER_COMMAND" SessionStatus.STATUS_NEVER PacketProcessing.PROCESS_INPLACE "Handle_NULL",
  ManifestEntry.client 0x228 "CMSG_GM_SILENCE" SessionStatus.STATUS_NEVER PacketProcessing.PROCESS_INPLACE "Handle_NULL",
  ManifestEntry.client 0x229 "CMSG_GM_REVEALTO" SessionStatus.STATUS_NEVER PacketProcessing.PROCESS_INPLACE "Handle_NULL",
  ManifestEntry.client 0x22A "CMSG_GM_RESURRECT" SessionStatus.STATUS_NEVER PacketProcessing.PROCESS_INPLACE "Handle_NULL",
  ManifestEntry.client 0x22B "CMSG_GM_SUMMONMOB" SessionStatus.STATUS_NEVER PacketProcessing.PROCESS_INPLACE "Handle_NULL",
  ManifestEntry.client 0x22C "CMSG_GM_MOVECORPSE" SessionStatus.STATUS_NEVER PacketProcessing.PROCESS_INPLACE "Handle_NULL",
  ManifestEntry.client 0x22D "CMSG_GM_FREEZE" SessionStatus.STATUS_NEVER PacketProcessing.PROCESS_INPLACE "Handle_NULL",
  ManifestEntry.client 0x22E "CMSG_GM_UBERINVIS" SessionStatus.STATUS_NEVER PacketProcessing.PROCESS_INPLACE "Handle_NULL",
  ManifestEntry.client 0x22F "CMSG_GM_REQUEST_PLAYER_INFO" SessionStatus.STATUS_NEVER PacketProcessing.PROCESS_INPLACE "Handle_NULL",
  ManifestEntry.server 0x230 "SMSG_GM_PLAYER_INFO" SessionStatus.STATUS_NEVER,
  ManifestEntry.client 0x231 "CMSG_GUILD_RANK" SessionStatus.STATUS_LOGGEDIN PacketProcessing.PROCESS_THREADUNSAFE "HandleGuildRankOpcode",
  ManifestEntry.client 0x232 "CMSG_GUILD_ADD_RANK" SessionStatus.STATUS_LOGGEDIN PacketProcessing.PROCESS_THREADUNSAFE "HandleGuildAddRankOpcode",
  ManifestEntry.client 0x233 "CMSG_GUILD_DEL_RANK" SessionStatus.STATUS_LOGGEDIN PacketProcessing.PROCESS_THREADUNSAFE "HandleGuildDelRankOpcode",
  ManifestEntry.client 0x234 "CMSG_GUILD_SET_PUBLIC_NOTE" SessionStatus.STATUS_LOGGEDIN PacketProcessing.PROCESS_THREADUNSAFE "HandleGuildSetPublicNoteOpcode",
  ManifestEntry.client 0x235 "CMSG_GUILD_SET_OFFICER_NOTE" SessionStatus.STATUS_LOGGEDIN PacketProcessing.PROCESS_THREADUNSAFE "HandleGuildSetOfficerNoteOpcode",
  ManifestEntry.server 0x236 "SMSG_LOGIN_VERIFY_WORLD" SessionStatus.STATUS_NEVER,
  ManifestEntry.client 0x237 "CMSG_CLEAR_EXPLORATION" SessionStatus.STATUS_NEVER PacketProcessing.PROCESS_INPLACE "Handle_NULL",
  ManifestEntry.client 0x238 "CMSG_SEND_MAIL" SessionStatus.STATUS_LOGGEDIN PacketProcessing.PROCESS_THREADUNSAFE "HandleSendMail",
  ManifestEntry.server 0x239 "SMSG_SEND_MAIL_RESULT" SessionStatus.STATUS_NEVER,
  ManifestEntry.client 0x23A "CMSG_GET_MAIL_LIST" SessionStatus.STATUS_LOGGEDIN PacketProcessing.PROCESS_THREADUNSAFE "HandleGetMailList",
  ManifestEntry.server 0x23B "SMSG_MAIL_LIST_RESULT" SessionStatus.STATUS_NEVER,
  ManifestEntry.client 0x23C "CMSG_BATTLEFIELD_LIST" SessionStatus.STATUS_LOGGEDIN PacketProcessing.PROCESS_THREADUNSAFE "HandleBattlefieldListOpcode",
  ManifestEntry.server 0x23D "SMSG_BATTLEFIELD_LIST" SessionStatus.STATUS_NEVER,
  ManifestEntry.client 0x23E "CMSG_BATTLEFIELD_JOIN" SessionStatus.STATUS_NEVER PacketProcessing.PROCESS_INPLACE "Handle_NULL",
  ManifestEntry.server 0x23F "SMSG_FORCE_SET_VEHICLE_REC_ID" SessionStatus.STATUS_NEVER,
  ManifestEntry.client 0x240 "CMSG_SET_VEHICLE_REC_ID_ACK" SessionStatus.STATUS_NEVER PacketProcessing.PROCESS_INPLACE "Handle_NULL",
  ManifestEntry.client 0x241 "CMSG_TAXICLEARNODE" SessionStatus.STATUS_NEVER PacketProcessing.PROCESS_INPLACE "Handle_NULL",
  ManifestEntry.client 0x242 "CMSG_TAXIENABLENODE" SessionStatus.STATUS_NEVER PacketProcessing.PROCESS_INPLACE "Handle_NULL",
  ManifestEntry.client 0x243 "CMSG_ITEM_TEXT_QUERY" SessionStatus.STATUS_LOGGEDIN PacketProcessing.PROCESS_INPLACE "HandleItemTextQuery",
  ManifestEntry.server 0x244 "SMSG_ITEM_TEXT_QUERY_RESPONSE" SessionStatus.STATUS_NEVER,
  ManifestEntry.client 0x245 "CMSG_MAIL_TAKE_MONEY" SessionStatus.STATUS_LOGGEDIN PacketProcessing.PROCESS_THREADUNSAFE "HandleMailTakeMoney",
  ManifestEntry.client 0x246 "CMSG_MAIL_TAKE_ITEM" SessionStatus.STATUS_LOGGEDIN PacketProcessing.PROCESS_THREADUNSAFE "HandleMailTakeItem",
  ManifestEntry.client 0x247 "CMSG_MAIL_MARK_AS_READ" SessionStatus.STATUS_LOGGEDIN PacketProcessing.PROCESS_THREADUNSAFE "HandleMailMarkAsRead",
  ManifestEntry.client 0x248 "CMSG_MAIL_RETURN_TO_SENDER" SessionStatus.STATUS_LOGGEDIN PacketProcessing.PROCESS_THREADUNSAFE "HandleMailReturnToSender",
  ManifestEntry.client 0x249 "CMSG_MAIL_DELETE" SessionStatus.STATUS_LOGGEDIN PacketProcessing.PROCESS_THREADUNSAFE "HandleMailDelete",
  ManifestEntry.client 0x24A "CMSG_MAIL_CREATE_TEXT_ITEM" SessionStatus.STATUS_LOGGEDIN PacketProcessing.PROCESS_THREADUNSAFE "HandleMailCreateTextItem",
  ManifestEntry.server 0x24B "SMSG_SPELLLOGMISS" SessionStatus.STATUS_NEVER,
  ManifestEntry.server 0x24C "SMSG_SPELLLOGEXECUTE" SessionStatus.STATUS_NEVER,
  ManifestEntry.server 0x24D "SMSG_DEBUGAURAPROC" SessionStatus.STATUS_NEVER,
  ManifestEntry.server 0x24E "SMSG_PERIODICAURALOG" SessionStatus.STATUS_NEVER,
  ManifestEntry.server 0x24F "SMSG_SPELLDAMAGESHIELD" SessionStatus.STATUS_NEVER,
  ManifestEntry.server 0x250 "SMSG_SPELLNONMELEEDAMAGELOG" SessionStatus.STATUS_NEVER,
  ManifestEntry.client 0x251 "CMSG_LEARN_TALENT" SessionStatus.STATUS_LOGGEDIN PacketProcessing.PROCESS_INPLACE "HandleLearnTalentOpcode",
  ManifestEntry.server 0x252 "SMSG_RESURRECT_FAILED" SessionStatus.STATUS_NEVER,
  ManifestEntry.client 0x253 "CMSG_TOGGLE_PVP" SessionStatus.STATUS_LOGGEDIN PacketProcessing.PROCESS_THREADUNSAFE "HandleTogglePvP",
  ManifestEntry.server 0x254 "SMSG_ZONE_UNDER_ATTACK" SessionStatus.STATUS_NEVER,
  ManifestEntry.client 0x255 "MSG_AUCTION_HELLO" SessionStatus.STATUS_LOGGEDIN PacketProcessing.PROCESS_THREADUNSAFE "HandleAuctionHelloOpcode",
  ManifestEntry.client 0x256 "CMSG_AUCTION_SELL_ITEM" SessionStatus.STATUS_LOGGEDIN PacketProcessing.PROCESS_THREADUNSAFE "HandleAuctionSellItem",
  ManifestEntry.client 0x257 "CMSG_AUCTION_REMOVE_ITEM" SessionStatus.STATUS_LOGGEDIN PacketProcessing.PROCESS_THREADUNSAFE "HandleAuctionRemoveItem",
  ManifestEntry.client 0x258 "CMSG_AUCTION_LIST_ITEMS" SessionStatus.STATUS_LOGGEDIN PacketProcessing.PROCESS_THREADSAFE "HandleAuctionListItems",
  ManifestEntry.client 0x259 "CMSG_AUCTION_LIST_OWNER_ITEMS" SessionStatus.STATUS_LOGGEDIN PacketProcessing.PROCESS_THREADSAFE "HandleAuctionListOwnerItems",
  ManifestEntry.client 0x25A "CMSG_AUCTION_PLACE_BID" SessionStatus.STATUS_LOGGEDIN PacketProcessing.PROCESS_THREADUNSAFE "HandleAuctionPlaceBid",
  ManifestEntry.server 0x25B "SMSG_AUCTION_COMMAND_RESULT" SessionStatus.STATUS_NEVER,
  ManifestEntry.server 0x25C "SMSG_AUCTION_LIST_RESULT" SessionStatus.STATUS_NEVER,
  ManifestEntry.server 0x25D "SMSG_AUCTION_OWNER_LIST_RESULT" SessionStatus.STATUS_NEVER,
  ManifestEntry.server 0x25E "SMSG_AUCTION_BIDDER_NOTIFICATION" SessionStatus.STATUS_NEVER,
  ManifestEntry.server 0x25F "SMSG_AUCTION_OWNER_NOTIFICATION" SessionStatus.STATUS_NEVER,
  ManifestEntry.server 0x260 "SMSG_PROCRESIST" SessionStatus.STATUS_NEVER,
  ManifestEntry.server 0x261 "SMSG_COMBAT_EVENT_FAILED" SessionStatus.STATUS_NEVER,
  ManifestEntry.server 0x262 "SMSG_DISPEL_FAILED" SessionStatus.STATUS_NEVER,
  ManifestEntry.server 0x263 "SMSG_SPELLORDAMAGE_IMMUNE" SessionStatus.STATUS_NEVER,
  ManifestEntry.client 0x264 "CMSG_AUCTION_LIST_BIDDER_ITEMS" SessionStatus.STATUS_LOGGEDIN PacketProcessing.PROCESS_THREADSAFE "HandleAuctionListBidderItems",
  ManifestEntry.server 0x265 "SMSG_AUCTION_BIDDER_LIST_RESULT" SessionStatus.STATUS_NEVER,
  ManifestEntry.server 0x266 "SMSG_SET_FLAT_SPELL_MODIFIER" SessionStatus.STATUS_NEVER,
  ManifestEntry.server 0x267 "SMSG_SET_PCT_SPELL_MODIFIER" SessionStatus.STATUS_NEVER,
  ManifestEntry.client 0x268 "CMSG_SET_AMMO" SessionStatus.STATUS_LOGGEDIN PacketProcessing.PROCESS_INPLACE "HandleSetAmmoOpcode",
  ManifestEntry.server 0x269 "SMSG_CORPSE_RECLAIM_DELAY" SessionStatus.STATUS_NEVER,
  ManifestEntry.client 0x26A "CMSG_SET_ACTIVE_MOVER" SessionStatus.STATUS_LOGGEDIN PacketProcessing.PROCESS_THREADUNSAFE "HandleSetActiveMoverOpcode",
  ManifestEntry.client 0x26B "CMSG_PET_CANCEL_AURA" SessionStatus.STATUS_LOGGEDIN PacketProcessing.PROCESS_INPLACE "HandlePetCancelAuraOpcode",
  ManifestEntry.client 0x26C "CMSG_PLAYER_AI_CHEAT" SessionStatus.STATUS_NEVER PacketProcessing.PROCESS_INPLACE "Handle_NULL",
  ManifestEntry.client 0x26D "CMSG_CANCEL_AUTO_REPEAT_SPELL" SessionStatus.STATUS_LOGGEDIN PacketProcessing.PROCESS_INPLACE "HandleCancelAutoRepeatSpellOpcode",
  ManifestEntry.client 0x26E "MSG_GM_ACCOUNT_ONLINE" SessionStatus.STATUS_NEVER PacketProcessing.PROCESS_INPLACE "Handle_NULL",
  ManifestEntry.client 0x26F "MSG_LIST_STABLED_PETS" SessionStatus.STATUS_LOGGEDIN PacketProcessing.PROCESS_THREADUNSAFE "HandleListStabledPetsOpcode",
  ManifestEntry.client 0x270 "CMSG_STABLE_PET" SessionStatus.STATUS_LOGGEDIN PacketProcessing.PROCESS_THREADUNSAFE "HandleStablePet",
  ManifestEntry.client 0x271 "CMSG_UNSTABLE_PET" SessionStatus.STATUS_LOGGEDIN PacketProcessing.PROCESS_THREADUNSAFE "HandleUnstablePet",
  ManifestEntry.client 0x272 "CMSG_BUY_STABLE_SLOT" SessionStatus.STATUS_LOGGEDIN PacketProcessing.PROCESS_THREADUNSAFE "HandleBuyStableSlot",
  ManifestEntry.server 0x273 "SMSG_STABLE_RESULT" SessionStatus.STATUS_NEVER,
  ManifestEntry.client 0x274 "CMSG_STABLE_REVIVE_PET" SessionStatus.STATUS_LOGGEDIN PacketProcessing.PROCESS_THREADUNSAFE "HandleStableRevivePet",
  ManifestEntry.client 0x275 "CMSG_STABLE_SWAP_PET" SessionStatus.STATUS_LOGGEDIN PacketProcessing.PROCESS_THREADUNSAFE "HandleStableSwapPet",
  ManifestEntry.client 0x276 "MSG_QUEST_PUSH_RESULT" SessionStatus.STATUS_LOGGEDIN PacketProcessing.PROCESS_THREADUNSAFE "HandleQuestPushResult",
  ManifestEntry.server 0x277 "SMSG_PLAY_MUSIC" SessionStatus.STATUS_NEVER,
  ManifestEntry.server 0x278 "SMSG_PLAY_OBJECT_SOUND" SessionStatus.STATUS_NEVER,
  ManifestEntry.client 0x279 "CMSG_REQUEST_PET_INFO" SessionStatus.STATUS_LOGGEDIN PacketProcessing.PROCESS_THREADUNSAFE "HandleRequestPetInfo",
  ManifestEntry.client 0x27A "CMSG_FAR_SIGHT" SessionStatus.STATUS_LOGGEDIN PacketProcessing.PROCESS_THREADUNSAFE "HandleFarSightOpcode",
  ManifestEntry.server 0x27B "SMSG_SPELLDISPELLOG" SessionStatus.STATUS_NEVER,
  ManifestEntry.server 0x27C "SMSG_DAMAGE_CALC_LOG" SessionStatus.STATUS_NEVER,
  ManifestEntry.client 0x27D "CMSG_ENABLE_DAMAGE_LOG" SessionStatus.STATUS_NEVER PacketProcessing.PROCESS_INPLACE "Handle_NULL",
  ManifestEntry.client 0x27E "CMSG_GROUP_CHANGE_SUB_GROUP" SessionStatus.STATUS_LOGGEDIN PacketProcessing.PROCESS_THREADUNSAFE "HandleGroupChangeSubGroupOpcode",
  ManifestEntry.client 0x27F "CMSG_REQUEST_PARTY_MEMBER_STATS" SessionStatus.STATUS_LOGGEDIN PacketProcessing.PROCESS_THREADUNSAFE "HandleRequestPartyMemberStatsOpcode",
  ManifestEntry.client 0x280 "CMSG_GROUP_SWAP_SUB_GROUP" SessionStatus.STATUS_LOGGEDIN PacketProcessing.PROCESS_THREADUNSAFE "HandleGroupSwapSubGroupOpcode",
  ManifestEntry.client 0x281 "CMSG_RESET_FACTION_CHEAT" SessionStatus.STATUS_NEVER PacketProcessing.PROCESS_INPLACE "Handle_NULL",
  ManifestEntry.client 0x282 "CMSG_AUTOSTORE_BANK_ITEM" SessionStatus.STATUS_LOGGEDIN PacketProcessing.PROCESS_INPLACE "HandleAutoStoreBankItemOpcode",
  ManifestEntry.client 0x283 "CMSG_AUTOBANK_ITEM" SessionStatus.STATUS_LOGGEDIN PacketProcessing.PROCESS_INPLACE "HandleAutoBankItemOpcode",
  ManifestEntry.client 0x284 "MSG_QUERY_NEXT_MAIL_TIME" SessionStatus.STATUS_LOGGEDIN PacketProcessing.PROCESS_THREADUNSAFE "HandleQueryNextMailTime",
  ManifestEntry.server 0x285 "SMSG_RECEIVED_MAIL" SessionStatus.STATUS_NEVER,
  ManifestEntry.server 0x286 "SMSG_RAID_GROUP_ONLY" SessionStatus.STATUS_NEVER,
  ManifestEntry.client 0x287 "CMSG_SET_DURABILITY_CHEAT" SessionStatus.STATUS_NEVER PacketProcessing.PROCESS_INPLACE "Handle_NULL",
  ManifestEntry.client 0x288 "CMSG_SET_PVP_RANK_CHEAT" SessionStatus.STATUS_NEVER PacketProcessing.PROCESS_INPLACE "Handle_NULL",
  ManifestEntry.client 0x289 "CMSG_ADD_PVP_MEDAL_CHEAT" SessionStatus.STATUS_NEVER PacketProcessing.PROCESS_INPLACE "Handle_NULL",
  ManifestEntry.client 0x28A "CMSG_DEL_PVP_MEDAL_CHEAT" SessionStatus.STATUS_NEVER PacketProcessing.PROCESS_INPLACE "Handle_NULL",
  ManifestEntry.client 0x28B "CMSG_SET_PVP_TITLE" SessionStatus.STATUS_NEVER PacketProcessing.PROCESS_INPLACE "Handle_NULL",
  ManifestEntry.server 0x28C "SMSG_PVP_CREDIT" SessionStatus.STATUS_NEVER,
  ManifestEntry.server 0x28D "SMSG_AUCTION_REMOVED_NOTIFICATION" SessionStatus.STATUS_NEVER,
  ManifestEntry.client 0x28E "CMSG_GROUP_RAID_CONVERT" SessionStatus.STATUS_LOGGEDIN PacketProcessing.PROCESS_THREADUNSAFE "HandleGroupRaidConvertOpcode",
  ManifestEntry.client 0x28F "CMSG_GROUP_ASSISTANT_LEADER" SessionStatus.STATUS_LOGGEDIN PacketProcessing.PROCESS_THREADUNSAFE "HandleGroupAssistantLeaderOpcode",
  ManifestEntry.client 0x290 "CMSG_BUYBACK_ITEM" SessionStatus.STATUS_LOGGEDIN PacketProcessing.PROCESS_INPLACE "HandleBuybackItem",
  ManifestEntry.server 0x291 "SMSG_CHAT_SERVER_MESSAGE" SessionStatus.STATUS_NEVER,
  ManifestEntry.client 0x292 "CMSG_SET_SAVED_INSTANCE_EXTEND" SessionStatus.STATUS_LOGGEDIN PacketProcessing.PROCESS_THREADUNSAFE "HandleSetSavedInstanceExtend",
  ManifestEntry.server 0x293 "SMSG_LFG_OFFER_CONTINUE" SessionStatus.STATUS_NEVER,
  ManifestEntry.client 0x294 "CMSG_TEST_DROP_RATE" SessionStatus.STATUS_NEVER PacketProcessing.PROCESS_INPLACE "Handle_NULL",
  ManifestEntry.server 0x295 "SMSG_TEST_DROP_RATE_RESULT" SessionStatus.STATUS_NEVER,
  ManifestEntry.client 0x296 "CMSG_LFG_GET_STATUS" SessionStatus.STATUS_LOGGEDIN PacketProcessing.PROCESS_THREADUNSAFE "HandleLfgGetStatus",
  ManifestEntry.server 0x297 "SMSG_SHOW_MAILBOX" SessionStatus.STATUS_NEVER,
  ManifestEntry.server 0x298 "SMSG_RESET_RANGED_COMBAT_TIMER" SessionStatus.STATUS_NEVER,
  ManifestEntry.server 0x299 "SMSG_CHAT_NOT_IN_PARTY" SessionStatus.STATUS_NEVER,
  ManifestEntry.server 0x29A "CMSG_GMTICKETSYSTEM_TOGGLE" SessionStatus.STATUS_NEVER,
  ManifestEntry.client 0x29B "CMSG_CANCEL_GROWTH_AURA" SessionStatus.STATUS_LOGGEDIN PacketProcessing.PROCESS_THREADUNSAFE "HandleCancelGrowthAuraOpcode",
  ManifestEntry.server 0x29C "SMSG_CANCEL_AUTO_REPEAT" SessionStatus.STATUS_NEVER,
  ManifestEntry.server 0x29D "SMSG_STANDSTATE_UPDATE" SessionStatus.STATUS_NEVER,
  ManifestEntry.server 0x29E "SMSG_LOOT_ALL_PASSED" SessionStatus.STATUS_NEVER,
  ManifestEntry.server 0x29F "SMSG_LOOT_ROLL_WON" SessionStatus.STATUS_NEVER,
  ManifestEntry.client 0x2A0 "CMSG_LOOT_ROLL" SessionStatus.STATUS_LOGGEDIN PacketProcessing.PROCESS_THREADUNSAFE "HandleLootRoll",
  ManifestEntry.server 0x2A1 "SMSG_LOOT_START_ROLL" SessionStatus.STATUS_NEVER,
  ManifestEntry.server 0x2A2 "SMSG_LOOT_ROLL" SessionStatus.STATUS_NEVER,
  ManifestEntry.client 0x2A3 "CMSG_LOOT_MASTER_GIVE" SessionStatus.STATUS_LOGGEDIN PacketProcessing.PROCESS_THREADSAFE "HandleLootMasterGiveOpcode",
  ManifestEntry.server 0x2A4 "SMSG_LOOT_MASTER_LIST" SessionStatus.STATUS_NEVER,
  ManifestEntry.server 0x2A5 "SMSG_SET_FORCED_REACTIONS" SessionStatus.STATUS_NEVER,
  ManifestEntry.server 0x2A6 "SMSG_SPELL_FAILED_OTHER" SessionStatus.STATUS_NEVER,
  ManifestEntry.server 0x2A7 "SMSG_GAMEOBJECT_RESET_STATE" SessionStatus.STATUS_NEVER,
  ManifestEntry.client 0x2A8 "CMSG_REPAIR_ITEM" SessionStatus.STATUS_LOGGEDIN PacketProcessing.PROCESS_INPLACE "HandleRepairItemOpcode",
  ManifestEntry.server 0x2A9 "SMSG_CHAT_PLAYER_NOT_FOUND" SessionStatus.STATUS_NEVER,
  ManifestEntry.client 0x2AA "MSG_TALENT_WIPE_CONFIRM" SessionStatus.STATUS_LOGGEDIN PacketProcessing.PROCESS_INPLACE "HandleTalentWipeConfirmOpcode",
  ManifestEntry.server 0x2AB "SMSG_SUMMON_REQUEST" SessionStatus.STATUS_NEVER,
  ManifestEntry.client 0x2AC "CMSG_SUMMON_RESPONSE" SessionStatus.STATUS_LOGGEDIN PacketProcessing.PROCESS_THREADUNSAFE "HandleSummonResponseOpcode",
  ManifestEntry.client 0x2AD "MSG_DEV_SHOWLABEL" SessionStatus.STATUS_NEVER PacketProcessing.PROCESS_INPLACE "Handle_NULL",
  ManifestEntry.server 0x2AE "SMSG_MONSTER_MOVE_TRANSPORT" SessionStatus.STATUS_NEVER,
  ManifestEntry.server 0x2AF "SMSG_PET_BROKEN" SessionStatus.STATUS_NEVER,
  ManifestEntry.client 0x2B0 "MSG_MOVE_FEATHER_FALL" SessionStatus.STATUS_NEVER PacketProcessing.PROCESS_INPLACE "Handle_NULL",
  ManifestEntry.client 0x2B1 "MSG_MOVE_WATER_WALK" SessionStatus.STATUS_NEVER PacketProcessing.PROCESS_INPLACE "Handle_NULL",
  ManifestEntry.client 0x2B2 "CMSG_SERVER_BROADCAST" SessionStatus.STATUS_NEVER PacketProcessing.PROCESS_INPLACE "Handle_NULL",
  ManifestEntry.client 0x2B3 "CMSG_SELF_RES" SessionStatus.STATUS_LOGGEDIN PacketProcessing.PROCESS_THREADSAFE "HandleSelfResOpcode",
  ManifestEntry.server 0x2B4 "SMSG_FEIGN_DEATH_RESISTED" SessionStatus.STATUS_NEVER,
  ManifestEntry.client 0x2B5 "CMSG_RUN_SCRIPT" SessionStatus.STATUS_NEVER PacketProcessing.PROCESS_INPLACE "Handle_NULL",
  ManifestEntry.server 0x2B6 "SMSG_SCRIPT_MESSAGE" SessionStatus.STATUS_NEVER,
  ManifestEntry.server 0x2B7 "SMSG_DUEL_COUNTDOWN" SessionStatus.STATUS_NEVER,
  ManifestEntry.server 0x2B8 "SMSG_AREA_TRIGGER_MESSAGE" SessionStatus.STATUS_NEVER,
  ManifestEntry.client 0x2B9 "CMSG_SHOWING_HELM" SessionStatus.STATUS_LOGGEDIN PacketProcessing.PROCESS_INPLACE "HandleShowingHelmOpcode",
  ManifestEntry.client 0x2BA "CMSG_SHOWING_CLOAK" SessionStatus.STATUS_LOGGEDIN PacketProcessing.PROCESS_INPLACE "HandleShowingCloakOpcode",
  ManifestEntry.server 0x2BB "SMSG_LFG_ROLE_CHOSEN" SessionStatus.STATUS_NEVER,
  ManifestEntry.server 0x2BC "SMSG_PLAYER_SKINNED" SessionStatus.STATUS_NEVER,
  ManifestEntry.server 0x2BD "SMSG_DURABILITY_DAMAGE_DEATH" SessionStatus.STATUS_NEVER,
  ManifestEntry.client 0x2BE "CMSG_SET_EXPLORATION" SessionStatus.STATUS_NEVER PacketProcessing.PROCESS_INPLACE "Handle_NULL",
  ManifestEntry.client 0x2BF "CMSG_SET_ACTIONBAR_TOGGLES" SessionStatus.STATUS_AUTHED PacketProcessing.PROCESS_THREADUNSAFE "HandleSetActionBarToggles",
  ManifestEntry.client 0x2C0 "UMSG_DELETE_GUILD_CHARTER" SessionStatus.STATUS_NEVER PacketProcessing.PROCESS_INPLACE "Handle_NULL",
  ManifestEntry.client 0x2C1 "MSG_PETITION_RENAME" SessionStatus.STATUS_LOGGEDIN PacketProcessing.PROCESS_THREADSAFE "HandlePetitionRenameOpcode",
  ManifestEntry.server 0x2C2 "SMSG_INIT_WORLD_STATES" SessionStatus.STATUS_NEVER,
  ManifestEntry.server 0x2C3 "SMSG_UPDATE_WORLD_STATE" SessionStatus.STATUS_NEVER,
  ManifestEntry.client 0x2C4 "CMSG_ITEM_NAME_QUERY" SessionStatus.STATUS_LOGGEDIN PacketProcessing.PROCESS_INPLACE "HandleItemNameQueryOpcode",
  ManifestEntry.server 0x2C5 "SMSG_ITEM_NAME_QUERY_RESPONSE" SessionStatus.STATUS_NEVER,
  ManifestEntry.server 0x2C6 "SMSG_PET_ACTION_FEEDBACK" SessionStatus.STATUS_NEVER,
  ManifestEntry.client 0x2C7 "CMSG_CHAR_RENAME" SessionStatus.STATUS_AUTHED PacketProcessing.PROCESS_THREADUNSAFE "HandleCharRenameOpcode",
  ManifestEntry.server 0x2C8 "SMSG_CHAR_RENAME" SessionStatus.STATUS_NEVER,
  ManifestEntry.client 0x2C9 "CMSG_MOVE_SPLINE_DONE" SessionStatus.STATUS_LOGGEDIN PacketProcessing.PROCESS_THREADSAFE "HandleMoveSplineDoneOpcode",
  ManifestEntry.client 0x2CA "CMSG_MOVE_FALL_RESET" SessionStatus.STATUS_LOGGEDIN PacketProcessing.PROCESS_THREADSAFE "HandleMovementOpcodes",
  ManifestEntry.server 0x2CB "SMSG_INSTANCE_SAVE_CREATED" SessionStatus.STATUS_NEVER,
  ManifestEntry.server 0x2CC "SMSG_RAID_INSTANCE_INFO" SessionStatus.STATUS_NEVER,
  ManifestEntry.client 0x2CD "CMSG_REQUEST_RAID_INFO" SessionStatus.STATUS_LOGGEDIN PacketProcessing.PROCESS_THREADUNSAFE "HandleRequestRaidInfoOpcode",
  ManifestEntry.client 0x2CE "CMSG_MOVE_TIME_SKIPPED" SessionStatus.STATUS_LOGGEDIN PacketProcessing.PROCESS_THREADSAFE "HandleMoveTimeSkippedOpcode",
  ManifestEntry.client 0x2CF "CMSG_MOVE_FEATHER_FALL_ACK" SessionStatus.STATUS_LOGGEDIN PacketProcessing.PROCESS_THREADSAFE "HandleFeatherFallAck",
  ManifestEntry.client 0x2D0 "CMSG_MOVE_WATER_WALK_ACK" SessionStatus.STATUS_LOGGEDIN PacketProcessing.PROCESS_THREADSAFE "HandleMoveWaterWalkAck",
  ManifestEntry.client 0x2D1 "CMSG_MOVE_NOT_ACTIVE_MOVER" SessionStatus.STATUS_LOGGEDIN PacketProcessing.PROCESS_THREADSAFE "HandleMoveNotActiveMover",
  ManifestEntry.server 0x2D2 "SMSG_PLAY_SOUND" SessionStatus.STATUS_NEVER,
  ManifestEntry.client 0x2D3 "CMSG_BATTLEFIELD_STATUS" SessionStatus.STATUS_LOGGEDIN PacketProcessing.PROCESS_THREADUNSAFE "HandleBattlefieldStatusOpcode",
  ManifestEntry.server 0x2D4 "SMSG_BATTLEFIELD_STATUS" SessionStatus.STATUS_NEVER,
  ManifestEntry.client 0x2D5 "CMSG_BATTLEFIELD_PORT" SessionStatus.STATUS_LOGGEDIN PacketProcessing.PROCESS_THREADUNSAFE "HandleBattleFieldPortOpcode",
  ManifestEntry.client 0x2D6 "MSG_INSPECT_HONOR_STATS" SessionStatus.STATUS_LOGGEDIN PacketProcessing.PROCESS_INPLACE "HandleInspectHonorStatsOpcode",
  ManifestEntry.client 0x2D7 "CMSG_BATTLEMASTER_HELLO" SessionStatus.STATUS_LOGGEDIN PacketProcessing.PROCESS_THREADUNSAFE "HandleBattlemasterHelloOpcode",
  ManifestEntry.client 0x2D8 "CMSG_MOVE_START_SWIM_CHEAT" SessionStatus.STATUS_NEVER PacketProcessing.PROCESS_INPLACE "Handle_NULL",
  ManifestEntry.client 0x2D9 "CMSG_MOVE_STOP_SWIM_CHEAT" SessionStatus.STATUS_NEVER PacketProcessing.PROCESS_INPLACE "Handle_NULL",
  ManifestEntry.server 0x2DA "SMSG_FORCE_WALK_SPEED_CHANGE" SessionStatus.STATUS_NEVER,
  ManifestEntry.client 0x2DB "CMSG_FORCE_WALK_SPEED_CHANGE_ACK" SessionStatus.STATUS_LOGGEDIN PacketProcessing.PROCESS_THREADSAFE "HandleForceSpeedChangeAck",
  ManifestEntry.server 0x2DC "SMSG_FORCE_SWIM_BACK_SPEED_CHANGE" SessionStatus.STATUS_NEVER,
  ManifestEntry.client 0x2DD "CMSG_FORCE_SWIM_BACK_SPEED_CHANGE_ACK" SessionStatus.STATUS_LOGGEDIN PacketProcessing.PROCESS_THREADSAFE "HandleForceSpeedChangeAck",
  ManifestEntry.server 0x2DE "SMSG_FORCE_TURN_RATE_CHANGE" SessionStatus.STATUS_NEVER,
  ManifestEntry.client 0x2DF "CMSG_FORCE_TURN_RATE_CHANGE_ACK" SessionStatus.STATUS_LOGGEDIN PacketProcessing.PROCESS_THREADSAFE "HandleForceSpeedChangeAck",
  ManifestEntry.client 0x2E0 "MSG_PVP_LOG_DATA" SessionStatus.STATUS_LOGGEDIN PacketProcessing.PROCESS_THREADUNSAFE "HandlePVPLogDataOpcode",
  ManifestEntry.client 0x2E1 "CMSG_LEAVE_BATTLEFIELD" SessionStatus.STATUS_LOGGEDIN PacketProcessing.PROCESS_THREADUNSAFE "HandleBattlefieldLeaveOpcode",
  ManifestEntry.client 0x2E2 "CMSG_AREA_SPIRIT_HEALER_QUERY" SessionStatus.STATUS_LOGGEDIN PacketProcessing.PROCESS_THREADUNSAFE "HandleAreaSpiritHealerQueryOpcode",
  ManifestEntry.client 0x2E3 "CMSG_AREA_SPIRIT_HEALER_QUEUE" SessionStatus.STATUS_LOGGEDIN PacketProcessing.PROCESS_THREADUNSAFE "HandleAreaSpiritHealerQueueOpcode",
  ManifestEntry.server 0x2E4 "SMSG_AREA_SPIRIT_HEALER_TIME" SessionStatus.STATUS_NEVER,
  ManifestEntry.client 0x2E5 "CMSG_GM_UNTEACH" SessionStatus.STATUS_NEVER PacketProcessing.PROCESS_INPLACE "Handle_NULL",
  ManifestEntry.server 0x2E6 "SMSG_WARDEN_DATA" SessionStatus.STATUS_NEVER,
  ManifestEntry.client 0x2E7 "CMSG_WARDEN_DATA" SessionStatus.STATUS_AUTHED PacketProcessing.PROCESS_THREADSAFE "HandleWardenDataOpcode",
  ManifestEntry.server 0x2E8 "SMSG_GROUP_JOINED_BATTLEGROUND" SessionStatus.STATUS_NEVER,
  ManifestEntry.client 0x2E9 "MSG_BATTLEGROUND_PLAYER_POSITIONS" SessionStatus.STATUS_LOGGEDIN PacketProcessing.PROCESS_THREADUNSAFE "HandleBattlegroundPlayerPositionsOpcode",
  ManifestEntry.client 0x2EA "CMSG_PET_STOP_ATTACK" SessionStatus.STATUS_LOGGEDIN PacketProcessing.PROCESS_INPLACE "HandlePetStopAttack",
  ManifestEntry.server 0x2EB "SMSG_BINDER_CONFIRM" SessionStatus.STATUS_NEVER,
  ManifestEntry.server 0x2EC "SMSG_BATTLEGROUND_PLAYER_JOINED" SessionStatus.STATUS_NEVER,
  ManifestEntry.server 0x2ED "SMSG_BATTLEGROUND_PLAYER_LEFT" SessionStatus.STATUS_NEVER,
  ManifestEntry.client 0x2EE "CMSG_BATTLEMASTER_JOIN" SessionStatus.STATUS_LOGGEDIN PacketProcessing.PROCESS_THREADUNSAFE "HandleBattlemasterJoinOpcode",
  ManifestEntry.server 0x2EF "SMSG_ADDON_INFO" SessionStatus.STATUS_NEVER,
  ManifestEntry.client 0x2F0 "CMSG_PET_UNLEARN" SessionStatus.STATUS_NEVER PacketProcessing.PROCESS_INPLACE "Handle_NULL",
  ManifestEntry.server 0x2F1 "SMSG_PET_UNLEARN_CONFIRM" SessionStatus.STATUS_NEVER,
  ManifestEntry.server 0x2F2 "SMSG_PARTY_MEMBER_STATS_FULL" SessionStatus.STATUS_NEVER,
  ManifestEntry.client 0x2F3 "CMSG_PET_SPELL_AUTOCAST" SessionStatus.STATUS_LOGGEDIN PacketProcessing.PROCESS_INPLACE "HandlePetSpellAutocastOpcode",
  ManifestEntry.server 0x2F4 "SMSG_WEATHER" SessionStatus.STATUS_NEVER,
  ManifestEntry.server 0x2F5 "SMSG_PLAY_TIME_WARNING" SessionStatus.STATUS_NEVER,
  ManifestEntry.server 0x2F6 "SMSG_MINIGAME_SETUP" SessionStatus.STATUS_NEVER,
  ManifestEntry.server 0x2F7 "SMSG_MINIGAME_STATE" SessionStatus.STATUS_NEVER,
  ManifestEntry.client 0x2F8 "CMSG_MINIGAME_MOVE" SessionStatus.STATUS_NEVER PacketProcessing.PROCESS_INPLACE "Handle_NULL",
  ManifestEntry.server 0x2F9 "SMSG_MINIGAME_MOVE_FAILED" SessionStatus.STATUS_NEVER,
  ManifestEntry.server 0x2FA "SMSG_RAID_INSTANCE_MESSAGE" SessionStatus.STATUS_NEVER,
  ManifestEntry.server 0x2FB "SMSG_COMPRESSED_MOVES" SessionStatus.STATUS_NEVER,
  ManifestEntry.client 0x2FC "CMSG_GUILD_INFO_TEXT" SessionStatus.STATUS_LOGGEDIN PacketProcessing.PROCESS_THREADUNSAFE "HandleGuildChangeInfoTextOpcode",
  ManifestEntry.server 0x2FD "SMSG_CHAT_RESTRICTED" SessionStatus.STATUS_NEVER,
  ManifestEntry.server 0x2FE "SMSG_SPLINE_SET_RUN_SPEED" SessionStatus.STATUS_NEVER,
  ManifestEntry.server 0x2FF "SMSG_SPLINE_SET_RUN_BACK_SPEED" SessionStatus.STATUS_NEVER,
  ManifestEntry.server 0x300 "SMSG_SPLINE_SET_SWIM_SPEED" SessionStatus.STATUS_NEVER,
  ManifestEntry.server 0x301 "SMSG_SPLINE_SET_WALK_SPEED" SessionStatus.STATUS_NEVER,
  ManifestEntry.server 0x302 "SMSG_SPLINE_SET_SWIM_BACK_SPEED" SessionStatus.STATUS_NEVER,
  ManifestEntry.server 0x303 "SMSG_SPLINE_SET_TURN_RATE" SessionStatus.STATUS_NEVER,
  ManifestEntry.server 0x304 "SMSG_SPLINE_MOVE_UNROOT" SessionStatus.STATUS_NEVER,
  ManifestEntry.server 0x305 "SMSG_SPLINE_MOVE_FEATHER_FALL" SessionStatus.STATUS_NEVER,
  ManifestEntry.server 0x306 "SMSG_SPLINE_MOVE_NORMAL_FALL" SessionStatus.STATUS_NEVER,
  ManifestEntry.server 0x307 "SMSG_SPLINE_MOVE_SET_HOVER" SessionStatus.STATUS_NEVER,
  ManifestEntry.server 0x308 "SMSG_SPLINE_MOVE_UNSET_HOVER" SessionStatus.STATUS_NEVER,
  ManifestEntry.server 0x309 "SMSG_SPLINE_MOVE_WATER_WALK" SessionStatus.STATUS_NEVER,
  ManifestEntry.server 0x30A "SMSG_SPLINE_MOVE_LAND_WALK" SessionStatus.STATUS_NEVER,
  ManifestEntry.server 0x30B "SMSG_SPLINE_MOVE_START_SWIM" SessionStatus.STATUS_NEVER,
  ManifestEntry.server 0x30C "SMSG_SPLINE_MOVE_STOP_SWIM" SessionStatus.STATUS_NEVER,
  ManifestEntry.server 0x30D "SMSG_SPLINE_MOVE_SET_RUN_MODE" SessionStatus.STATUS_NEVER,
  ManifestEntry.server 0x30E "SMSG_SPLINE_MOVE_SET_WALK_MODE" SessionStatus.STATUS_NEVER,
  ManifestEntry.client 0x30F "CMSG_GM_NUKE_ACCOUNT" SessionStatus.STATUS_NEVER PacketProcessing.PROCESS_INPLACE "Handle_NULL",
  ManifestEntry.client 0x310 "MSG_GM_DESTROY_CORPSE" SessionStatus.STATUS_NEVER PacketProcessing.PROCESS_INPLACE "Handle_NULL",
  ManifestEntry.client 0x311 "CMSG_GM_DESTROY_ONLINE_CORPSE" SessionStatus.STATUS_NEVER PacketProcessing.PROCESS_INPLACE "Handle_NULL",
  ManifestEntry.client 0x312 "CMSG_ACTIVATETAXIEXPRESS" SessionStatus.STATUS_LOGGEDIN PacketProcessing.PROCESS_THREADSAFE "HandleActivateTaxiExpressOpcode",
  ManifestEntry.server 0x313 "SMSG_SET_FACTION_ATWAR" SessionStatus.STATUS_NEVER,
  ManifestEntry.server 0x314 "SMSG_GAMETIMEBIAS_SET" SessionStatus.STATUS_NEVER,
  ManifestEntry.client 0x315 "CMSG_DEBUG_ACTIONS_START" SessionStatus.STATUS_NEVER PacketProcessing.PROCESS_INPLACE "Handle_NULL",
  ManifestEntry.client 0x316 "CMSG_DEBUG_ACTIONS_STOP" SessionStatus.STATUS_NEVER PacketProcessing.PROCESS_INPLACE "Handle_NULL",
  ManifestEntry.client 0x317 "CMSG_SET_FACTION_INACTIVE" SessionStatus.STATUS_LOGGEDIN PacketProcessing.PROCESS_THREADUNSAFE "HandleSetFactionInactiveOpcode",
  ManifestEntry.client 0x318 "CMSG_SET_WATCHED_FACTION" SessionStatus.STATUS_LOGGEDIN PacketProcessing.PROCESS_THREADUNSAFE "HandleSetWatchedFactionOpcode",
  ManifestEntry.client 0x319 "MSG_MOVE_TIME_SKIPPED" SessionStatus.STATUS_NEVER PacketProcessing.PROCESS_INPLACE "Handle_NULL",
  ManifestEntry.server 0x31A "SMSG_SPLINE_MOVE_ROOT" SessionStatus.STATUS_NEVER,
  ManifestEntry.client 0x31B "CMSG_SET_EXPLORATION_ALL" SessionStatus.STATUS_NEVER PacketProcessing.PROCESS_INPLACE "Handle_NULL",
  ManifestEntry.server 0x31C "SMSG_INVALIDATE_PLAYER" SessionStatus.STATUS_NEVER,
  ManifestEntry.client 0x31D "CMSG_RESET_INSTANCES" SessionStatus.STATUS_LOGGEDIN PacketProcessing.PROCESS_THREADUNSAFE "HandleResetInstancesOpcode",
  ManifestEntry.server 0x31E "SMSG_INSTANCE_RESET" SessionStatus.STATUS_NEVER,
  ManifestEntry.server 0x31F "SMSG_INSTANCE_RESET_FAILED" SessionStatus.STATUS_NEVER,
  ManifestEntry.server 0x320 "SMSG_UPDATE_LAST_INSTANCE" SessionStatus.STATUS_NEVER,
  ManifestEntry.client 0x321 "MSG_RAID_TARGET_UPDATE" SessionStatus.STATUS_LOGGEDIN PacketProcessing.PROCESS_THREADUNSAFE "HandleRaidTargetUpdateOpcode",
  ManifestEntry.client 0x322 "MSG_RAID_READY_CHECK" SessionStatus.STATUS_LOGGEDIN PacketProcessing.PROCESS_THREADUNSAFE "HandleRaidReadyCheckOpcode",
  ManifestEntry.client 0x323 "CMSG_LUA_USAGE" SessionStatus.STATUS_NEVER PacketProcessing.PROCESS_INPLACE "Handle_NULL",
  ManifestEntry.server 0x324 "SMSG_PET_ACTION_SOUND" SessionStatus.STATUS_NEVER,
  ManifestEntry.server 0x325 "SMSG_PET_DISMISS_SOUND" SessionStatus.STATUS_NEVER,
  ManifestEntry.server 0x326 "SMSG_GHOSTEE_GONE" SessionStatus.STATUS_NEVER,
  ManifestEntry.client 0x327 "CMSG_GM_UPDATE_TICKET_STATUS" SessionStatus.STATUS_NEVER PacketProcessing.PROCESS_INPLACE "Handle_NULL",
  ManifestEntry.server 0x328 "SMSG_GM_TICKET_STATUS_UPDATE" SessionStatus.STATUS_NEVER,
  ManifestEntry.client 0x329 "MSG_SET_DUNGEON_DIFFICULTY" SessionStatus.STATUS_LOGGEDIN PacketProcessing.PROCESS_THREADUNSAFE "HandleSetDungeonDifficultyOpcode",
  ManifestEntry.client 0x32A "CMSG_GMSURVEY_SUBMIT" SessionStatus.STATUS_LOGGEDIN PacketProcessing.PROCESS_THREADUNSAFE "HandleGMSurveySubmit",
  ManifestEntry.server 0x32B "SMSG_UPDATE_INSTANCE_OWNERSHIP" SessionStatus.STATUS_NEVER,
  ManifestEntry.client 0x32C "CMSG_IGNORE_KNOCKBACK_CHEAT" SessionStatus.STATUS_NEVER PacketProcessing.PROCESS_INPLACE "Handle_NULL",
  ManifestEntry.server 0x32D "SMSG_CHAT_PLAYER_AMBIGUOUS" SessionStatus.STATUS_NEVER,
  ManifestEntry.client 0x32E "MSG_DELAY_GHOST_TELEPORT" SessionStatus.STATUS_NEVER PacketProcessing.PROCESS_INPLACE "Handle_NULL",
  ManifestEntry.server 0x32F "SMSG_SPELLINSTAKILLLOG" SessionStatus.STATUS_NEVER,
  ManifestEntry.server 0x330 "SMSG_SPELL_UPDATE_CHAIN_TARGETS" SessionStatus.STATUS_NEVER,
  ManifestEntry.client 0x331 "CMSG_CHAT_FILTERED" SessionStatus.STATUS_NEVER PacketProcessing.PROCESS_INPLACE "Handle_NULL",
  ManifestEntry.server 0x332 "SMSG_EXPECTED_SPAM_RECORDS" SessionStatus.STATUS_NEVER,
  ManifestEntry.server 0x333 "SMSG_SPELLSTEALLOG" SessionStatus.STATUS_NEVER,
  ManifestEntry.client 0x334 "CMSG_LOTTERY_QUERY_OBSOLETE" SessionStatus.STATUS_NEVER PacketProcessing.PROCESS_INPLACE "Handle_NULL",
  ManifestEntry.server 0x335 "SMSG_LOTTERY_QUERY_RESULT_OBSOLETE" SessionStatus.STATUS_NEVER,
  ManifestEntry.client 0x336 "CMSG_BUY_LOTTERY_TICKET_OBSOLETE" SessionStatus.STATUS_NEVER PacketProcessing.PROCESS_INPLACE "Handle_NULL",
  ManifestEntry.server 0x337 "SMSG_LOTTERY_RESULT_OBSOLETE" SessionStatus.STATUS_NEVER,
  ManifestEntry.server 0x338 "SMSG_CHARACTER_PROFILE" SessionStatus.STATUS_NEVER,
  ManifestEntry.server 0x339 "SMSG_CHARACTER_PROFILE_REALM_CONNECTED" SessionStatus.STATUS_NEVER,
  ManifestEntry.server 0x33A "SMSG_DEFENSE_MESSAGE" SessionStatus.STATUS_NEVER,
  ManifestEntry.server 0x33B "SMSG_INSTANCE_DIFFICULTY" SessionStatus.STATUS_NEVER,
  ManifestEntry.client 0x33C "MSG_GM_RESETINSTANCELIMIT" SessionStatus.STATUS_NEVER PacketProcessing.PROCESS_INPLACE "Handle_NULL",
  ManifestEntry.server 0x33D "SMSG_MOTD" SessionStatus.STATUS_NEVER,
  ManifestEntry.server 0x33E "SMSG_MOVE_SET_CAN_TRANSITION_BETWEEN_SWIM_AND_FLY" SessionStatus.STATUS_NEVER,
  ManifestEntry.server 0x33F "SMSG_MOVE_UNSET_CAN_TRANSITION_BETWEEN_SWIM_AND_FLY" SessionStatus.STATUS_NEVER,
  ManifestEntry.client 0x340 "CMSG_MOVE_SET_CAN_TRANSITION_BETWEEN_SWIM_AND_FLY_ACK" SessionStatus.STATUS_NEVER PacketProcessing.PROCESS_INPLACE "Handle_NULL",
  ManifestEntry.client 0x341 "MSG_MOVE_START_SWIM_CHEAT" SessionStatus.STATUS_NEVER PacketProcessing.PROCESS_INPLACE "Handle_NULL",
  ManifestEntry.client 0x342 "MSG_MOVE_STOP_SWIM_CHEAT" SessionStatus.STATUS_NEVER PacketProcessing.PROCESS_INPLACE "Handle_NULL",
  ManifestEntry.server 0x343 "SMSG_MOVE_SET_CAN_FLY" SessionStatus.STATUS_NEVER,
  ManifestEntry.server 0x344 "SMSG_MOVE_UNSET_CAN_FLY" SessionStatus.STATUS_NEVER,
  ManifestEntry.client 0x345 "CMSG_MOVE_SET_CAN_FLY_ACK" SessionStatus.STATUS_LOGGEDIN PacketProcessing.PROCESS_THREADSAFE "HandleMoveSetCanFlyAckOpcode",
  ManifestEntry.client 0x346 "CMSG_MOVE_SET_FLY" SessionStatus.STATUS_LOGGEDIN PacketProcessing.PROCESS_THREADSAFE "HandleMovementOpcodes",
  ManifestEntry.client 0x347 "CMSG_SOCKET_GEMS" SessionStatus.STATUS_LOGGEDIN PacketProcessing.PROCESS_INPLACE "HandleSocketOpcode",
  ManifestEntry.client 0x348 "CMSG_ARENA_TEAM_CREATE" SessionStatus.STATUS_NEVER PacketProcessing.PROCESS_INPLACE "Handle_NULL",
  ManifestEntry.server 0x349 "SMSG_ARENA_TEAM_COMMAND_RESULT" SessionStatus.STATUS_NEVER,
  ManifestEntry.client 0x34A "MSG_MOVE_UPDATE_CAN_TRANSITION_BETWEEN_SWIM_AND_FLY" SessionStatus.STATUS_NEVER PacketProcessing.PROCESS_INPLACE "Handle_NULL",
  ManifestEntry.client 0x34B "CMSG_ARENA_TEAM_QUERY" SessionStatus.STATUS_LOGGEDIN PacketProcessing.PROCESS_THREADSAFE "HandleArenaTeamQueryOpcode",
  ManifestEntry.server 0x34C "SMSG_ARENA_TEAM_QUERY_RESPONSE" SessionStatus.STATUS_NEVER,
  ManifestEntry.client 0x34D "CMSG_ARENA_TEAM_ROSTER" SessionStatus.STATUS_LOGGEDIN PacketProcessing.PROCESS_THREADSAFE "HandleArenaTeamRosterOpcode",
  ManifestEntry.server 0x34E "SMSG_ARENA_TEAM_ROSTER" SessionStatus.STATUS_NEVER,
  ManifestEntry.client 0x34F "CMSG_ARENA_TEAM_INVITE" SessionStatus.STATUS_LOGGEDIN PacketProcessing.PROCESS_THREADUNSAFE "HandleArenaTeamInviteOpcode",
  ManifestEntry.server 0x350 "SMSG_ARENA_TEAM_INVITE" SessionStatus.STATUS_NEVER,
  ManifestEntry.client 0x351 "CMSG_ARENA_TEAM_ACCEPT" SessionStatus.STATUS_LOGGEDIN PacketProcessing.PROCESS_THREADUNSAFE "HandleArenaTeamAcceptOpcode",
  ManifestEntry.client 0x352 "CMSG_ARENA_TEAM_DECLINE" SessionStatus.STATUS_LOGGEDIN PacketProcessing.PROCESS_THREADUNSAFE "HandleArenaTeamDeclineOpcode",
  ManifestEntry.client 0x353 "CMSG_ARENA_TEAM_LEAVE" SessionStatus.STATUS_LOGGEDIN PacketProcessing.PROCESS_THREADUNSAFE "HandleArenaTeamLeaveOpcode",
  ManifestEntry.client 0x354 "CMSG_ARENA_TEAM_REMOVE" SessionStatus.STATUS_LOGGEDIN PacketProcessing.PROCESS_THREADUNSAFE "HandleArenaTeamRemoveOpcode",
  ManifestEntry.client 0x355 "CMSG_ARENA_TEAM_DISBAND" SessionStatus.STATUS_LOGGEDIN PacketProcessing.PROCESS_THREADUNSAFE "HandleArenaTeamDisbandOpcode",
  ManifestEntry.client 0x356 "CMSG_ARENA_TEAM_LEADER" SessionStatus.STATUS_LOGGEDIN PacketProcessing.PROCESS_THREADUNSAFE "HandleArenaTeamLeaderOpcode",
  ManifestEntry.server 0x357 "SMSG_ARENA_TEAM_EVENT" SessionStatus.STATUS_NEVER,
  ManifestEntry.client 0x358 "CMSG_BATTLEMASTER_JOIN_ARENA" SessionStatus.STATUS_LOGGEDIN PacketProcessing.PROCESS_THREADUNSAFE "HandleBattlemasterJoinArena",
  ManifestEntry.client 0x359 "MSG_MOVE_START_ASCEND" SessionStatus.STATUS_LOGGEDIN PacketProcessing.PROCESS_THREADSAFE "HandleMovementOpcodes",
  ManifestEntry.client 0x35A "MSG_MOVE_STOP_ASCEND" SessionStatus.STATUS_LOGGEDIN PacketProcessing.PROCESS_THREADSAFE "HandleMovementOpcodes",
  ManifestEntry.server 0x35B "SMSG_ARENA_TEAM_STATS" SessionStatus.STATUS_NEVER,
  ManifestEntry.client 0x35C "CMSG_LFG_JOIN" SessionStatus.STATUS_LOGGEDIN PacketProcessing.PROCESS_THREADUNSAFE "HandleLfgJoinOpcode",
  ManifestEntry.client 0x35D "CMSG_LFG_LEAVE" SessionStatus.STATUS_LOGGEDIN PacketProcessing.PROCESS_THREADUNSAFE "HandleLfgLeaveOpcode",
  ManifestEntry.client 0x35E "CMSG_SEARCH_LFG_JOIN" SessionStatus.STATUS_LOGGEDIN PacketProcessing.PROCESS_THREADUNSAFE "HandleLfrSearchJoinOpcode",
  ManifestEntry.client 0x35F "CMSG_SEARCH_LFG_LEAVE" SessionStatus.STATUS_LOGGEDIN PacketProcessing.PROCESS_THREADUNSAFE "HandleLfrSearchLeaveOpcode",
  ManifestEntry.server 0x360 "SMSG_UPDATE_LFG_LIST" SessionStatus.STATUS_NEVER,
  ManifestEntry.server 0x361 "SMSG_LFG_PROPOSAL_UPDATE" SessionStatus.STATUS_NEVER,
  ManifestEntry.client 0x362 "CMSG_LFG_PROPOSAL_RESULT" SessionStatus.STATUS_LOGGEDIN PacketProcessing.PROCESS_THREADUNSAFE "HandleLfgProposalResultOpcode",
  ManifestEntry.server 0x363 "SMSG_LFG_ROLE_CHECK_UPDATE" SessionStatus.STATUS_NEVER,
  ManifestEntry.server 0x364 "SMSG_LFG_JOIN_RESULT" SessionStatus.STATUS_NEVER,
  ManifestEntry.server 0x365 "SMSG_LFG_QUEUE_STATUS" SessionStatus.STATUS_NEVER,
  ManifestEntry.client 0x366 "CMSG_SET_LFG_COMMENT" SessionStatus.STATUS_LOGGEDIN PacketProcessing.PROCESS_THREADUNSAFE "HandleLfgSetCommentOpcode",
  ManifestEntry.server 0x367 "SMSG_LFG_UPDATE_PLAYER" SessionStatus.STATUS_NEVER,
  ManifestEntry.server 0x368 "SMSG_LFG_UPDATE_PARTY" SessionStatus.STATUS_NEVER,
  ManifestEntry.server 0x369 "SMSG_LFG_UPDATE_SEARCH" SessionStatus.STATUS_NEVER,
  ManifestEntry.client 0x36A "CMSG_LFG_SET_ROLES" SessionStatus.STATUS_LOGGEDIN PacketProcessing.PROCESS_THREADUNSAFE "HandleLfgSetRolesOpcode",
  ManifestEntry.client 0x36B "CMSG_LFG_SET_NEEDS" SessionStatus.STATUS_NEVER PacketProcessing.PROCESS_INPLACE "Handle_NULL",
  ManifestEntry.client 0x36C "CMSG_LFG_SET_BOOT_VOTE" SessionStatus.STATUS_LOGGEDIN PacketProcessing.PROCESS_THREADUNSAFE "HandleLfgSetBootVoteOpcode",
  ManifestEntry.server 0x36D "SMSG_LFG_BOOT_PROPOSAL_UPDATE" SessionStatus.STATUS_NEVER,
  ManifestEntry.client 0x36E "CMSG_LFD_PLAYER_LOCK_INFO_REQUEST" SessionStatus.STATUS_LOGGEDIN PacketProcessing.PROCESS_THREADUNSAFE "HandleLfgPlayerLockInfoRequestOpcode",
  ManifestEntry.server 0x36F "SMSG_LFG_PLAYER_INFO" SessionStatus.STATUS_NEVER,
  ManifestEntry.client 0x370 "CMSG_LFG_TELEPORT" SessionStatus.STATUS_LOGGEDIN PacketProcessing.PROCESS_THREADUNSAFE "HandleLfgTeleportOpcode",
  ManifestEntry.client 0x371 "CMSG_LFD_PARTY_LOCK_INFO_REQUEST" SessionStatus.STATUS_LOGGEDIN PacketProcessing.PROCESS_THREADUNSAFE "HandleLfgPartyLockInfoRequestOpcode",
  ManifestEntry.server 0x372 "SMSG_LFG_PARTY_INFO" SessionStatus.STATUS_NEVER,
  ManifestEntry.server 0x373 "SMSG_TITLE_EARNED" SessionStatus.STATUS_NEVER,
  ManifestEntry.client 0x374 "CMSG_SET_TITLE" SessionStatus.STATUS_LOGGEDIN PacketProcessing.PROCESS_INPLACE "HandleSetTitleOpcode",
  ManifestEntry.client 0x375 "CMSG_CANCEL_MOUNT_AURA" SessionStatus.STATUS_LOGGEDIN PacketProcessing.PROCESS_INPLACE "HandleCancelMountAuraOpcode",
  ManifestEntry.server 0x376 "SMSG_ARENA_ERROR" SessionStatus.STATUS_NEVER,
  ManifestEntry.client 0x377 "MSG_INSPECT_ARENA_TEAMS" SessionStatus.STATUS_LOGGEDIN PacketProcessing.PROCESS_INPLACE "HandleInspectArenaTeamsOpcode",
  ManifestEntry.server 0x378 "SMSG_DEATH_RELEASE_LOC" SessionStatus.STATUS_NEVER,
  ManifestEntry.client 0x379 "CMSG_CANCEL_TEMP_ENCHANTMENT" SessionStatus.STATUS_LOGGEDIN PacketProcessing.PROCESS_INPLACE "HandleCancelTempEnchantmentOpcode",
  ManifestEntry.server 0x37A "SMSG_FORCED_DEATH_UPDATE" SessionStatus.STATUS_NEVER,
  ManifestEntry.client 0x37B "CMSG_CHEAT_SET_HONOR_CURRENCY" SessionStatus.STATUS_NEVER PacketProcessing.PROCESS_INPLACE "Handle_NULL",
  ManifestEntry.client 0x37C "CMSG_CHEAT_SET_ARENA_CURRENCY" SessionStatus.STATUS_NEVER PacketProcessing.PROCESS_INPLACE "Handle_NULL",
  ManifestEntry.client 0x37D "MSG_MOVE_SET_FLIGHT_SPEED_CHEAT" SessionStatus.STATUS_NEVER PacketProcessing.PROCESS_INPLACE "Handle_NULL",
  ManifestEntry.client 0x37E "MSG_MOVE_SET_FLIGHT_SPEED" SessionStatus.STATUS_NEVER PacketProcessing.PROCESS_INPLACE "Handle_NULL",
  ManifestEntry.client 0x37F "MSG_MOVE_SET_FLIGHT_BACK_SPEED_CHEAT" SessionStatus.STATUS_NEVER PacketProcessing.PROCESS_INPLACE "Handle_NULL",
  ManifestEntry.client 0x380 "MSG_MOVE_SET_FLIGHT_BACK_SPEED" SessionStatus.STATUS_NEVER PacketProcessing.PROCESS_INPLACE "Handle_NULL",
  ManifestEntry.server 0x381 "SMSG_FORCE_FLIGHT_SPEED_CHANGE" SessionStatus.STATUS_NEVER,
  ManifestEntry.client 0x382 "CMSG_FORCE_FLIGHT_SPEED_CHANGE_ACK" SessionStatus.STATUS_LOGGEDIN PacketProcessing.PROCESS_THREADSAFE "HandleForceSpeedChangeAck",
  ManifestEntry.server 0x383 "SMSG_FORCE_FLIGHT_BACK_SPEED_CHANGE" SessionStatus.STATUS_NEVER,
  ManifestEntry.client 0x384 "CMSG_FORCE_FLIGHT_BACK_SPEED_CHANGE_ACK" SessionStatus.STATUS_LOGGEDIN PacketProcessing.PROCESS_THREADSAFE "HandleForceSpeedChangeAck",
  ManifestEntry.server 0x385 "SMSG_SPLINE_SET_FLIGHT_SPEED" SessionStatus.STATUS_NEVER,
  ManifestEntry.server 0x386 "SMSG_SPLINE_SET_FLIGHT_BACK_SPEED" SessionStatus.STATUS_NEVER,
  ManifestEntry.client 0x387 "CMSG_MAELSTROM_INVALIDATE_CACHE" SessionStatus.STATUS_NEVER PacketProcessing.PROCESS_INPLACE "Handle_NULL",
  ManifestEntry.server 0x388 "SMSG_FLIGHT_SPLINE_SYNC" SessionStatus.STATUS_NEVER,
  ManifestEntry.client 0x389 "CMSG_SET_TAXI_BENCHMARK_MODE" SessionStatus.STATUS_LOGGEDIN PacketProcessing.PROCESS_THREADUNSAFE "HandleSetTaxiBenchmarkOpcode",
  ManifestEntry.server 0x38A "SMSG_JOINED_BATTLEGROUND_QUEUE" SessionStatus.STATUS_NEVER,
  ManifestEntry.server 0x38B "SMSG_REALM_SPLIT" SessionStatus.STATUS_NEVER,
  ManifestEntry.client 0x38C "CMSG_REALM_SPLIT" SessionStatus.STATUS_AUTHED PacketProcessing.PROCESS_THREADUNSAFE "HandleRealmSplitOpcode",
  ManifestEntry.client 0x38D "CMSG_MOVE_CHNG_TRANSPORT" SessionStatus.STATUS_LOGGEDIN PacketProcessing.PROCESS_THREADSAFE "HandleMovementOpcodes",
  ManifestEntry.client 0x38E "MSG_PARTY_ASSIGNMENT" SessionStatus.STATUS_LOGGEDIN PacketProcessing.PROCESS_THREADUNSAFE "HandlePartyAssignmentOpcode",
  ManifestEntry.server 0x38F "SMSG_OFFER_PETITION_ERROR" SessionStatus.STATUS_NEVER,
  ManifestEntry.server 0x390 "SMSG_TIME_SYNC_REQ" SessionStatus.STATUS_NEVER,
  ManifestEntry.client 0x391 "CMSG_TIME_SYNC_RESP" SessionStatus.STATUS_LOGGEDIN PacketProcessing.PROCESS_THREADSAFE "HandleTimeSyncResp",
  ManifestEntry.client 0x392 "CMSG_SEND_LOCAL_EVENT" SessionStatus.STATUS_NEVER PacketProcessing.PROCESS_INPLACE "Handle_NULL",
  ManifestEntry.client 0x393 "CMSG_SEND_GENERAL_TRIGGER" SessionStatus.STATUS_NEVER PacketProcessing.PROCESS_INPLACE "Handle_NULL",
  ManifestEntry.client 0x394 "CMSG_SEND_COMBAT_TRIGGER" SessionStatus.STATUS_NEVER PacketProcessing.PROCESS_INPLACE "Handle_NULL",
  ManifestEntry.client 0x395 "CMSG_MAELSTROM_GM_SENT_MAIL" SessionStatus.STATUS_NEVER PacketProcessing.PROCESS_INPLACE "Handle_NULL",
  ManifestEntry.server 0x396 "SMSG_RESET_FAILED_NOTIFY" SessionStatus.STATUS_NEVER,
  ManifestEntry.server 0x397 "SMSG_REAL_GROUP_UPDATE" SessionStatus.STATUS_NEVER,
  ManifestEntry.server 0x398 "SMSG_LFG_DISABLED" SessionStatus.STATUS_NEVER,
  ManifestEntry.client 0x399 "CMSG_ACTIVE_PVP_CHEAT" SessionStatus.STATUS_NEVER PacketProcessing.PROCESS_INPLACE "Handle_NULL",
  ManifestEntry.client 0x39A "CMSG_CHEAT_DUMP_ITEMS_DEBUG_ONLY" SessionStatus.STATUS_NEVER PacketProcessing.PROCESS_INPLACE "Handle_NULL",
  ManifestEntry.server 0x39B "SMSG_CHEAT_DUMP_ITEMS_DEBUG_ONLY_RESPONSE" SessionStatus.STATUS_NEVER,
  ManifestEntry.server 0x39C "SMSG_CHEAT_DUMP_ITEMS_DEBUG_ONLY_RESPONSE_WRITE_FILE" SessionStatus.STATUS_NEVER,
  ManifestEntry.server 0x39D "SMSG_UPDATE_COMBO_POINTS" SessionStatus.STATUS_NEVER,
  ManifestEntry.server 0x39E "SMSG_VOICE_SESSION_ROSTER_UPDATE" SessionStatus.STATUS_NEVER,
  ManifestEntry.server 0x39F "SMSG_VOICE_SESSION_LEAVE" SessionStatus.STATUS_NEVER,
  ManifestEntry.server 0x3A0 "SMSG_VOICE_SESSION_ADJUST_PRIORITY" SessionStatus.STATUS_NEVER,
  ManifestEntry.client 0x3A1 "CMSG_VOICE_SET_TALKER_MUTED_REQUEST" SessionStatus.STATUS_NEVER PacketProcessing.PROCESS_INPLACE "Handle_NULL",
  ManifestEntry.server 0x3A2 "SMSG_VOICE_SET_TALKER_MUTED" SessionStatus.STATUS_NEVER,
  ManifestEntry.server 0x3A3 "SMSG_INIT_EXTRA_AURA_INFO_OBSOLETE" SessionStatus.STATUS_NEVER,
  ManifestEntry.server 0x3A4 "SMSG_SET_EXTRA_AURA_INFO_OBSOLETE" SessionStatus.STATUS_NEVER,
  ManifestEntry.server 0x3A5 "SMSG_SET_EXTRA_AURA_INFO_NEED_UPDATE_OBSOLETE" SessionStatus.STATUS_NEVER,
  ManifestEntry.server 0x3A6 "SMSG_CLEAR_EXTRA_AURA_INFO_OBSOLETE" SessionStatus.STATUS_NEVER,
  ManifestEntry.client 0x3A7 "MSG_MOVE_START_DESCEND" SessionStatus.STATUS_LOGGEDIN PacketProcessing.PROCESS_THREADSAFE "HandleMovementOpcodes",
  ManifestEntry.client 0x3A8 "CMSG_IGNORE_REQUIREMENTS_CHEAT" SessionStatus.STATUS_NEVER PacketProcessing.PROCESS_INPLACE "Handle_NULL",
  ManifestEntry.server 0x3A9 "SMSG_IGNORE_REQUIREMENTS_CHEAT" SessionStatus.STATUS_NEVER,
  ManifestEntry.server 0x3AA "SMSG_SPELL_CHANCE_PROC_LOG" SessionStatus.STATUS_NEVER,
  ManifestEntry.client 0x3AB "CMSG_MOVE_SET_RUN_SPEED" SessionStatus.STATUS_NEVER PacketProcessing.PROCESS_INPLACE "Handle_NULL",
  ManifestEntry.server 0x3AC "SMSG_DISMOUNT" SessionStatus.STATUS_NEVER,
  ManifestEntry.client 0x3AD "MSG_MOVE_UPDATE_CAN_FLY" SessionStatus.STATUS_NEVER PacketProcessing.PROCESS_INPLACE "Handle_NULL",
  ManifestEntry.client 0x3AE "MSG_RAID_READY_CHECK_CONFIRM" SessionStatus.STATUS_NEVER PacketProcessing.PROCESS_INPLACE "Handle_NULL",
  ManifestEntry.client 0x3AF "CMSG_VOICE_SESSION_ENABLE" SessionStatus.STATUS_AUTHED PacketProcessing.PROCESS_THREADUNSAFE "HandleVoiceSessionEnableOpcode",
  ManifestEntry.server 0x3B0 "SMSG_VOICE_SESSION_ENABLE" SessionStatus.STATUS_NEVER,
  ManifestEntry.server 0x3B1 "SMSG_VOICE_PARENTAL_CONTROLS" SessionStatus.STATUS_NEVER,
  ManifestEntry.client 0x3B2 "CMSG_GM_WHISPER" SessionStatus.STATUS_NEVER PacketProcessing.PROCESS_INPLACE "Handle_NULL",
  ManifestEntry.server 0x3B3 "SMSG_GM_MESSAGECHAT" SessionStatus.STATUS_NEVER,
  ManifestEntry.client 0x3B4 "MSG_GM_GEARRATING" SessionStatus.STATUS_NEVER PacketProcessing.PROCESS_INPLACE "Handle_NULL",
  ManifestEntry.client 0x3B5 "CMSG_COMMENTATOR_ENABLE" SessionStatus.STATUS_NEVER PacketProcessing.PROCESS_INPLACE "Handle_NULL",
  ManifestEntry.server 0x3B6 "SMSG_COMMENTATOR_STATE_CHANGED" SessionStatus.STATUS_NEVER,
  ManifestEntry.client 0x3B7 "CMSG_COMMENTATOR_GET_MAP_INFO" SessionStatus.STATUS_NEVER PacketProcessing.PROCESS_INPLACE "Handle_NULL",
  ManifestEntry.server 0x3B8 "SMSG_COMMENTATOR_MAP_INFO" SessionStatus.STATUS_NEVER,
  ManifestEntry.client 0x3B9 "CMSG_COMMENTATOR_GET_PLAYER_INFO" SessionStatus.STATUS_NEVER PacketProcessing.PROCESS_INPLACE "Handle_NULL",
  ManifestEntry.server 0x3BA "SMSG_COMMENTATOR_GET_PLAYER_INFO" SessionStatus.STATUS_NEVER,
  ManifestEntry.server 0x3BB "SMSG_COMMENTATOR_PLAYER_INFO" SessionStatus.STATUS_NEVER,
  ManifestEntry.client 0x3BC "CMSG_COMMENTATOR_ENTER_INSTANCE" SessionStatus.STATUS_NEVER PacketProcessing.PROCESS_INPLACE "Handle_NULL",
  ManifestEntry.client 0x3BD "CMSG_COMMENTATOR_EXIT_INSTANCE" SessionStatus.STATUS_NEVER PacketProcessing.PROCESS_INPLACE "Handle_NULL",
  ManifestEntry.client 0x3BE "CMSG_COMMENTATOR_INSTANCE_COMMAND" SessionStatus.STATUS_NEVER PacketProcessing.PROCESS_INPLACE "Handle_NULL",
  ManifestEntry.server 0x3BF "SMSG_CLEAR_TARGET" SessionStatus.STATUS_NEVER,
  ManifestEntry.client 0x3C0 "CMSG_BOT_DETECTED" SessionStatus.STATUS_NEVER PacketProcessing.PROCESS_INPLACE "Handle_NULL",
  ManifestEntry.server 0x3C1 "SMSG_CROSSED_INEBRIATION_THRESHOLD" SessionStatus.STATUS_NEVER,
  ManifestEntry.client 0x3C2 "CMSG_CHEAT_PLAYER_LOGIN" SessionStatus.STATUS_NEVER PacketProcessing.PROCESS_INPLACE "Handle_NULL",
  ManifestEntry.client 0x3C3 "CMSG_CHEAT_PLAYER_LOOKUP" SessionStatus.STATUS_NEVER PacketProcessing.PROCESS_INPLACE "Handle_NULL",
  ManifestEntry.server 0x3C4 "SMSG_CHEAT_PLAYER_LOOKUP" SessionStatus.STATUS_NEVER,
  ManifestEntry.server 0x3C5 "SMSG_KICK_REASON" SessionStatus.STATUS_NEVER,
  ManifestEntry.client 0x3C6 "MSG_RAID_READY_CHECK_FINISHED" SessionStatus.STATUS_LOGGEDIN PacketProcessing.PROCESS_THREADUNSAFE "HandleRaidReadyCheckFinishedOpcode",
  ManifestEntry.client 0x3C7 "CMSG_COMPLAIN" SessionStatus.STATUS_LOGGEDIN PacketProcessing.PROCESS_THREADUNSAFE "HandleComplainOpcode",
  ManifestEntry.server 0x3C8 "SMSG_COMPLAIN_RESULT" SessionStatus.STATUS_NEVER,
  ManifestEntry.server 0x3C9 "SMSG_FEATURE_SYSTEM_STATUS" SessionStatus.STATUS_NEVER,
  ManifestEntry.client 0x3CA "CMSG_GM_SHOW_COMPLAINTS" SessionStatus.STATUS_NEVER PacketProcessing.PROCESS_INPLACE "Handle_NULL",
  ManifestEntry.client 0x3CB "CMSG_GM_UNSQUELCH" SessionStatus.STATUS_NEVER PacketProcessing.PROCESS_INPLACE "Handle_NULL",
  ManifestEntry.client 0x3CC "CMSG_CHANNEL_SILENCE_VOICE" SessionStatus.STATUS_NEVER PacketProcessing.PROCESS_INPLACE "Handle_NULL",
  ManifestEntry.client 0x3CD "CMSG_CHANNEL_SILENCE_ALL" SessionStatus.STATUS_NEVER PacketProcessing.PROCESS_INPLACE "Handle_NULL",
  ManifestEntry.client 0x3CE "CMSG_CHANNEL_UNSILENCE_VOICE" SessionStatus.STATUS_NEVER PacketProcessing.PROCESS_INPLACE "Handle_NULL",
  ManifestEntry.client 0x3CF "CMSG_CHANNEL_UNSILENCE_ALL" SessionStatus.STATUS_NEVER PacketProcessing.PROCESS_INPLACE "Handle_NULL",
  ManifestEntry.client 0x3D0 "CMSG_TARGET_CAST" SessionStatus.STATUS_NEVER PacketProcessing.PROCESS_INPLACE "Handle_NULL",
  ManifestEntry.client 0x3D1 "CMSG_TARGET_SCRIPT_CAST" SessionStatus.STATUS_NEVER PacketProcessing.PROCESS_INPLACE "Handle_NULL",
  ManifestEntry.client 0x3D2 "CMSG_CHANNEL_DISPLAY_LIST" SessionStatus.STATUS_LOGGEDIN PacketProcessing.PROCESS_THREADSAFE "HandleChannelDisplayListQuery",
  ManifestEntry.client 0x3D3 "CMSG_SET_ACTIVE_VOICE_CHANNEL" SessionStatus.STATUS_AUTHED PacketProcessing.PROCESS_THREADUNSAFE "HandleSetActiveVoiceChannel",
  ManifestEntry.client 0x3D4 "CMSG_GET_CHANNEL_MEMBER_COUNT" SessionStatus.STATUS_LOGGEDIN PacketProcessing.PROCESS_THREADSAFE "HandleGetChannelMemberCount",
  ManifestEntry.server 0x3D5 "SMSG_CHANNEL_MEMBER_COUNT" SessionStatus.STATUS_NEVER,
  ManifestEntry.client 0x3D6 "CMSG_CHANNEL_VOICE_ON" SessionStatus.STATUS_LOGGEDIN PacketProcessing.PROCESS_THREADSAFE "HandleChannelVoiceOnOpcode",
  ManifestEntry.client 0x3D7 "CMSG_CHANNEL_VOICE_OFF" SessionStatus.STATUS_NEVER PacketProcessing.PROCESS_INPLACE "Handle_NULL",
  ManifestEntry.client 0x3D8 "CMSG_DEBUG_LIST_TARGETS" SessionStatus.STATUS_NEVER PacketProcessing.PROCESS_INPLACE "Handle_NULL",
  ManifestEntry.server 0x3D9 "SMSG_DEBUG_LIST_TARGETS" SessionStatus.STATUS_NEVER,
  ManifestEntry.server 0x3DA "SMSG_AVAILABLE_VOICE_CHANNEL" SessionStatus.STATUS_NEVER,
  ManifestEntry.client 0x3DB "CMSG_ADD_VOICE_IGNORE" SessionStatus.STATUS_NEVER PacketProcessing.PROCESS_INPLACE "Handle_NULL",
  ManifestEntry.client 0x3DC "CMSG_DEL_VOICE_IGNORE" SessionStatus.STATUS_NEVER PacketProcessing.PROCESS_INPLACE "Handle_NULL",
  ManifestEntry.client 0x3DD "CMSG_PARTY_SILENCE" SessionStatus.STATUS_NEVER PacketProcessing.PROCESS_INPLACE "Handle_NULL",
  ManifestEntry.client 0x3DE "CMSG_PARTY_UNSILENCE" SessionStatus.STATUS_NEVER PacketProcessing.PROCESS_INPLACE "Handle_NULL",
  ManifestEntry.client 0x3DF "MSG_NOTIFY_PARTY_SQUELCH" SessionStatus.STATUS_NEVER PacketProcessing.PROCESS_INPLACE "Handle_NULL",
  ManifestEntry.server 0x3E0 "SMSG_COMSAT_RECONNECT_TRY" SessionStatus.STATUS_NEVER,
  ManifestEntry.server 0x3E1 "SMSG_COMSAT_DISCONNECT" SessionStatus.STATUS_NEVER,
  ManifestEntry.server 0x3E2 "SMSG_COMSAT_CONNECT_FAIL" SessionStatus.STATUS_NEVER,
  ManifestEntry.server 0x3E3 "SMSG_VOICE_CHAT_STATUS" SessionStatus.STATUS_NEVER,
  ManifestEntry.client 0x3E4 "CMSG_REPORT_PVP_AFK" SessionStatus.STATUS_LOGGEDIN PacketProcessing.PROCESS_THREADUNSAFE "HandleReportPvPAFK",
  ManifestEntry.server 0x3E5 "SMSG_REPORT_PVP_AFK_RESULT" SessionStatus.STATUS_NEVER,
  ManifestEntry.client 0x3E6 "CMSG_GUILD_BANKER_ACTIVATE" SessionStatus.STATUS_LOGGEDIN PacketProcessing.PROCESS_THREADUNSAFE "HandleGuildBankerActivate",
  ManifestEntry.client 0x3E7 "CMSG_GUILD_BANK_QUERY_TAB" SessionStatus.STATUS_LOGGEDIN PacketProcessing.PROCESS_THREADUNSAFE "HandleGuildBankQueryTab",
  ManifestEntry.server 0x3E8 "SMSG_GUILD_BANK_LIST" SessionStatus.STATUS_NEVER,
  ManifestEntry.client 0x3E9 "CMSG_GUILD_BANK_SWAP_ITEMS" SessionStatus.STATUS_LOGGEDIN PacketProcessing.PROCESS_THREADUNSAFE "HandleGuildBankSwapItems",
  ManifestEntry.client 0x3EA "CMSG_GUILD_BANK_BUY_TAB" SessionStatus.STATUS_LOGGEDIN PacketProcessing.PROCESS_THREADUNSAFE "HandleGuildBankBuyTab",
  ManifestEntry.client 0x3EB "CMSG_GUILD_BANK_UPDATE_TAB" SessionStatus.STATUS_LOGGEDIN PacketProcessing.PROCESS_THREADUNSAFE "HandleGuildBankUpdateTab",
  ManifestEntry.client 0x3EC "CMSG_GUILD_BANK_DEPOSIT_MONEY" SessionStatus.STATUS_LOGGEDIN PacketProcessing.PROCESS_THREADUNSAFE "HandleGuildBankDepositMoney",
  ManifestEntry.client 0x3ED "CMSG_GUILD_BANK_WITHDRAW_MONEY" SessionStatus.STATUS_LOGGEDIN PacketProcessing.PROCESS_THREADUNSAFE "HandleGuildBankWithdrawMoney",
  ManifestEntry.client 0x3EE "MSG_GUILD_BANK_LOG_QUERY" SessionStatus.STATUS_LOGGEDIN PacketProcessing.PROCESS_THREADUNSAFE "HandleGuildBankLogQuery",
  ManifestEntry.client 0x3EF "CMSG_SET_CHANNEL_WATCH" SessionStatus.STATUS_LOGGEDIN PacketProcessing.PROCESS_THREADUNSAFE "HandleSetChannelWatch",
  ManifestEntry.server 0x3F0 "SMSG_USERLIST_ADD" SessionStatus.STATUS_NEVER,
  ManifestEntry.server 0x3F1 "SMSG_USERLIST_REMOVE" SessionStatus.STATUS_NEVER,
  ManifestEntry.server 0x3F2 "SMSG_USERLIST_UPDATE" SessionStatus.STATUS_NEVER,
  ManifestEntry.client 0x3F3 "CMSG_CLEAR_CHANNEL_WATCH" SessionStatus.STATUS_LOGGEDIN PacketProcessing.PROCESS_THREADUNSAFE "HandleClearChannelWatch",
  ManifestEntry.server 0x3F4 "SMSG_INSPECT_TALENT" SessionStatus.STATUS_NEVER,
  ManifestEntry.server 0x3F5 "SMSG_GOGOGO_OBSOLETE" SessionStatus.STATUS_NEVER,
  ManifestEntry.server 0x3F6 "SMSG_ECHO_PARTY_SQUELCH" SessionStatus.STATUS_NEVER,
  ManifestEntry.client 0x3F7 "CMSG_SET_TITLE_SUFFIX" SessionStatus.STATUS_NEVER PacketProcessing.PROCESS_INPLACE "Handle_NULL",
  ManifestEntry.client 0x3F8 "CMSG_SPELLCLICK" SessionStatus.STATUS_LOGGEDIN PacketProcessing.PROCESS_INPLACE "HandleSpellClick",
  ManifestEntry.server 0x3F9 "SMSG_LOOT_LIST" SessionStatus.STATUS_NEVER,
  ManifestEntry.client 0x3FA "CMSG_GM_CHARACTER_RESTORE" SessionStatus.STATUS_NEVER PacketProcessing.PROCESS_INPLACE "Handle_NULL",
  ManifestEntry.client 0x3FB "CMSG_GM_CHARACTER_SAVE" SessionStatus.STATUS_NEVER PacketProcessing.PROCESS_INPLACE "Handle_NULL",
  ManifestEntry.server 0x3FC "SMSG_VOICESESSION_FULL" SessionStatus.STATUS_NEVER,
  ManifestEntry.client 0x3FD "MSG_GUILD_PERMISSIONS" SessionStatus.STATUS_LOGGEDIN PacketProcessing.PROCESS_THREADUNSAFE "HandleGuildPermissions",
  ManifestEntry.client 0x3FE "MSG_GUILD_BANK_MONEY_WITHDRAWN" SessionStatus.STATUS_LOGGEDIN PacketProcessing.PROCESS_THREADUNSAFE "HandleGuildBankMoneyWithdrawn",
  ManifestEntry.client 0x3FF "MSG_GUILD_EVENT_LOG_QUERY" SessionStatus.STATUS_LOGGEDIN PacketProcessing.PROCESS_THREADUNSAFE "HandleGuildEventLogQueryOpcode",
  ManifestEntry.client 0x400 "CMSG_MAELSTROM_RENAME_GUILD" SessionStatus.STATUS_NEVER PacketProcessing.PROCESS_INPLACE "Handle_NULL",
  ManifestEntry.client 0x401 "CMSG_GET_MIRRORIMAGE_DATA" SessionStatus.STATUS_LOGGEDIN PacketProcessing.PROCESS_THREADUNSAFE "HandleMirrorImageDataRequest",
  ManifestEntry.server 0x402 "SMSG_MIRRORIMAGE_DATA" SessionStatus.STATUS_NEVER,
  ManifestEntry.server 0x403 "SMSG_FORCE_DISPLAY_UPDATE" SessionStatus.STATUS_NEVER,
  ManifestEntry.server 0x404 "SMSG_SPELL_CHANCE_RESIST_PUSHBACK" SessionStatus.STATUS_NEVER,
  ManifestEntry.client 0x405 "CMSG_IGNORE_DIMINISHING_RETURNS_CHEAT" SessionStatus.STATUS_NEVER PacketProcessing.PROCESS_INPLACE "Handle_NULL",
  ManifestEntry.server 0x406 "SMSG_IGNORE_DIMINISHING_RETURNS_CHEAT" SessionStatus.STATUS_NEVER,
  ManifestEntry.client 0x407 "CMSG_KEEP_ALIVE" SessionStatus.STATUS_NEVER PacketProcessing.PROCESS_THREADUNSAFE "Handle_EarlyProccess",
  ManifestEntry.server 0x408 "SMSG_RAID_READY_CHECK_ERROR" SessionStatus.STATUS_NEVER,
  ManifestEntry.client 0x409 "CMSG_OPT_OUT_OF_LOOT" SessionStatus.STATUS_AUTHED PacketProcessing.PROCESS_THREADUNSAFE "HandleOptOutOfLootOpcode",
  ManifestEntry.client 0x40A "MSG_QUERY_GUILD_BANK_TEXT" SessionStatus.STATUS_LOGGEDIN PacketProcessing.PROCESS_THREADUNSAFE "HandleQueryGuildBankTabText",
  ManifestEntry.client 0x40B "CMSG_SET_GUILD_BANK_TEXT" SessionStatus.STATUS_LOGGEDIN PacketProcessing.PROCESS_THREADUNSAFE "HandleSetGuildBankTabText",
  ManifestEntry.client 0x40C "CMSG_SET_GRANTABLE_LEVELS" SessionStatus.STATUS_NEVER PacketProcessing.PROCESS_INPLACE "Handle_NULL",
  ManifestEntry.client 0x40D "CMSG_GRANT_LEVEL" SessionStatus.STATUS_LOGGEDIN PacketProcessing.PROCESS_THREADUNSAFE "HandleGrantLevel",
  ManifestEntry.client 0x40E "CMSG_REFER_A_FRIEND" SessionStatus.STATUS_NEVER PacketProcessing.PROCESS_INPLACE "Handle_NULL",
  ManifestEntry.client 0x40F "MSG_GM_CHANGE_ARENA_RATING" SessionStatus.STATUS_NEVER PacketProcessing.PROCESS_INPLACE "Handle_NULL",
  ManifestEntry.client 0x410 "CMSG_DECLINE_CHANNEL_INVITE" SessionStatus.STATUS_LOGGEDIN PacketProcessing.PROCESS_INPLACE "HandleChannelDeclineInvite",
  ManifestEntry.server 0x411 "SMSG_GROUPACTION_THROTTLED" SessionStatus.STATUS_NEVER,
  ManifestEntry.server 0x412 "SMSG_OVERRIDE_LIGHT" SessionStatus.STATUS_NEVER,
  ManifestEntry.server 0x413 "SMSG_TOTEM_CREATED" SessionStatus.STATUS_NEVER,
  ManifestEntry.client 0x414 "CMSG_TOTEM_DESTROYED" SessionStatus.STATUS_LOGGEDIN PacketProcessing.PROCESS_INPLACE "HandleTotemDestroyed",
  ManifestEntry.client 0x415 "CMSG_EXPIRE_RAID_INSTANCE" SessionStatus.STATUS_NEVER PacketProcessing.PROCESS_INPLACE "Handle_NULL",
  ManifestEntry.client 0x416 "CMSG_NO_SPELL_VARIANCE" SessionStatus.STATUS_NEVER PacketProcessing.PROCESS_INPLACE "Handle_NULL",
  ManifestEntry.client 0x417 "CMSG_QUESTGIVER_STATUS_MULTIPLE_QUERY" SessionStatus.STATUS_LOGGEDIN PacketProcessing.PROCESS_THREADUNSAFE "HandleQuestgiverStatusMultipleQuery",
  ManifestEntry.server 0x418 "SMSG_QUESTGIVER_STATUS_MULTIPLE" SessionStatus.STATUS_NEVER,
  ManifestEntry.client 0x419 "CMSG_SET_PLAYER_DECLINED_NAMES" SessionStatus.STATUS_AUTHED PacketProcessing.PROCESS_THREADUNSAFE "HandleSetPlayerDeclinedNames",
  ManifestEntry.server 0x41A "SMSG_SET_PLAYER_DECLINED_NAMES_RESULT" SessionStatus.STATUS_NEVER,
  ManifestEntry.client 0x41B "CMSG_QUERY_SERVER_BUCK_DATA" SessionStatus.STATUS_NEVER PacketProcessing.PROCESS_INPLACE "Handle_NULL",
  ManifestEntry.client 0x41C "CMSG_CLEAR_SERVER_BUCK_DATA" SessionStatus.STATUS_NEVER PacketProcessing.PROCESS_INPLACE "Handle_NULL",
  ManifestEntry.server 0x41D "SMSG_SERVER_BUCK_DATA" SessionStatus.STATUS_NEVER,
  ManifestEntry.server 0x41E "SMSG_SEND_UNLEARN_SPELLS" SessionStatus.STATUS_NEVER,
  ManifestEntry.server 0x41F "SMSG_PROPOSE_LEVEL_GRANT" SessionStatus.STATUS_NEVER,
  ManifestEntry.client 0x420 "CMSG_ACCEPT_LEVEL_GRANT" SessionStatus.STATUS_LOGGEDIN PacketProcessing.PROCESS_THREADUNSAFE "HandleAcceptGrantLevel",
  ManifestEntry.server 0x421 "SMSG_REFER_A_FRIEND_FAILURE" SessionStatus.STATUS_NEVER,
  ManifestEntry.server 0x422 "SMSG_SPLINE_MOVE_SET_FLYING" SessionStatus.STATUS_NEVER,
  ManifestEntry.server 0x423 "SMSG_SPLINE_MOVE_UNSET_FLYING" SessionStatus.STATUS_NEVER,
  ManifestEntry.server 0x424 "SMSG_SUMMON_CANCEL" SessionStatus.STATUS_NEVER,
  ManifestEntry.client 0x425 "CMSG_CHANGE_PERSONAL_ARENA_RATING" SessionStatus.STATUS_NEVER PacketProcessing.PROCESS_INPLACE "Handle_NULL",
  ManifestEntry.client 0x426 "CMSG_ALTER_APPEARANCE" SessionStatus.STATUS_LOGGEDIN PacketProcessing.PROCESS_THREADUNSAFE "HandleAlterAppearance",
  ManifestEntry.server 0x427 "SMSG_ENABLE_BARBER_SHOP" SessionStatus.STATUS_NEVER,
  ManifestEntry.server 0x428 "SMSG_BARBER_SHOP_RESULT" SessionStatus.STATUS_NEVER,
  ManifestEntry.client 0x429 "CMSG_CALENDAR_GET_CALENDAR" SessionStatus.STATUS_LOGGEDIN PacketProcessing.PROCESS_THREADUNSAFE "HandleCalendarGetCalendar",
  ManifestEntry.client 0x42A "CMSG_CALENDAR_GET_EVENT" SessionStatus.STATUS_LOGGEDIN PacketProcessing.PROCESS_THREADUNSAFE "HandleCalendarGetEvent",
  ManifestEntry.client 0x42B "CMSG_CALENDAR_GUILD_FILTER" SessionStatus.STATUS_LOGGEDIN PacketProcessing.PROCESS_THREADUNSAFE "HandleCalendarGuildFilter",
  ManifestEntry.client 0x42C "CMSG_CALENDAR_ARENA_TEAM" SessionStatus.STATUS_LOGGEDIN PacketProcessing.PROCESS_THREADUNSAFE "HandleCalendarArenaTeam",
  ManifestEntry.client 0x42D "CMSG_CALENDAR_ADD_EVENT" SessionStatus.STATUS_LOGGEDIN PacketProcessing.PROCESS_THREADUNSAFE "HandleCalendarAddEvent",
  ManifestEntry.client 0x42E "CMSG_CALENDAR_UPDATE_EVENT" SessionStatus.STATUS_LOGGEDIN PacketProcessing.PROCESS_THREADUNSAFE "HandleCalendarUpdateEvent",
  ManifestEntry.client 0x42F "CMSG_CALENDAR_REMOVE_EVENT" SessionStatus.STATUS_LOGGEDIN PacketProcessing.PROCESS_THREADUNSAFE "HandleCalendarRemoveEvent",
  ManifestEntry.client 0x430 "CMSG_CALENDAR_COPY_EVENT" SessionStatus.STATUS_LOGGEDIN PacketProcessing.PROCESS_THREADUNSAFE "HandleCalendarCopyEvent",
  ManifestEntry.client 0x431 "CMSG_CALENDAR_EVENT_INVITE" SessionStatus.STATUS_LOGGEDIN PacketProcessing.PROCESS_THREADUNSAFE "HandleCalendarEventInvite",
  ManifestEntry.client 0x432 "CMSG_CALENDAR_EVENT_RSVP" SessionStatus.STATUS_LOGGEDIN PacketProcessing.PROCESS_THREADUNSAFE "HandleCalendarEventRsvp",
  ManifestEntry.client 0x433 "CMSG_CALENDAR_EVENT_REMOVE_INVITE" SessionStatus.STATUS_LOGGEDIN PacketProcessing.PROCESS_THREADUNSAFE "HandleCalendarEventRemoveInvite",
  ManifestEntry.client 0x434 "CMSG_CALENDAR_EVENT_STATUS" SessionStatus.STATUS_LOGGEDIN PacketProcessing.PROCESS_THREADUNSAFE "HandleCalendarEventStatus",
  ManifestEntry.client 0x435 "CMSG_CALENDAR_EVENT_MODERATOR_STATUS" SessionStatus.STATUS_LOGGEDIN PacketProcessing.PROCESS_THREADUNSAFE "HandleCalendarEventModeratorStatus",
  ManifestEntry.server 0x436 "SMSG_CALENDAR_SEND_CALENDAR" SessionStatus.STATUS_NEVER,
  ManifestEntry.server 0x437 "SMSG_CALENDAR_SEND_EVENT" SessionStatus.STATUS_NEVER,
  ManifestEntry.server 0x438 "SMSG_CALENDAR_FILTER_GUILD" SessionStatus.STATUS_NEVER,
  ManifestEntry.server 0x439 "SMSG_CALENDAR_ARENA_TEAM" SessionStatus.STATUS_NEVER,
  ManifestEntry.server 0x43A "SMSG_CALENDAR_EVENT_INVITE" SessionStatus.STATUS_NEVER,
  ManifestEntry.server 0x43B "SMSG_CALENDAR_EVENT_INVITE_REMOVED" SessionStatus.STATUS_NEVER,
  ManifestEntry.server 0x43C "SMSG_CALENDAR_EVENT_STATUS" SessionStatus.STATUS_NEVER,
  ManifestEntry.server 0x43D "SMSG_CALENDAR_COMMAND_RESULT" SessionStatus.STATUS_NEVER,
  ManifestEntry.server 0x43E "SMSG_CALENDAR_RAID_LOCKOUT_ADDED" SessionStatus.STATUS_NEVER,
  ManifestEntry.server 0x43F "SMSG_CALENDAR_RAID_LOCKOUT_REMOVED" SessionStatus.STATUS_NEVER,
  ManifestEntry.server 0x440 "SMSG_CALENDAR_EVENT_INVITE_ALERT" SessionStatus.STATUS_NEVER,
  ManifestEntry.server 0x441 "SMSG_CALENDAR_EVENT_INVITE_REMOVED_ALERT" SessionStatus.STATUS_NEVER,
  ManifestEntry.server 0x442 "SMSG_CALENDAR_EVENT_INVITE_STATUS_ALERT" SessionStatus.STATUS_NEVER,
  ManifestEntry.server 0x443 "SMSG_CALENDAR_EVENT_REMOVED_ALERT" SessionStatus.STATUS_NEVER,
  ManifestEntry.server 0x444 "SMSG_CALENDAR_EVENT_UPDATED_ALERT" SessionStatus.STATUS_NEVER,
  ManifestEntry.server 0x445 "SMSG_CALENDAR_EVENT_MODERATOR_STATUS_ALERT" SessionStatus.STATUS_NEVER,
  ManifestEntry.client 0x446 "CMSG_CALENDAR_COMPLAIN" SessionStatus.STATUS_LOGGEDIN PacketProcessing.PROCESS_THREADUNSAFE "HandleCalendarComplain",
  ManifestEntry.client 0x447 "CMSG_CALENDAR_GET_NUM_PENDING" SessionStatus.STATUS_LOGGEDIN PacketProcessing.PROCESS_THREADUNSAFE "HandleCalendarGetNumPending",
  ManifestEntry.server 0x448 "SMSG_CALENDAR_SEND_NUM_PENDING" SessionStatus.STATUS_NEVER,
  ManifestEntry.client 0x449 "CMSG_SAVE_DANCE" SessionStatus.STATUS_NEVER PacketProcessing.PROCESS_INPLACE "Handle_NULL",
  ManifestEntry.server 0x44A "SMSG_NOTIFY_DANCE" SessionStatus.STATUS_NEVER,
  ManifestEntry.client 0x44B "CMSG_PLAY_DANCE" SessionStatus.STATUS_NEVER PacketProcessing.PROCESS_INPLACE "Handle_NULL",
  ManifestEntry.server 0x44C "SMSG_PLAY_DANCE" SessionStatus.STATUS_NEVER,
  ManifestEntry.client 0x44D "CMSG_LOAD_DANCES" SessionStatus.STATUS_NEVER PacketProcessing.PROCESS_INPLACE "Handle_NULL",
  ManifestEntry.client 0x44E "CMSG_STOP_DANCE" SessionStatus.STATUS_NEVER PacketProcessing.PROCESS_INPLACE "Handle_NULL",
  ManifestEntry.server 0x44F "SMSG_STOP_DANCE" SessionStatus.STATUS_NEVER,
  ManifestEntry.client 0x450 "CMSG_SYNC_DANCE" SessionStatus.STATUS_NEVER PacketProcessing.PROCESS_INPLACE "Handle_NULL",
  ManifestEntry.client 0x451 "CMSG_DANCE_QUERY" SessionStatus.STATUS_NEVER PacketProcessing.PROCESS_INPLACE "Handle_NULL",
  ManifestEntry.server 0x452 "SMSG_DANCE_QUERY_RESPONSE" SessionStatus.STATUS_NEVER,
  ManifestEntry.server 0x453 "SMSG_INVALIDATE_DANCE" SessionStatus.STATUS_NEVER,
  ManifestEntry.client 0x454 "CMSG_DELETE_DANCE" SessionStatus.STATUS_NEVER PacketProcessing.PROCESS_INPLACE "Handle_NULL",
  ManifestEntry.server 0x455 "SMSG_LEARNED_DANCE_MOVES" SessionStatus.STATUS_NEVER,
  ManifestEntry.client 0x456 "CMSG_LEARN_DANCE_MOVE" SessionStatus.STATUS_NEVER PacketProcessing.PROCESS_INPLACE "Handle_NULL",
  ManifestEntry.client 0x457 "CMSG_UNLEARN_DANCE_MOVE" SessionStatus.STATUS_NEVER PacketProcessing.PROCESS_INPLACE "Handle_NULL",
  ManifestEntry.client 0x458 "CMSG_SET_RUNE_COUNT" SessionStatus.STATUS_NEVER PacketProcessing.PROCESS_INPLACE "Handle_NULL",
  ManifestEntry.client 0x459 "CMSG_SET_RUNE_COOLDOWN" SessionStatus.STATUS_NEVER PacketProcessing.PROCESS_INPLACE "Handle_NULL",
  ManifestEntry.client 0x45A "MSG_MOVE_SET_PITCH_RATE_CHEAT" SessionStatus.STATUS_NEVER PacketProcessing.PROCESS_INPLACE "Handle_NULL",
  ManifestEntry.client 0x45B "MSG_MOVE_SET_PITCH_RATE" SessionStatus.STATUS_NEVER PacketProcessing.PROCESS_INPLACE "Handle_NULL",
  ManifestEntry.server 0x45C "SMSG_FORCE_PITCH_RATE_CHANGE" SessionStatus.STATUS_NEVER,
  ManifestEntry.client 0x45D "CMSG_FORCE_PITCH_RATE_CHANGE_ACK" SessionStatus.STATUS_NEVER PacketProcessing.PROCESS_INPLACE "Handle_NULL",
  ManifestEntry.server 0x45E "SMSG_SPLINE_SET_PITCH_RATE" SessionStatus.STATUS_NEVER,
  ManifestEntry.client 0x45F "CMSG_CALENDAR_EVENT_INVITE_NOTES" SessionStatus.STATUS_NEVER PacketProcessing.PROCESS_INPLACE "Handle_NULL",
  ManifestEntry.server 0x460 "SMSG_CALENDAR_EVENT_INVITE_NOTES" SessionStatus.STATUS_NEVER,
  ManifestEntry.server 0x461 "SMSG_CALENDAR_EVENT_INVITE_NOTES_ALERT" SessionStatus.STATUS_NEVER,
  ManifestEntry.client 0x462 "CMSG_UPDATE_MISSILE_TRAJECTORY" SessionStatus.STATUS_LOGGEDIN PacketProcessing.PROCESS_THREADUNSAFE "HandleUpdateMissileTrajectory",
  ManifestEntry.server 0x463 "SMSG_UPDATE_ACCOUNT_DATA_COMPLETE" SessionStatus.STATUS_NEVER,
  ManifestEntry.server 0x464 "SMSG_TRIGGER_MOVIE" SessionStatus.STATUS_NEVER,
  ManifestEntry.client 0x465 "CMSG_COMPLETE_MOVIE" SessionStatus.STATUS_NEVER PacketProcessing.PROCESS_INPLACE "Handle_NULL",
  ManifestEntry.client 0x466 "CMSG_SET_GLYPH_SLOT" SessionStatus.STATUS_NEVER PacketProcessing.PROCESS_INPLACE "Handle_NULL",
  ManifestEntry.client 0x467 "CMSG_SET_GLYPH" SessionStatus.STATUS_NEVER PacketProcessing.PROCESS_INPLACE "Handle_NULL",
  ManifestEntry.server 0x468 "SMSG_ACHIEVEMENT_EARNED" SessionStatus.STATUS_NEVER,
  ManifestEntry.server 0x469 "SMSG_DYNAMIC_DROP_ROLL_RESULT" SessionStatus.STATUS_NEVER,
  ManifestEntry.server 0x46A "SMSG_CRITERIA_UPDATE" SessionStatus.STATUS_NEVER,
  ManifestEntry.client 0x46B "CMSG_QUERY_INSPECT_ACHIEVEMENTS" SessionStatus.STATUS_LOGGEDIN PacketProcessing.PROCESS_INPLACE "HandleQueryInspectAchievements",
  ManifestEntry.server 0x46C "SMSG_RESPOND_INSPECT_ACHIEVEMENTS" SessionStatus.STATUS_NEVER,
  ManifestEntry.client 0x46D "CMSG_DISMISS_CONTROLLED_VEHICLE" SessionStatus.STATUS_LOGGEDIN PacketProcessing.PROCESS_INPLACE "HandleDismissControlledVehicle",
  ManifestEntry.client 0x46E "CMSG_COMPLETE_ACHIEVEMENT_CHEAT" SessionStatus.STATUS_NEVER PacketProcessing.PROCESS_INPLACE "Handle_NULL",
  ManifestEntry.server 0x46F "SMSG_QUESTUPDATE_ADD_PVP_KILL" SessionStatus.STATUS_NEVER,
  ManifestEntry.client 0x470 "CMSG_SET_CRITERIA_CHEAT" SessionStatus.STATUS_NEVER PacketProcessing.PROCESS_INPLACE "Handle_NULL",
  ManifestEntry.server 0x471 "SMSG_CALENDAR_RAID_LOCKOUT_UPDATED" SessionStatus.STATUS_NEVER,
  ManifestEntry.client 0x472 "CMSG_UNITANIMTIER_CHEAT" SessionStatus.STATUS_NEVER PacketProcessing.PROCESS_INPLACE "Handle_NULL",
  ManifestEntry.client 0x473 "CMSG_CHAR_CUSTOMIZE" SessionStatus.STATUS_AUTHED PacketProcessing.PROCESS_THREADUNSAFE "HandleCharCustomize",
  ManifestEntry.server 0x474 "SMSG_CHAR_CUSTOMIZE" SessionStatus.STATUS_NEVER,
  ManifestEntry.server 0x475 "SMSG_PET_RENAMEABLE" SessionStatus.STATUS_NEVER,
  ManifestEntry.client 0x476 "CMSG_REQUEST_VEHICLE_EXIT" SessionStatus.STATUS_LOGGEDIN PacketProcessing.PROCESS_INPLACE "HandleRequestVehicleExit",
  ManifestEntry.client 0x477 "CMSG_REQUEST_VEHICLE_PREV_SEAT" SessionStatus.STATUS_LOGGEDIN PacketProcessing.PROCESS_INPLACE "HandleChangeSeatsOnControlledVehicle",
  ManifestEntry.client 0x478 "CMSG_REQUEST_VEHICLE_NEXT_SEAT" SessionStatus.STATUS_LOGGEDIN PacketProcessing.PROCESS_INPLACE "HandleChangeSeatsOnControlledVehicle",
  ManifestEntry.client 0x479 "CMSG_REQUEST_VEHICLE_SWITCH_SEAT" SessionStatus.STATUS_LOGGEDIN PacketProcessing.PROCESS_INPLACE "HandleChangeSeatsOnControlledVehicle",
  ManifestEntry.client 0x47A "CMSG_PET_LEARN_TALENT" SessionStatus.STATUS_LOGGEDIN PacketProcessing.PROCESS_INPLACE "HandlePetLearnTalent",
  ManifestEntry.client 0x47B "CMSG_PET_UNLEARN_TALENTS" SessionStatus.STATUS_NEVER PacketProcessing.PROCESS_INPLACE "Handle_NULL",
  ManifestEntry.server 0x47C "SMSG_SET_PHASE_SHIFT" SessionStatus.STATUS_NEVER,
  ManifestEntry.server 0x47D "SMSG_ALL_ACHIEVEMENT_DATA" SessionStatus.STATUS_NEVER,
  ManifestEntry.client 0x47E "CMSG_FORCE_SAY_CHEAT" SessionStatus.STATUS_NEVER PacketProcessing.PROCESS_INPLACE "Handle_NULL",
  ManifestEntry.server 0x47F "SMSG_HEALTH_UPDATE" SessionStatus.STATUS_NEVER,
  ManifestEntry.server 0x480 "SMSG_POWER_UPDATE" SessionStatus.STATUS_NEVER,
  ManifestEntry.client 0x481 "CMSG_GAMEOBJ_REPORT_USE" SessionStatus.STATUS_LOGGEDIN PacketProcessing.PROCESS_INPLACE "HandleGameobjectReportUse",
  ManifestEntry.server 0x482 "SMSG_HIGHEST_THREAT_UPDATE" SessionStatus.STATUS_NEVER,
  ManifestEntry.server 0x483 "SMSG_THREAT_UPDATE" SessionStatus.STATUS_NEVER,
  ManifestEntry.server 0x484 "SMSG_THREAT_REMOVE" SessionStatus.STATUS_NEVER,
  ManifestEntry.server 0x485 "SMSG_THREAT_CLEAR" SessionStatus.STATUS_NEVER,
  ManifestEntry.server 0x486 "SMSG_CONVERT_RUNE" SessionStatus.STATUS_NEVER,
  ManifestEntry.server 0x487 "SMSG_RESYNC_RUNES" SessionStatus.STATUS_NEVER,
  ManifestEntry.server 0x488 "SMSG_ADD_RUNE_POWER" SessionStatus.STATUS_NEVER,
  ManifestEntry.client 0x489 "CMSG_START_QUEST" SessionStatus.STATUS_NEVER PacketProcessing.PROCESS_INPLACE "Handle_NULL",
  ManifestEntry.client 0x48A "CMSG_REMOVE_GLYPH" SessionStatus.STATUS_LOGGEDIN PacketProcessing.PROCESS_INPLACE "HandleRemoveGlyph",
  ManifestEntry.client 0x48B "CMSG_DUMP_OBJECTS" SessionStatus.STATUS_NEVER PacketProcessing.PROCESS_INPLACE "Handle_NULL",
  ManifestEntry.server 0x48C "SMSG_DUMP_OBJECTS_DATA" SessionStatus.STATUS_NEVER,
  ManifestEntry.client 0x48D "CMSG_DISMISS_CRITTER" SessionStatus.STATUS_LOGGEDIN PacketProcessing.PROCESS_THREADUNSAFE "HandleDismissCritter",
  ManifestEntry.server 0x48E "SMSG_NOTIFY_DEST_LOC_SPELL_CAST" SessionStatus.STATUS_NEVER,
  ManifestEntry.client 0x48F "CMSG_AUCTION_LIST_PENDING_SALES" SessionStatus.STATUS_LOGGEDIN PacketProcessing.PROCESS_THREADUNSAFE "HandleAuctionListPendingSales",
  ManifestEntry.server 0x490 "SMSG_AUCTION_LIST_PENDING_SALES" SessionStatus.STATUS_NEVER,
  ManifestEntry.server 0x491 "SMSG_MODIFY_COOLDOWN" SessionStatus.STATUS_NEVER,
  ManifestEntry.server 0x492 "SMSG_PET_UPDATE_COMBO_POINTS" SessionStatus.STATUS_NEVER,
  ManifestEntry.client 0x493 "CMSG_ENABLETAXI" SessionStatus.STATUS_LOGGEDIN PacketProcessing.PROCESS_THREADSAFE "HandleTaxiQueryAvailableNodes",
  ManifestEntry.server 0x494 "SMSG_PRE_RESURRECT" SessionStatus.STATUS_NEVER,
  ManifestEntry.server 0x495 "SMSG_AURA_UPDATE_ALL" SessionStatus.STATUS_NEVER,
  ManifestEntry.server 0x496 "SMSG_AURA_UPDATE" SessionStatus.STATUS_NEVER,
  ManifestEntry.client 0x497 "CMSG_FLOOD_GRACE_CHEAT" SessionStatus.STATUS_NEVER PacketProcessing.PROCESS_INPLACE "Handle_NULL",
  ManifestEntry.server 0x498 "SMSG_SERVER_FIRST_ACHIEVEMENT" SessionStatus.STATUS_NEVER,
  ManifestEntry.server 0x499 "SMSG_PET_LEARNED_SPELL" SessionStatus.STATUS_NEVER,
  ManifestEntry.server 0x49A "SMSG_PET_UNLEARNED_SPELL" SessionStatus.STATUS_NEVER,
  ManifestEntry.client 0x49B "CMSG_CHANGE_SEATS_ON_CONTROLLED_VEHICLE" SessionStatus.STATUS_LOGGEDIN PacketProcessing.PROCESS_INPLACE "HandleChangeSeatsOnControlledVehicle",
  ManifestEntry.client 0x49C "CMSG_HEARTH_AND_RESURRECT" SessionStatus.STATUS_LOGGEDIN PacketProcessing.PROCESS_THREADSAFE "HandleHearthAndResurrect",
  ManifestEntry.server 0x49D "SMSG_ON_CANCEL_EXPECTED_RIDE_VEHICLE_AURA" SessionStatus.STATUS_NEVER,
  ManifestEntry.server 0x49E "SMSG_CRITERIA_DELETED" SessionStatus.STATUS_NEVER,
  ManifestEntry.server 0x49F "SMSG_ACHIEVEMENT_DELETED" SessionStatus.STATUS_NEVER,
  ManifestEntry.client 0x4A0 "CMSG_SERVER_INFO_QUERY" SessionStatus.STATUS_NEVER PacketProcessing.PROCESS_INPLACE "Handle_NULL",
  ManifestEntry.server 0x4A1 "SMSG_SERVER_INFO_RESPONSE" SessionStatus.STATUS_NEVER,
  ManifestEntry.client 0x4A2 "CMSG_CHECK_LOGIN_CRITERIA" SessionStatus.STATUS_NEVER PacketProcessing.PROCESS_INPLACE "Handle_NULL",
  ManifestEntry.server 0x4A3 "SMSG_SERVER_BUCK_DATA_START" SessionStatus.STATUS_NEVER,
  ManifestEntry.client 0x4A4 "CMSG_SET_BREATH" SessionStatus.STATUS_NEVER PacketProcessing.PROCESS_INPLACE "Handle_NULL",
  ManifestEntry.client 0x4A5 "CMSG_QUERY_VEHICLE_STATUS" SessionStatus.STATUS_NEVER PacketProcessing.PROCESS_INPLACE "Handle_NULL",
  ManifestEntry.server 0x4A6 "SMSG_BATTLEGROUND_INFO_THROTTLED" SessionStatus.STATUS_NEVER,
  ManifestEntry.server 0x4A7 "SMSG_PLAYER_VEHICLE_DATA" SessionStatus.STATUS_NEVER,
  ManifestEntry.client 0x4A8 "CMSG_PLAYER_VEHICLE_ENTER" SessionStatus.STATUS_LOGGEDIN PacketProcessing.PROCESS_THREADUNSAFE "HandleEnterPlayerVehicle",
  ManifestEntry.client 0x4A9 "CMSG_CONTROLLER_EJECT_PASSENGER" SessionStatus.STATUS_LOGGEDIN PacketProcessing.PROCESS_THREADUNSAFE "HandleEjectPassenger",
  ManifestEntry.server 0x4AA "SMSG_PET_GUIDS" SessionStatus.STATUS_NEVER,
  ManifestEntry.server 0x4AB "SMSG_CLIENTCACHE_VERSION" SessionStatus.STATUS_NEVER,
  ManifestEntry.client 0x4AC "CMSG_CHANGE_GDF_ARENA_RATING" SessionStatus.STATUS_NEVER PacketProcessing.PROCESS_INPLACE "Handle_NULL",
  ManifestEntry.client 0x4AD "CMSG_SET_ARENA_TEAM_RATING_BY_INDEX" SessionStatus.STATUS_NEVER PacketProcessing.PROCESS_INPLACE "Handle_NULL",
  ManifestEntry.client 0x4AE "CMSG_SET_ARENA_TEAM_WEEKLY_GAMES" SessionStatus.STATUS_NEVER PacketProcessing.PROCESS_INPLACE "Handle_NULL",
  ManifestEntry.client 0x4AF "CMSG_SET_ARENA_TEAM_SEASON_GAMES" SessionStatus.STATUS_NEVER PacketProcessing.PROCESS_INPLACE "Handle_NULL",
  ManifestEntry.client 0x4B0 "CMSG_SET_ARENA_MEMBER_WEEKLY_GAMES" SessionStatus.STATUS_NEVER PacketProcessing.PROCESS_INPLACE "Handle_NULL",
  ManifestEntry.client 0x4B1 "CMSG_SET_ARENA_MEMBER_SEASON_GAMES" SessionStatus.STATUS_NEVER PacketProcessing.PROCESS_INPLACE "Handle_NULL",
  ManifestEntry.server 0x4B2 "SMSG_ITEM_REFUND_INFO_RESPONSE" SessionStatus.STATUS_NEVER,
  ManifestEntry.client 0x4B3 "CMSG_ITEM_REFUND_INFO" SessionStatus.STATUS_LOGGEDIN PacketProcessing.PROCESS_INPLACE "HandleItemRefundInfoRequest",
  ManifestEntry.client 0x4B4 "CMSG_ITEM_REFUND" SessionStatus.STATUS_LOGGEDIN PacketProcessing.PROCESS_INPLACE "HandleItemRefund",
  ManifestEntry.server 0x4B5 "SMSG_ITEM_REFUND_RESULT" SessionStatus.STATUS_NEVER,
  ManifestEntry.client 0x4B6 "CMSG_CORPSE_MAP_POSITION_QUERY" SessionStatus.STATUS_LOGGEDIN PacketProcessing.PROCESS_THREADUNSAFE "HandleCorpseMapPositionQuery",
  ManifestEntry.server 0x4B7 "SMSG_CORPSE_MAP_POSITION_QUERY_RESPONSE" SessionStatus.STATUS_NEVER,
  ManifestEntry.client 0x4B8 "CMSG_UNUSED5" SessionStatus.STATUS_LOGGEDIN PacketProcessing.PROCESS_THREADUNSAFE "Handle_NULL",
  ManifestEntry.client 0x4B9 "CMSG_UNUSED6" SessionStatus.STATUS_NEVER PacketProcessing.PROCESS_INPLACE "Handle_NULL",
  ManifestEntry.client 0x4BA "CMSG_CALENDAR_EVENT_SIGNUP" SessionStatus.STATUS_LOGGEDIN PacketProcessing.PROCESS_THREADUNSAFE "HandleCalendarEventSignup",
  ManifestEntry.server 0x4BB "SMSG_CALENDAR_CLEAR_PENDING_ACTION" SessionStatus.STATUS_NEVER,
  ManifestEntry.server 0x4BC "SMSG_EQUIPMENT_SET_LIST" SessionStatus.STATUS_NEVER,
  ManifestEntry.client 0x4BD "CMSG_EQUIPMENT_SET_SAVE" SessionStatus.STATUS_LOGGEDIN PacketProcessing.PROCESS_THREADUNSAFE "HandleEquipmentSetSave",
  ManifestEntry.client 0x4BE "CMSG_UPDATE_PROJECTILE_POSITION" SessionStatus.STATUS_LOGGEDIN PacketProcessing.PROCESS_THREADUNSAFE "HandleUpdateProjectilePosition",
  ManifestEntry.server 0x4BF "SMSG_SET_PROJECTILE_POSITION" SessionStatus.STATUS_NEVER,
  ManifestEntry.server 0x4C0 "SMSG_TALENTS_INFO" SessionStatus.STATUS_NEVER,
  ManifestEntry.client 0x4C1 "CMSG_LEARN_PREVIEW_TALENTS" SessionStatus.STATUS_LOGGEDIN PacketProcessing.PROCESS_INPLACE "HandleLearnPreviewTalents",
  ManifestEntry.client 0x4C2 "CMSG_LEARN_PREVIEW_TALENTS_PET" SessionStatus.STATUS_LOGGEDIN PacketProcessing.PROCESS_INPLACE "HandleLearnPreviewTalentsPet",
  ManifestEntry.client 0x4C3 "CMSG_SET_ACTIVE_TALENT_GROUP_OBSOLETE" SessionStatus.STATUS_NEVER PacketProcessing.PROCESS_INPLACE "Handle_NULL",
  ManifestEntry.client 0x4C4 "CMSG_GM_GRANT_ACHIEVEMENT" SessionStatus.STATUS_NEVER PacketProcessing.PROCESS_INPLACE "Handle_NULL",
  ManifestEntry.client 0x4C5 "CMSG_GM_REMOVE_ACHIEVEMENT" SessionStatus.STATUS_NEVER PacketProcessing.PROCESS_INPLACE "Handle_NULL",
  ManifestEntry.client 0x4C6 "CMSG_GM_SET_CRITERIA_FOR_PLAYER" SessionStatus.STATUS_NEVER PacketProcessing.PROCESS_INPLACE "Handle_NULL",
  ManifestEntry.server 0x4C7 "SMSG_ARENA_UNIT_DESTROYED" SessionStatus.STATUS_NEVER,
  ManifestEntry.server 0x4C8 "SMSG_ARENA_TEAM_CHANGE_FAILED_QUEUED" SessionStatus.STATUS_NEVER,
  ManifestEntry.client 0x4C9 "CMSG_PROFILEDATA_REQUEST" SessionStatus.STATUS_NEVER PacketProcessing.PROCESS_INPLACE "Handle_NULL",
  ManifestEntry.server 0x4CA "SMSG_PROFILEDATA_RESPONSE" SessionStatus.STATUS_NEVER,
  ManifestEntry.client 0x4CB "CMSG_START_BATTLEFIELD_CHEAT" SessionStatus.STATUS_NEVER PacketProcessing.PROCESS_INPLACE "Handle_NULL",
  ManifestEntry.client 0x4CC "CMSG_END_BATTLEFIELD_CHEAT" SessionStatus.STATUS_NEVER PacketProcessing.PROCESS_INPLACE "Handle_NULL",
  ManifestEntry.server 0x4CD "SMSG_MULTIPLE_PACKETS" SessionStatus.STATUS_NEVER,
  ManifestEntry.server 0x4CE "SMSG_MOVE_GRAVITY_DISABLE" SessionStatus.STATUS_NEVER,
  ManifestEntry.client 0x4CF "CMSG_MOVE_GRAVITY_DISABLE_ACK" SessionStatus.STATUS_NEVER PacketProcessing.PROCESS_INPLACE "Handle_NULL",
  ManifestEntry.server 0x4D0 "SMSG_MOVE_GRAVITY_ENABLE" SessionStatus.STATUS_NEVER,
  ManifestEntry.client 0x4D1 "CMSG_MOVE_GRAVITY_ENABLE_ACK" SessionStatus.STATUS_NEVER PacketProcessing.PROCESS_INPLACE "Handle_NULL",
  ManifestEntry.server 0x4D2 "MSG_MOVE_GRAVITY_CHNG" SessionStatus.STATUS_NEVER,
  ManifestEntry.server 0x4D3 "SMSG_SPLINE_MOVE_GRAVITY_DISABLE" SessionStatus.STATUS_NEVER,
  ManifestEntry.server 0x4D4 "SMSG_SPLINE_MOVE_GRAVITY_ENABLE" SessionStatus.STATUS_NEVER,
  ManifestEntry.client 0x4D5 "CMSG_EQUIPMENT_SET_USE" SessionStatus.STATUS_LOGGEDIN PacketProcessing.PROCESS_INPLACE "HandleEquipmentSetUse",
  ManifestEntry.server 0x4D6 "SMSG_EQUIPMENT_SET_USE_RESULT" SessionStatus.STATUS_NEVER,
  ManifestEntry.client 0x4D7 "CMSG_FORCE_ANIM" SessionStatus.STATUS_NEVER PacketProcessing.PROCESS_INPLACE "Handle_NULL",
  ManifestEntry.server 0x4D8 "SMSG_FORCE_ANIM" SessionStatus.STATUS_NEVER,
  ManifestEntry.client 0x4D9 "CMSG_CHAR_FACTION_CHANGE" SessionStatus.STATUS_AUTHED PacketProcessing.PROCESS_THREADUNSAFE "HandleCharFactionOrRaceChange",
  ManifestEntry.server 0x4DA "SMSG_CHAR_FACTION_CHANGE" SessionStatus.STATUS_NEVER,
  ManifestEntry.client 0x4DB "CMSG_PVP_QUEUE_STATS_REQUEST" SessionStatus.STATUS_NEVER PacketProcessing.PROCESS_INPLACE "Handle_NULL",
  ManifestEntry.server 0x4DC "SMSG_PVP_QUEUE_STATS" SessionStatus.STATUS_NEVER,
  ManifestEntry.client 0x4DD "CMSG_SET_PAID_SERVICE_CHEAT" SessionStatus.STATUS_NEVER PacketProcessing.PROCESS_INPLACE "Handle_NULL",
  ManifestEntry.server 0x4DE "SMSG_BATTLEFIELD_MGR_ENTRY_INVITE" SessionStatus.STATUS_NEVER,
  ManifestEntry.client 0x4DF "CMSG_BATTLEFIELD_MGR_ENTRY_INVITE_RESPONSE" SessionStatus.STATUS_LOGGEDIN PacketProcessing.PROCESS_THREADUNSAFE "HandleBfEntryInviteResponse",
  ManifestEntry.server 0x4E0 "SMSG_BATTLEFIELD_MGR_ENTERED" SessionStatus.STATUS_NEVER,
  ManifestEntry.server 0x4E1 "SMSG_BATTLEFIELD_MGR_QUEUE_INVITE" SessionStatus.STATUS_NEVER,
  ManifestEntry.client 0x4E2 "CMSG_BATTLEFIELD_MGR_QUEUE_INVITE_RESPONSE" SessionStatus.STATUS_LOGGEDIN PacketProcessing.PROCESS_THREADUNSAFE "HandleBfQueueInviteResponse",
  ManifestEntry.client 0x4E3 "CMSG_BATTLEFIELD_MGR_QUEUE_REQUEST" SessionStatus.STATUS_NEVER PacketProcessing.PROCESS_INPLACE "Handle_NULL",
  ManifestEntry.server 0x4E4 "SMSG_BATTLEFIELD_MGR_QUEUE_REQUEST_RESPONSE" SessionStatus.STATUS_NEVER,
  ManifestEntry.server 0x4E5 "SMSG_BATTLEFIELD_MGR_EJECT_PENDING" SessionStatus.STATUS_NEVER,
  ManifestEntry.server 0x4E6 "SMSG_BATTLEFIELD_MGR_EJECTED" SessionStatus.STATUS_NEVER,
  ManifestEntry.client 0x4E7 "CMSG_BATTLEFIELD_MGR_EXIT_REQUEST" SessionStatus.STATUS_LOGGEDIN PacketProcessing.PROCESS_THREADUNSAFE "HandleBfExitRequest",
  ManifestEntry.server 0x4E8 "SMSG_BATTLEFIELD_MGR_STATE_CHANGE" SessionStatus.STATUS_NEVER,
  ManifestEntry.client 0x4E9 "CMSG_BATTLEFIELD_MANAGER_ADVANCE_STATE" SessionStatus.STATUS_NEVER PacketProcessing.PROCESS_INPLACE "Handle_NULL",
  ManifestEntry.client 0x4EA "CMSG_BATTLEFIELD_MANAGER_SET_NEXT_TRANSITION_TIME" SessionStatus.STATUS_NEVER PacketProcessing.PROCESS_INPLACE "Handle_NULL",
  ManifestEntry.client 0x4EB "MSG_SET_RAID_DIFFICULTY" SessionStatus.STATUS_LOGGEDIN PacketProcessing.PROCESS_THREADUNSAFE "HandleSetRaidDifficultyOpcode",
  ManifestEntry.client 0x4EC "CMSG_TOGGLE_XP_GAIN" SessionStatus.STATUS_NEVER PacketProcessing.PROCESS_INPLACE "Handle_NULL",
  ManifestEntry.server 0x4ED "SMSG_TOGGLE_XP_GAIN" SessionStatus.STATUS_NEVER,
  ManifestEntry.server 0x4EE "SMSG_GMRESPONSE_DB_ERROR" SessionStatus.STATUS_NEVER,
  ManifestEntry.server 0x4EF "SMSG_GMRESPONSE_RECEIVED" SessionStatus.STATUS_NEVER,
  ManifestEntry.client 0x4F0 "CMSG_GMRESPONSE_RESOLVE" SessionStatus.STATUS_LOGGEDIN PacketProcessing.PROCESS_THREADUNSAFE "HandleGMResponseResolve",
  ManifestEntry.server 0x4F1 "SMSG_GMRESPONSE_STATUS_UPDATE" SessionStatus.STATUS_NEVER,
  ManifestEntry.server 0x4F2 "SMSG_GMRESPONSE_CREATE_TICKET" SessionStatus.STATUS_NEVER,
  ManifestEntry.client 0x4F3 "CMSG_GMRESPONSE_CREATE_TICKET" SessionStatus.STATUS_NEVER PacketProcessing.PROCESS_INPLACE "Handle_NULL",
  ManifestEntry.client 0x4F4 "CMSG_SERVERINFO" SessionStatus.STATUS_NEVER PacketProcessing.PROCESS_INPLACE "Handle_NULL",
  ManifestEntry.server 0x4F5 "SMSG_SERVERINFO" SessionStatus.STATUS_NEVER,
  ManifestEntry.client 0x4F6 "CMSG_WORLD_STATE_UI_TIMER_UPDATE" SessionStatus.STATUS_LOGGEDIN PacketProcessing.PROCESS_INPLACE "HandleWorldStateUITimerUpdate",
  ManifestEntry.server 0x4F7 "SMSG_WORLD_STATE_UI_TIMER_UPDATE" SessionStatus.STATUS_NEVER,
  ManifestEntry.client 0x4F8 "CMSG_CHAR_RACE_CHANGE" SessionStatus.STATUS_AUTHED PacketProcessing.PROCESS_THREADUNSAFE "HandleCharFactionOrRaceChange",
  ManifestEntry.client 0x4F9 "MSG_VIEW_PHASE_SHIFT" SessionStatus.STATUS_NEVER PacketProcessing.PROCESS_INPLACE "Handle_NULL",
  ManifestEntry.server 0x4FA "SMSG_TALENTS_INVOLUNTARILY_RESET" SessionStatus.STATUS_NEVER,
  ManifestEntry.client 0x4FB "CMSG_DEBUG_SERVER_GEO" SessionStatus.STATUS_NEVER PacketProcessing.PROCESS_INPLACE "Handle_NULL",
  ManifestEntry.server 0x4FC "SMSG_DEBUG_SERVER_GEO" SessionStatus.STATUS_NEVER,
  ManifestEntry.server 0x4FD "SMSG_LOOT_SLOT_CHANGED" SessionStatus.STATUS_NEVER,
  ManifestEntry.client 0x4FE "UMSG_UPDATE_GROUP_INFO" SessionStatus.STATUS_NEVER PacketProcessing.PROCESS_INPLACE "Handle_NULL",
  ManifestEntry.client 0x4FF "CMSG_READY_FOR_ACCOUNT_DATA_TIMES" SessionStatus.STATUS_AUTHED PacketProcessing.PROCESS_THREADUNSAFE "HandleReadyForAccountDataTimes",
  ManifestEntry.client 0x500 "CMSG_QUERY_QUESTS_COMPLETED" SessionStatus.STATUS_LOGGEDIN PacketProcessing.PROCESS_INPLACE "HandleQueryQuestsCompleted",
  ManifestEntry.server 0x501 "SMSG_QUERY_QUESTS_COMPLETED_RESPONSE" SessionStatus.STATUS_NEVER,
  ManifestEntry.client 0x502 "CMSG_GM_REPORT_LAG" SessionStatus.STATUS_LOGGEDIN PacketProcessing.PROCESS_THREADUNSAFE "HandleReportLag",
  ManifestEntry.client 0x503 "CMSG_AFK_MONITOR_INFO_REQUEST" SessionStatus.STATUS_NEVER PacketProcessing.PROCESS_INPLACE "Handle_NULL",
  ManifestEntry.server 0x504 "SMSG_AFK_MONITOR_INFO_RESPONSE" SessionStatus.STATUS_NEVER,
  ManifestEntry.client 0x505 "CMSG_AFK_MONITOR_INFO_CLEAR" SessionStatus.STATUS_NEVER PacketProcessing.PROCESS_INPLACE "Handle_NULL",
  ManifestEntry.server 0x506 "SMSG_CORPSE_NOT_IN_INSTANCE" SessionStatus.STATUS_NEVER,
  ManifestEntry.client 0x507 "CMSG_GM_NUKE_CHARACTER" SessionStatus.STATUS_NEVER PacketProcessing.PROCESS_INPLACE "Handle_NULL",
  ManifestEntry.client 0x508 "CMSG_SET_ALLOW_LOW_LEVEL_RAID1" SessionStatus.STATUS_NEVER PacketProcessing.PROCESS_INPLACE "Handle_NULL",
  ManifestEntry.client 0x509 "CMSG_SET_ALLOW_LOW_LEVEL_RAID2" SessionStatus.STATUS_NEVER PacketProcessing.PROCESS_INPLACE "Handle_NULL",
  ManifestEntry.server 0x50A "SMSG_CAMERA_SHAKE" SessionStatus.STATUS_NEVER,
  ManifestEntry.server 0x50B "SMSG_SOCKET_GEMS_RESULT" SessionStatus.STATUS_NEVER,
  ManifestEntry.client 0x50C "CMSG_SET_CHARACTER_MODEL" SessionStatus.STATUS_NEVER PacketProcessing.PROCESS_INPLACE "Handle_NULL",
  ManifestEntry.server 0x50D "SMSG_REDIRECT_CLIENT" SessionStatus.STATUS_NEVER,
  ManifestEntry.client 0x50E "CMSG_REDIRECTION_FAILED" SessionStatus.STATUS_NEVER PacketProcessing.PROCESS_INPLACE "Handle_NULL",
  ManifestEntry.server 0x50F "SMSG_SUSPEND_COMMS" SessionStatus.STATUS_NEVER,
  ManifestEntry.client 0x510 "CMSG_SUSPEND_COMMS_ACK" SessionStatus.STATUS_NEVER PacketProcessing.PROCESS_INPLACE "Handle_NULL",
  ManifestEntry.server 0x511 "SMSG_FORCE_SEND_QUEUED_PACKETS" SessionStatus.STATUS_NEVER,
  ManifestEntry.client 0x512 "CMSG_REDIRECTION_AUTH_PROOF" SessionStatus.STATUS_NEVER PacketProcessing.PROCESS_INPLACE "Handle_NULL",
  ManifestEntry.client 0x513 "CMSG_DROP_NEW_CONNECTION" SessionStatus.STATUS_NEVER PacketProcessing.PROCESS_INPLACE "Handle_NULL",
  ManifestEntry.server 0x514 "SMSG_SEND_ALL_COMBAT_LOG" SessionStatus.STATUS_NEVER,
  ManifestEntry.server 0x515 "SMSG_OPEN_LFG_DUNGEON_FINDER" SessionStatus.STATUS_NEVER,
  ManifestEntry.server 0x516 "SMSG_MOVE_SET_COLLISION_HGT" SessionStatus.STATUS_NEVER,
  ManifestEntry.client 0x517 "CMSG_MOVE_SET_COLLISION_HGT_ACK" SessionStatus.STATUS_UNHANDLED PacketProcessing.PROCESS_INPLACE "Handle_NULL",
  ManifestEntry.client 0x518 "MSG_MOVE_SET_COLLISION_HGT" SessionStatus.STATUS_NEVER PacketProcessing.PROCESS_INPLACE "Handle_NULL",
  ManifestEntry.client 0x519 "CMSG_CLEAR_RANDOM_BG_WIN_TIME" SessionStatus.STATUS_NEVER PacketProcessing.PROCESS_INPLACE "Handle_NULL",
  ManifestEntry.client 0x51A "CMSG_CLEAR_HOLIDAY_BG_WIN_TIME" SessionStatus.STATUS_NEVER PacketProcessing.PROCESS_INPLACE "Handle_NULL",
  ManifestEntry.client 0x51B "CMSG_COMMENTATOR_SKIRMISH_QUEUE_COMMAND" SessionStatus.STATUS_NEVER PacketProcessing.PROCESS_INPLACE "Handle_NULL",
  ManifestEntry.server 0x51C "SMSG_COMMENTATOR_SKIRMISH_QUEUE_RESULT1" SessionStatus.STATUS_NEVER,
  ManifestEntry.server 0x51D "SMSG_COMMENTATOR_SKIRMISH_QUEUE_RESULT2" SessionStatus.STATUS_NEVER,
  ManifestEntry.server 0x51E "SMSG_MULTIPLE_MOVES" SessionStatus.STATUS_NEVER
]

/-- `OpcodeTable::Initialize`: starting from the freshly constructed table,
run every manifest registration in order. -/
def OpcodeTable.Initialize : OpcodeTable :=
  OpcodeTable.empty.registerAll manifest

/-- `Initialize` unfolded to its registration fold (definitional). -/
theorem OpcodeTable.Initialize_def :
    OpcodeTable.Initialize = OpcodeTable.empty.registerAll manifest := rfl

/-! ### Basic lemmas about the two registration paths -/

/-- Indices other than the registered opcode are untouched (client path). -/
theorem OpcodeTable.ValidateAndSetClientOpcode_at_ne (t : OpcodeTable)
    (op : Nat) (nm : String) (st : SessionStatus) (pr : PacketProcessing)
    (hd : String) (i : Nat) (h : i ≠ op) :
    (t.ValidateAndSetClientOpcode op nm st pr hd)._internalTableClient i =
      t._internalTableClient i := by
  unfold ValidateAndSetClientOpcode
  split
  · rfl
  split
  · rfl
  split
  · rfl
  · simp [h]

/-- Indices other than the registered opcode are untouched (server path). -/
theorem OpcodeTable.ValidateAndSetServerOpcode_at_ne (t : OpcodeTable)
    (op : Nat) (nm : String) (st : SessionStatus) (i : Nat) (h : i ≠ op) :
    (t.ValidateAndSetServerOpcode op nm st)._internalTableClient i =
      t._internalTableClient i := by
  unfold ValidateAndSetServerOpcode
  split
  · rfl
  split
  · rfl
  split
  · rfl
  · simp [h]

/-- An occupied slot makes the client path return the table unchanged. -/
theorem OpcodeTable.ValidateAndSetClientOpcode_of_occupied (t : OpcodeTable)
    (op : Nat) (nm : String) (st : SessionStatus) (pr : PacketProcessing)
    (hd : String) (h : (t._internalTableClient op).isSome) :
    t.ValidateAndSetClientOpcode op nm st pr hd = t := by
  unfold ValidateAndSetClientOpcode
  simp [h]

/-- An occupied slot makes the server path return the table unchanged. -/
theorem OpcodeTable.ValidateAndSetServerOpcode_of_occupied (t : OpcodeTable)
    (op : Nat) (nm : String) (st : SessionStatus)
    (h : (t._internalTableClient op).isSome) :
    t.ValidateAndSetServerOpcode op nm st = t := by
  unfold ValidateAndSetServerOpcode
  simp [h]

/-- A failing registration (null sentinel, out of range, or occupied slot)
returns the table unchanged, whichever path the entry uses. -/
theorem OpcodeTable.applyEntry_fail (t : OpcodeTable) (e : ManifestEntry)
    (h : e.opcodeOf = NULL_OPCODE ∨ NUM_OPCODE_HANDLERS ≤ e.opcodeOf ∨
         (t._internalTableClient e.opcodeOf).isSome = true) :
    t.applyEntry e = t := by
  cases e with
  | client op nm st pr hd =>
      simp only [ManifestEntry.opcodeOf] at h
      simp only [applyEntry]
      unfold ValidateAndSetClientOpcode
      rcases h with h | h | h
      · simp [h]
      · simp [h, Nat.not_lt.mpr h]
      · simp [h]
  | server op nm st =>
      simp only [ManifestEntry.opcodeOf] at h
      simp only [applyEntry]
      unfold ValidateAndSetServerOpcode
      rcases h with h | h | h
      · simp [h]
      · simp [h, Nat.not_lt.mpr h]
      · simp [h]

/-- `applyEntry` never touches an index other than the entry's opcode. -/
theorem OpcodeTable.applyEntry_at_ne (t : OpcodeTable) (e : ManifestEntry)
    (i : Nat) (h : i ≠ e.opcodeOf) :
    (t.applyEntry e)._internalTableClient i = t._internalTableClient i := by
  cases e with
  | client op nm st pr hd =>
      exact t.ValidateAndSetClientOpcode_at_ne op nm st pr hd i h
  | server op nm st =>
      exact t.ValidateAndSetServerOpcode_at_ne op nm st i h

/-- `applyEntry` never overwrites an installed descriptor. -/
theorem OpcodeTable.applyEntry_preserves_some (t : OpcodeTable)
    (e : ManifestEntry) (i : Nat) (d : OpcodeHandler)
    (h : t._internalTableClient i = some d) :
    (t.applyEntry e)._internalTableClient i = some d := by
  by_cases hop : i = e.opcodeOf
  · rw [hop] at h
    rw [t.applyEntry_fail e (Or.inr (Or.inr (by rw [h]; rfl)))]
    rw [← hop] at h
    exact h
  · rw [t.applyEntry_at_ne e i hop]
    exact h

/-- No later sequence of registrations can overwrite an installed
descriptor. -/
theorem OpcodeTable.registerAll_preserves_some (es : List ManifestEntry) :
    ∀ (t : OpcodeTable) (i : Nat) (d : OpcodeHandler),
      t._internalTableClient i = some d →
      (t.registerAll es)._internalTableClient i = some d := by
  induction es with
  | nil => intro t i d h; exact h
  | cons e rest ih =>
      intro t i d h
      exact ih (t.applyEntry e) i d (t.applyEntry_preserves_some e i d h)

/-- A successful registration installs exactly the entry's descriptor. -/
theorem OpcodeTable.applyEntry_success (t : OpcodeTable) (e : ManifestEntry)
    (h0 : e.opcodeOf ≠ NULL_OPCODE) (h1 : e.opcodeOf < NUM_OPCODE_HANDLERS)
    (h2 : t._internalTableClient e.opcodeOf = none) :
    (t.applyEntry e)._internalTableClient e.opcodeOf =
      some e.descriptorOf := by
  cases e with
  | client op nm st pr hd =>
      simp only [ManifestEntry.opcodeOf] at h0 h1 h2
      simp only [applyEntry]
      unfold ValidateAndSetClientOpcode
      rw [if_neg h0, if_neg (Nat.not_le.mpr h1), h2]
      simp [ManifestEntry.opcodeOf, ManifestEntry.descriptorOf]
  | server op nm st =>
      simp only [ManifestEntry.opcodeOf] at h0 h1 h2
      simp only [applyEntry]
      unfold ValidateAndSetServerOpcode
      rw [if_neg h0, if_neg (Nat.not_le.mpr h1), h2]
      simp [ManifestEntry.opcodeOf, ManifestEntry.descriptorOf]

/-- A slot that no listed entry registers at stays empty. -/
theorem OpcodeTable.registerAll_none_of_all_ne (es : List ManifestEntry) :
    ∀ (t : OpcodeTable) (i : Nat),
      t._internalTableClient i = none →
      (∀ e ∈ es, e.opcodeOf ≠ i) →
      (t.registerAll es)._internalTableClient i = none := by
  induction es with
  | nil => intro t i h _; exact h
  | cons e rest ih =>
      intro t i h hall
      have hne : i ≠ e.opcodeOf := fun hh =>
        hall e (List.mem_cons_self e rest) hh.symm
      refine ih (t.applyEntry e) i ?_ ?_
      · rw [t.applyEntry_at_ne e i hne]; exact h
      · intro x hx
        exact hall x (List.mem_cons_of_mem e hx)

/-- If every registration attempt aimed at `id` fails at the moment it runs,
the slot `id` stays empty through the whole registration sequence. -/
theorem OpcodeTable.registerAll_none_of_no_success (es : List ManifestEntry) :
    ∀ (t : OpcodeTable) (id : Nat),
      t._internalTableClient id = none →
      (∀ (n : Nat) (hn : n < es.length), (es.get ⟨n, hn⟩).opcodeOf = id →
        registrationSucceeds (t.registerAll (es.take n)) (es.get ⟨n, hn⟩) =
          false) →
      (t.registerAll es)._internalTableClient id = none := by
  induction es with
  | nil => intro t id h _; exact h
  | cons e rest ih =>
      intro t id h hall
      have hstep : (t.applyEntry e)._internalTableClient id = none := by
        by_cases hop : e.opcodeOf = id
        · have hfail := hall 0 (Nat.succ_pos _) hop
          simp only [List.take_zero] at hfail
          have hfail' : registrationSucceeds t e = false := hfail
          simp only [registrationSucceeds, Bool.and_eq_false_iff,
            Bool.not_eq_false', beq_iff_eq, decide_eq_false_iff_not,
            Nat.not_lt] at hfail'
          rcases hfail' with (hnull | hrange) | hocc
          · rw [t.applyEntry_fail e (Or.inl hnull)]
            exact h
          · rw [t.applyEntry_fail e (Or.inr (Or.inl hrange))]
            exact h
          · rw [hop] at hocc
            simp [h] at hocc
        · rw [t.applyEntry_at_ne e id (fun hh => hop hh.symm)]
          exact h
      have hrw : t.registerAll (e :: rest) = (t.applyEntry e).registerAll rest :=
        rfl
      rw [hrw]
      refine ih (t.applyEntry e) id hstep ?_
      intro n hn hopn
      have := hall (n + 1) (Nat.succ_lt_succ hn) hopn
      simpa using this

/-! ### Locating the CharCreate registration inside the manifest -/

/-- The manifest entry at id `0x036`: `DEFINE_HANDLER(CMSG_CHAR_CREATE,
STATUS_AUTHED, PROCESS_THREADUNSAFE, &WorldSession::HandleCharCreateOpcode)`. -/
def charCreateEntry : ManifestEntry :=
  ManifestEntry.client 0x036 "CMSG_CHAR_CREATE" SessionStatus.STATUS_AUTHED
    PacketProcessing.PROCESS_THREADUNSAFE "HandleCharCreateOpcode"

/-- The CharCreate registration sits at position 53 of the manifest. -/
theorem manifest_drop53 :
    manifest.drop 53 = charCreateEntry :: manifest.drop 54 := by
  have h : 53 < manifest.length := by decide
  rw [List.drop_eq_getElem_cons h]
  rfl

/-- The initialized table holds the CharCreate descriptor at `0x036`. -/
theorem initialize_at_charCreate :
    OpcodeTable.Initialize._internalTableClient 0x036 =
      some charCreateEntry.descriptorOf := by
  have hsplit :
      manifest = manifest.take 53 ++ (charCreateEntry :: manifest.drop 54) := by
    conv_lhs => rw [← List.take_append_drop 53 manifest]
    rw [manifest_drop53]
  have hnone :
      (OpcodeTable.empty.registerAll
        (manifest.take 53))._internalTableClient 0x036 = none := by
    apply OpcodeTable.registerAll_none_of_all_ne
    · rfl
    · decide
  have hsucc :=
    OpcodeTable.applyEntry_success
      (OpcodeTable.empty.registerAll (manifest.take 53)) charCreateEntry
      (by decide) (by decide) hnone
  have h1 :
      OpcodeTable.empty.registerAll
          (manifest.take 53 ++ (charCreateEntry :: manifest.drop 54)) =
        ((OpcodeTable.empty.registerAll (manifest.take 53)).applyEntry
          charCreateEntry).registerAll (manifest.drop 54) := by
    unfold OpcodeTable.registerAll
    rw [List.foldl_append, List.foldl_cons]
  rw [OpcodeTable.Initialize_def, hsplit, h1]
  exact OpcodeTable.registerAll_preserves_some (manifest.drop 54) _ _ _ hsucc

/-! ### Claim theorems -/

/-- C1: duplicate registration is rejected with the original retained: once a
descriptor `A` occupies id `X` (whichever path installed it), any later
registration attempt at `X` through either path leaves the table unchanged,
and after any further sequence of registration attempts `lookup X` still
returns `A`. -/
theorem C1_duplicate_rejected_original_retained (t : OpcodeTable) (X : Nat)
    (A : OpcodeHandler) (hX : X < NUM_OPCODE_HANDLERS)
    (hA : t._internalTableClient X = some A) :
    (∀ e : ManifestEntry, e.opcodeOf = X → t.applyEntry e = t) ∧
    (∀ es : List ManifestEntry, (t.registerAll es).lookup X = some A) := by
  constructor
  · intro e he
    exact t.applyEntry_fail e (Or.inr (Or.inr (by rw [he, hA]; rfl)))
  · intro es
    unfold OpcodeTable.lookup
    rw [if_pos hX]
    exact OpcodeTable.registerAll_preserves_some es t X A hA

/-- C1 witness: register A at id 5 through the client path, attempt B at 5
through the server path; lookup 5 still returns A. -/
theorem C1_witness :
    ((OpcodeTable.empty.applyEntry
        (ManifestEntry.client 5 "CMSG_A" SessionStatus.STATUS_NEVER
          PacketProcessing.PROCESS_INPLACE "HandleA")).registerAll
      [ManifestEntry.server 5 "SMSG_B" SessionStatus.STATUS_NEVER]).lookup 5 =
      some ⟨"CMSG_A", SessionStatus.STATUS_NEVER,
        PacketProcessing.PROCESS_INPLACE, "HandleA"⟩ :=
  (C1_duplicate_rejected_original_retained
    (OpcodeTable.empty.applyEntry
      (ManifestEntry.client 5 "CMSG_A" SessionStatus.STATUS_NEVER
        PacketProcessing.PROCESS_INPLACE "HandleA")) 5
    ⟨"CMSG_A", SessionStatus.STATUS_NEVER,
      PacketProcessing.PROCESS_INPLACE, "HandleA"⟩
    (by decide) (by decide)).2
    [ManifestEntry.server 5 "SMSG_B" SessionStatus.STATUS_NEVER]

/-- C5: registration with the null/unset sentinel opcode value is rejected
through both paths, regardless of the other arguments, and installs
nothing: the table is returned unchanged. -/
theorem C5_null_opcode_rejected (t : OpcodeTable) (name : String)
    (status : SessionStatus) (processing : PacketProcessing)
    (handler : String) :
    t.ValidateAndSetClientOpcode NULL_OPCODE name status processing handler =
        t ∧
    t.ValidateAndSetServerOpcode NULL_OPCODE name status = t := by
  constructor
  · unfold OpcodeTable.ValidateAndSetClientOpcode
    simp
  · unfold OpcodeTable.ValidateAndSetServerOpcode
    simp

/-- C5 witness: a concrete null-opcode registration on the empty table leaves
it unchanged on both paths. -/
theorem C5_witness :
    OpcodeTable.empty.ValidateAndSetClientOpcode NULL_OPCODE "CMSG_X"
        SessionStatus.STATUS_AUTHED PacketProcessing.PROCESS_THREADSAFE
        "HandleX" = OpcodeTable.empty ∧
    OpcodeTable.empty.ValidateAndSetServerOpcode NULL_OPCODE "SMSG_X"
        SessionStatus.STATUS_NEVER = OpcodeTable.empty :=
  C5_null_opcode_rejected OpcodeTable.empty "CMSG_X"
    SessionStatus.STATUS_AUTHED PacketProcessing.PROCESS_THREADSAFE "HandleX"
    |>.imp id fun _ =>
      (C5_null_opcode_rejected OpcodeTable.empty "SMSG_X"
        SessionStatus.STATUS_NEVER PacketProcessing.PROCESS_THREADSAFE
        "HandleX").2

/-- C6: every failing registration (null sentinel, out-of-range id, or
occupied slot) is non-fatal: the offending entry is skipped with the table
unchanged (so any pre-existing entry is retained), and the remaining
registration sequence proceeds exactly as it would without the offender. -/
theorem C6_failing_registration_nonfatal (t : OpcodeTable) (e : ManifestEntry)
    (h : e.opcodeOf = NULL_OPCODE ∨ NUM_OPCODE_HANDLERS ≤ e.opcodeOf ∨
         (t._internalTableClient e.opcodeOf).isSome = true) :
    t.applyEntry e = t ∧
    ∀ es : List ManifestEntry, t.registerAll (e :: es) = t.registerAll es := by
  have hfail := t.applyEntry_fail e h
  refine ⟨hfail, fun es => ?_⟩
  show (t.applyEntry e).registerAll es = t.registerAll es
  rw [hfail]

/-- C6 witness: an out-of-range registration (id `0x9999`) is skipped and the
following registration proceeds unaffected. -/
theorem C6_witness :
    OpcodeTable.empty.registerAll
        [ManifestEntry.client 0x9999 "CMSG_BAD" SessionStatus.STATUS_NEVER
           PacketProcessing.PROCESS_INPLACE "HandleBad",
         ManifestEntry.client 5 "CMSG_OK" SessionStatus.STATUS_NEVER
           PacketProcessing.PROCESS_INPLACE "HandleOk"] =
      OpcodeTable.empty.registerAll
        [ManifestEntry.client 5 "CMSG_OK" SessionStatus.STATUS_NEVER
           PacketProcessing.PROCESS_INPLACE "HandleOk"] :=
  (C6_failing_registration_nonfatal OpcodeTable.empty
    (ManifestEntry.client 0x9999 "CMSG_BAD" SessionStatus.STATUS_NEVER
      PacketProcessing.PROCESS_INPLACE "HandleBad") (by decide)).2
    [ManifestEntry.client 5 "CMSG_OK" SessionStatus.STATUS_NEVER
      PacketProcessing.PROCESS_INPLACE "HandleOk"]

/-- C9: the client and server registration paths validate against the same
single table: a slot occupied through one path rejects a registration
through the other (in both directions) without overwriting, and after any
interleaving of client and server registrations an installed descriptor is
still in place (each id holds at most one descriptor by construction of the
table). -/
theorem C9_single_shared_table (t : OpcodeTable) (id : Nat)
    (d : OpcodeHandler) (h : t._internalTableClient id = some d) :
    (∀ nm st, t.ValidateAndSetServerOpcode id nm st = t) ∧
    (∀ nm st pr hd, t.ValidateAndSetClientOpcode id nm st pr hd = t) ∧
    (∀ es : List ManifestEntry,
      (t.registerAll es)._internalTableClient id = some d) := by
  refine ⟨fun nm st => ?_, fun nm st pr hd => ?_, fun es => ?_⟩
  · exact t.ValidateAndSetServerOpcode_of_occupied id nm st (by rw [h]; rfl)
  · exact t.ValidateAndSetClientOpcode_of_occupied id nm st pr hd
      (by rw [h]; rfl)
  · exact OpcodeTable.registerAll_preserves_some es t id d h

/-- C9 witness: a client-path registration at id 7 blocks a later server-path
registration at 7, leaving the table unchanged. -/
theorem C9_witness :
    (OpcodeTable.empty.applyEntry
        (ManifestEntry.client 7 "CMSG_C" SessionStatus.STATUS_NEVER
          PacketProcessing.PROCESS_INPLACE "HandleC")).ValidateAndSetServerOpcode
        7 "SMSG_S" SessionStatus.STATUS_NEVER =
      OpcodeTable.empty.applyEntry
        (ManifestEntry.client 7 "CMSG_C" SessionStatus.STATUS_NEVER
          PacketProcessing.PROCESS_INPLACE "HandleC") :=
  (C9_single_shared_table
    (OpcodeTable.empty.applyEntry
      (ManifestEntry.client 7 "CMSG_C" SessionStatus.STATUS_NEVER
        PacketProcessing.PROCESS_INPLACE "HandleC")) 7
    ⟨"CMSG_C", SessionStatus.STATUS_NEVER, PacketProcessing.PROCESS_INPLACE,
      "HandleC"⟩ (by decide)).1 "SMSG_S" SessionStatus.STATUS_NEVER

/-- The build-time obligation one manifest entry generates: a server-path
entry must satisfy the `static_assert` on its status; a client-path entry
generates none (unless it binds the server sentinel handler, which no
`DEFINE_HANDLER` call does). -/
def serverEntryOk : ManifestEntry → Prop
  | .server _ _ st => serverOpcodeStatusAssert st
  | .client _ _ st _ hd => hd = "Handle_ServerSide" → serverOpcodeStatusAssert st

instance (e : ManifestEntry) : Decidable (serverEntryOk e) := by
  cases e <;> (unfold serverEntryOk; infer_instance)

/-- Registration keeps the invariant that every installed descriptor bound to
`Handle_ServerSide` (the server-path binding) has a status satisfying the
server-opcode `static_assert`. -/
theorem OpcodeTable.registerAll_server_status (es : List ManifestEntry) :
    ∀ t : OpcodeTable,
      (∀ i h, t._internalTableClient i = some h →
        h.Handler = "Handle_ServerSide" → serverOpcodeStatusAssert h.Status) →
      (∀ e ∈ es, serverEntryOk e) →
      ∀ i h, (t.registerAll es)._internalTableClient i = some h →
        h.Handler = "Handle_ServerSide" → serverOpcodeStatusAssert h.Status := by
  induction es with
  | nil => intro t hinv _; exact hinv
  | cons e rest ih =>
      intro t hinv hok
      have hstep : ∀ i h, (t.applyEntry e)._internalTableClient i = some h →
          h.Handler = "Handle_ServerSide" →
          serverOpcodeStatusAssert h.Status := by
        intro i h hi hhd
        by_cases hop : i = e.opcodeOf
        · cases e with
          | client op nm st pr hd =>
              simp only [OpcodeTable.applyEntry] at hi
              unfold OpcodeTable.ValidateAndSetClientOpcode at hi
              split at hi
              · exact hinv i h hi hhd
              split at hi
              · exact hinv i h hi hhd
              split at hi
              · exact hinv i h hi hhd
              · simp only [ManifestEntry.opcodeOf] at hop
                replace hi :
                    (if i = op then
                        some (⟨nm, st, pr, hd⟩ : OpcodeHandler)
                      else t._internalTableClient i) = some h := hi
                rw [if_pos hop] at hi
                cases hi
                have := hok (ManifestEntry.client op nm st pr hd)
                  (List.mem_cons_self _ _)
                exact this hhd
          | server op nm st =>
              simp only [OpcodeTable.applyEntry] at hi
              unfold OpcodeTable.ValidateAndSetServerOpcode at hi
              split at hi
              · exact hinv i h hi hhd
              split at hi
              · exact hinv i h hi hhd
              split at hi
              · exact hinv i h hi hhd
              · simp only [ManifestEntry.opcodeOf] at hop
                replace hi :
                    (if i = op then
                        some (⟨nm, st, PacketProcessing.PROCESS_INPLACE,
                          "Handle_ServerSide"⟩ : OpcodeHandler)
                      else t._internalTableClient i) = some h := hi
                rw [if_pos hop] at hi
                cases hi
                exact hok (ManifestEntry.server op nm st)
                  (List.mem_cons_self _ _)
        · rw [t.applyEntry_at_ne e i hop] at hi
          exact hinv i h hi hhd
      exact ih (t.applyEntry e) hstep
        (fun x hx => hok x (List.mem_cons_of_mem e hx))

/-- C3: every opcode registered through the server-opcode path carries a
status in {Never, Unhandled}.  The restriction is the `static_assert` in
`DEFINE_SERVER_OPCODE_HANDLER`, a build-time check: every expansion of the
macro in the manifest satisfies it (first conjunct), and consequently every
descriptor the initialized table holds with the server-path binding
`Handle_ServerSide` carries such a status (second conjunct). -/
theorem C3_server_status_restricted :
    (∀ e ∈ manifest, serverEntryOk e) ∧
    (∀ i h, OpcodeTable.Initialize._internalTableClient i = some h →
      h.Handler = "Handle_ServerSide" → serverOpcodeStatusAssert h.Status) := by
  have hb : manifest.all (fun e => decide (serverEntryOk e)) = true := by decide
  have hok : ∀ e ∈ manifest, serverEntryOk e := fun e he =>
    of_decide_eq_true (List.all_eq_true.mp hb e he)
  refine ⟨hok, ?_⟩
  rw [OpcodeTable.Initialize_def]
  exact OpcodeTable.registerAll_server_status manifest OpcodeTable.empty
    (fun i h hi => by cases hi) hok

/-- C3 witness: the first server-path manifest entry (`SMSG_DBLOOKUP`,
id `0x003`) satisfies the server-opcode status restriction. -/
theorem C3_witness :
    ManifestEntry.server 0x003 "SMSG_DBLOOKUP" SessionStatus.STATUS_NEVER ∈
        manifest ∧
    serverEntryOk
      (ManifestEntry.server 0x003 "SMSG_DBLOOKUP" SessionStatus.STATUS_NEVER) :=
  ⟨by decide,
    C3_server_status_restricted.1
      (ManifestEntry.server 0x003 "SMSG_DBLOOKUP" SessionStatus.STATUS_NEVER)
      (by decide)⟩

/-- Whether a manifest entry registers a server-originated (`SMSG`-named)
opcode through the client registration path (`DEFINE_HANDLER`). -/
def isSMSGviaClientPath : ManifestEntry → Bool
  | .client _ nm _ _ _ => nm.data.take 4 == ['S', 'M', 'S', 'G']
  | .server _ _ _ => false

/-- Whether a manifest entry registers a client-originated (`CMSG`-named)
opcode through the server registration path
(`DEFINE_SERVER_OPCODE_HANDLER`). -/
def isCMSGviaServerPath : ManifestEntry → Bool
  | .server _ nm _ => nm.data.take 4 == ['C', 'M', 'S', 'G']
  | .client _ _ _ _ _ => false

/-- C4 counterexample: the manifest contains no server-originated (SMSG)
entry installed through the client-registration path at all, so there is
not exactly one such entry. -/
theorem C4_counterexample :
    (manifest.filter isSMSGviaClientPath).length = 0 ∧
    (manifest.filter isSMSGviaClientPath).length ≠ 1 := by
  have h : (manifest.filter isSMSGviaClientPath).length = 0 := by decide
  exact ⟨h, by omega⟩

/-- C4 (amended): the cross-path anomaly in the manifest runs the other way
round: no SMSG entry uses the client path, and exactly one client-originated
entry — `CMSG_GMTICKETSYSTEM_TOGGLE` at id `0x29A` — is installed through
the server-registration path; being on the server path it is subject to
(and satisfies, with status Never) the server-opcode status restriction
rather than bypassing it. -/
theorem C4_cross_path_entry :
    manifest.filter isCMSGviaServerPath =
      [ManifestEntry.server 0x29A "CMSG_GMTICKETSYSTEM_TOGGLE"
        SessionStatus.STATUS_NEVER] ∧
    manifest.filter isSMSGviaClientPath = [] ∧
    serverOpcodeStatusAssert SessionStatus.STATUS_NEVER :=
  ⟨by decide, by decide, Or.inl rfl⟩

/-- C7: `lookup` returns none for every id outside `[0, NUM_OPCODE_HANDLERS)`
whatever was registered, for every id on the fresh table, and for every
in-range id at which no registration attempt ever succeeded during the
registration sequence. -/
theorem C7_lookup_none_when_unregistered (es : List ManifestEntry)
    (id : Nat) :
    OpcodeTable.empty.lookup id = none ∧
    (NUM_OPCODE_HANDLERS ≤ id →
      (OpcodeTable.empty.registerAll es).lookup id = none) ∧
    ((∀ (n : Nat) (hn : n < es.length), (es.get ⟨n, hn⟩).opcodeOf = id →
        registrationSucceeds (OpcodeTable.empty.registerAll (es.take n))
          (es.get ⟨n, hn⟩) = false) →
      (OpcodeTable.empty.registerAll es).lookup id = none) := by
  refine ⟨?_, ?_, ?_⟩
  · unfold OpcodeTable.lookup
    split <;> rfl
  · intro h
    unfold OpcodeTable.lookup
    rw [if_neg (Nat.not_lt.mpr h)]
  · intro hall
    unfold OpcodeTable.lookup
    split
    · exact OpcodeTable.registerAll_none_of_no_success es OpcodeTable.empty
        id rfl hall
    · rfl

/-- C7 witness: a single registration attempt at the null sentinel fails, so
lookup of that id still returns none afterwards. -/
theorem C7_witness :
    (OpcodeTable.empty.registerAll
      [ManifestEntry.client NULL_OPCODE "CMSG_UNSET"
        SessionStatus.STATUS_NEVER PacketProcessing.PROCESS_INPLACE
        "HandleU"]).lookup NULL_OPCODE = none :=
  (C7_lookup_none_when_unregistered
    [ManifestEntry.client NULL_OPCODE "CMSG_UNSET" SessionStatus.STATUS_NEVER
      PacketProcessing.PROCESS_INPLACE "HandleU"] NULL_OPCODE).2.2
    (by decide)

/-! ### Formatting lemmas -/

/-- The initialized table's lookup at `0x036` returns the CharCreate
descriptor (shared helper). -/
theorem initialize_lookup_charCreate :
    OpcodeTable.Initialize.lookup 0x036 = some charCreateEntry.descriptorOf := by
  unfold OpcodeTable.lookup
  rw [if_pos (show (0x036 : Nat) < NUM_OPCODE_HANDLERS by decide)]
  exact initialize_at_charCreate

/-- A lookup hit prints the descriptor's registered display name. -/
theorem fmt_of_lookup_some (t : OpcodeTable) (id : Nat) (hdl : OpcodeHandler)
    (hl : t.lookup id = some hdl) :
    GetOpcodeNameForLogging t id =
      "[" ++ hdl.Name ++ " 0x" ++ hex4 (id % 2 ^ 16) ++ " (" ++
        Nat.repr (id % 2 ^ 16) ++ ")]" := by
  have hid : id < NUM_OPCODE_HANDLERS := by
    unfold OpcodeTable.lookup at hl
    by_contra hcon
    rw [if_neg hcon] at hl
    cases hl
  have hlt : id % 2 ^ 16 < NUM_OPCODE_HANDLERS := by
    rw [Nat.mod_eq_of_lt (Nat.lt_trans hid (by decide))]
    exact hid
  unfold GetOpcodeNameForLogging GetOpcodeNameForLoggingImpl
  simp only [hl, if_pos hlt]

/-- A lookup miss with the truncated id in range prints "UNKNOWN OPCODE". -/
theorem fmt_of_lookup_none (t : OpcodeTable) (id : Nat)
    (hl : t.lookup id = none) (hlt : id % 2 ^ 16 < NUM_OPCODE_HANDLERS) :
    GetOpcodeNameForLogging t id =
      "[UNKNOWN OPCODE 0x" ++ hex4 (id % 2 ^ 16) ++ " (" ++
        Nat.repr (id % 2 ^ 16) ++ ")]" := by
  unfold GetOpcodeNameForLogging GetOpcodeNameForLoggingImpl
  simp only [hl, if_pos hlt]
  rfl

/-- A truncated id out of range prints "INVALID OPCODE". -/
theorem fmt_out_of_range (t : OpcodeTable) (id : Nat)
    (hge : NUM_OPCODE_HANDLERS ≤ id % 2 ^ 16) :
    GetOpcodeNameForLogging t id =
      "[INVALID OPCODE 0x" ++ hex4 (id % 2 ^ 16) ++ " (" ++
        Nat.repr (id % 2 ^ 16) ++ ")]" := by
  unfold GetOpcodeNameForLogging GetOpcodeNameForLoggingImpl
  simp only [if_neg (Nat.not_lt.mpr hge)]
  rfl

/-- C2 (amended): `GetOpcodeNameForLogging` is total and always yields
"[<X> 0x<4-hex-uppercase-zero-padded> (<decimal>)]" where the hex and
decimal fields show the input truncated to 16 bits; `X` is the registered
display name when the table lookup (performed with the untruncated input)
hits, "UNKNOWN OPCODE" when the truncated input is in range but the lookup
misses, and "INVALID OPCODE" when the truncated input is out of range.
For inputs below `2 ^ 16` this is exactly the claimed behaviour. -/
theorem C2_format_for_log_shape (t : OpcodeTable) (id : Nat) :
    (∀ hdl, t.lookup id = some hdl →
      GetOpcodeNameForLogging t id =
        "[" ++ hdl.Name ++ " 0x" ++ hex4 (id % 2 ^ 16) ++ " (" ++
          Nat.repr (id % 2 ^ 16) ++ ")]") ∧
    (t.lookup id = none → id % 2 ^ 16 < NUM_OPCODE_HANDLERS →
      GetOpcodeNameForLogging t id =
        "[UNKNOWN OPCODE 0x" ++ hex4 (id % 2 ^ 16) ++ " (" ++
          Nat.repr (id % 2 ^ 16) ++ ")]") ∧
    (NUM_OPCODE_HANDLERS ≤ id % 2 ^ 16 →
      GetOpcodeNameForLogging t id =
        "[INVALID OPCODE 0x" ++ hex4 (id % 2 ^ 16) ++ " (" ++
          Nat.repr (id % 2 ^ 16) ++ ")]") :=
  ⟨fun hdl hl => fmt_of_lookup_some t id hdl hl,
   fun hl hlt => fmt_of_lookup_none t id hl hlt,
   fun hge => fmt_out_of_range t id hge⟩

/-- C2 witness: a concrete registered opcode, a concrete unregistered
in-range id, and a concrete out-of-range id each format as the amended
claim states. -/
theorem C2_witness :
    GetOpcodeNameForLogging
        (OpcodeTable.empty.applyEntry
          (ManifestEntry.client 5 "CMSG_A" SessionStatus.STATUS_NEVER
            PacketProcessing.PROCESS_INPLACE "HandleA")) 5 =
      "[CMSG_A 0x0005 (5)]" ∧
    GetOpcodeNameForLogging OpcodeTable.empty 5 =
      "[UNKNOWN OPCODE 0x0005 (5)]" ∧
    GetOpcodeNameForLogging OpcodeTable.empty 0x9999 =
      "[INVALID OPCODE 0x9999 (39321)]" := by
  refine ⟨?_, ?_, ?_⟩
  · rw [(C2_format_for_log_shape
      (OpcodeTable.empty.applyEntry
        (ManifestEntry.client 5 "CMSG_A" SessionStatus.STATUS_NEVER
          PacketProcessing.PROCESS_INPLACE "HandleA")) 5).1
      ⟨"CMSG_A", SessionStatus.STATUS_NEVER,
        PacketProcessing.PROCESS_INPLACE, "HandleA"⟩ (by decide)]
    rfl
  · rw [(C2_format_for_log_shape OpcodeTable.empty 5).2.1 (by decide)
      (by decide)]
    rfl
  · rw [(C2_format_for_log_shape OpcodeTable.empty 0x9999).2.2 (by decide)]
    rfl

/-- C2 counterexample: at input `0x10036` — outside `[0, NUM_OPCODE_HANDLERS)`
— the formatter does not print "INVALID OPCODE": the range check and the
printed fields use the low 16 bits (`0x0036`), and the lookup (with the
full value) misses, so it prints "UNKNOWN OPCODE". -/
theorem C2_counterexample :
    GetOpcodeNameForLogging OpcodeTable.Initialize 0x10036 =
      "[UNKNOWN OPCODE 0x0036 (54)]" ∧
    NUM_OPCODE_HANDLERS ≤ 0x10036 ∧
    GetOpcodeNameForLogging OpcodeTable.Initialize 0x10036 ≠
      "[INVALID OPCODE 0x0036 (54)]" := by
  have hnone : OpcodeTable.Initialize.lookup 0x10036 = none := by
    unfold OpcodeTable.lookup
    rw [if_neg (by decide)]
  have hfmt := fmt_of_lookup_none OpcodeTable.Initialize 0x10036 hnone
    (by decide)
  refine ⟨?_, by decide, ?_⟩
  · rw [hfmt]
    rfl
  · rw [hfmt]
    decide

/-- C10 (amended): the formatter truncates its input to 16 bits for the
range check and the printed hex/decimal fields, but the table lookup uses
the untruncated input.  Hence two inputs congruent modulo `2 ^ 16` format
identically whenever their (untruncated) lookups agree, and an input at or
above `2 ^ 16` whose low 16 bits are an in-range opcode id is formatted as
"UNKNOWN OPCODE" with that truncated id's hex/decimal — neither with the
registered name of the truncated opcode nor as "INVALID OPCODE". -/
theorem C10_truncation_before_range_check (t : OpcodeTable) (a b : Nat) :
    (a % 2 ^ 16 = b % 2 ^ 16 → t.lookup a = t.lookup b →
      GetOpcodeNameForLogging t a = GetOpcodeNameForLogging t b) ∧
    (2 ^ 16 ≤ a → a % 2 ^ 16 < NUM_OPCODE_HANDLERS →
      GetOpcodeNameForLogging t a =
        "[UNKNOWN OPCODE 0x" ++ hex4 (a % 2 ^ 16) ++ " (" ++
          Nat.repr (a % 2 ^ 16) ++ ")]") := by
  constructor
  · intro hmod hlook
    unfold GetOpcodeNameForLogging GetOpcodeNameForLoggingImpl
    rw [hmod, hlook]
  · intro hge hlt
    have hnone : t.lookup a = none := by
      unfold OpcodeTable.lookup
      rw [if_neg (Nat.not_lt.mpr (Nat.le_trans (by decide) hge))]
    exact fmt_of_lookup_none t a hnone hlt

/-- C10 witness: two concrete inputs congruent modulo `2 ^ 16` whose lookups
agree format identically, and a concrete input at or above `2 ^ 16` with
registered low bits formats as "UNKNOWN OPCODE". -/
theorem C10_witness :
    GetOpcodeNameForLogging OpcodeTable.empty 0x20036 =
      GetOpcodeNameForLogging OpcodeTable.empty 0x30036 ∧
    GetOpcodeNameForLogging OpcodeTable.empty 0x20036 =
      "[UNKNOWN OPCODE 0x0036 (54)]" :=
  ⟨(C10_truncation_before_range_check OpcodeTable.empty 0x20036 0x30036).1
      (by decide) (by decide),
   by
    rw [(C10_truncation_before_range_check OpcodeTable.empty 0x20036 0).2
      (by decide) (by decide)]
    rfl⟩

/-- C10 counterexample: the claim's "in particular" part fails on the code:
`0x036` and `0x10036` are congruent modulo `2 ^ 16` and `0x036` is a
registered in-range opcode, yet the two outputs differ — the lookup is
performed with the untruncated id, so `0x10036` prints "UNKNOWN OPCODE"
instead of the registered name. -/
theorem C10_counterexample :
    (0x036 : Nat) % 2 ^ 16 = 0x10036 % 2 ^ 16 ∧
    GetOpcodeNameForLogging OpcodeTable.Initialize 0x036 =
      "[CMSG_CHAR_CREATE 0x0036 (54)]" ∧
    GetOpcodeNameForLogging OpcodeTable.Initialize 0x10036 =
      "[UNKNOWN OPCODE 0x0036 (54)]" ∧
    GetOpcodeNameForLogging OpcodeTable.Initialize 0x036 ≠
      GetOpcodeNameForLogging OpcodeTable.Initialize 0x10036 := by
  have h36 := fmt_of_lookup_some OpcodeTable.Initialize 0x036
    charCreateEntry.descriptorOf initialize_lookup_charCreate
  have hnone : OpcodeTable.Initialize.lookup 0x10036 = none := by
    unfold OpcodeTable.lookup
    rw [if_neg (by decide)]
  have hbig := fmt_of_lookup_none OpcodeTable.Initialize 0x10036 hnone
    (by decide)
  refine ⟨by decide, ?_, ?_, ?_⟩
  · rw [h36]
    rfl
  · rw [hbig]
    rfl
  · rw [h36, hbig]
    decide

/-- C8 counterexample: the descriptor registered at id `0x036` carries the
stringized enumerator "CMSG_CHAR_CREATE" as its display name, not
"CharCreate" as the claim states. -/
theorem C8_counterexample :
    (OpcodeTable.Initialize.lookup 0x036).map OpcodeHandler.Name =
      some "CMSG_CHAR_CREATE" ∧
    (OpcodeTable.Initialize.lookup 0x036).map OpcodeHandler.Name ≠
      some "CharCreate" := by
  rw [initialize_lookup_charCreate]
  exact ⟨rfl, by decide⟩

/-- A lookup hit whose status passes the gate and whose class is
`ThreadUnsafe` routes to the serialized queue. -/
theorem dispatchRoute_serialized (t : OpcodeTable) (s : SessionState)
    (id : Nat) (hdl : OpcodeHandler) (hl : t.lookup id = some hdl)
    (hadm : AdmissionGate hdl.Status s = true)
    (hpr : hdl.Processing = PacketProcessing.PROCESS_THREADUNSAFE) :
    dispatchRoute t s id = DispatchOutcome.toSerializedQueue hdl.Handler := by
  unfold dispatchRoute
  rw [hl]
  simp only [hadm, hpr, if_true]

/-- Two envelopes of one opcode routed to the serialized queue land there in
arrival order. -/
theorem serializedQueueAfter_pair (t : OpcodeTable) (s : SessionState)
    (i1 i2 id : Nat) (hdl : String)
    (h : dispatchRoute t s id = DispatchOutcome.toSerializedQueue hdl) :
    serializedQueueAfter t s [(i1, id), (i2, id)] = [(i1, hdl), (i2, hdl)] := by
  unfold serializedQueueAfter
  simp only [List.filterMap_cons, List.filterMap_nil, h]

/-- C8 (amended): the production manifest registers opcode id `0x036` with
display name "CMSG_CHAR_CREATE" (handler `HandleCharCreateOpcode`),
required status `Authed` and concurrency class `ThreadUnsafe`; dispatching
it twice from one session in `Authed` state admits both messages, routes
both to the serialized (`ThreadUnsafe`) queue, and keeps their arrival
order. -/
theorem C8_charcreate_registration_and_dispatch :
    OpcodeTable.Initialize.lookup 0x036 =
      some ⟨"CMSG_CHAR_CREATE", SessionStatus.STATUS_AUTHED,
        PacketProcessing.PROCESS_THREADUNSAFE, "HandleCharCreateOpcode"⟩ ∧
    serializedQueueAfter OpcodeTable.Initialize
        ⟨SessionStatus.STATUS_AUTHED, false⟩ [(1, 0x036), (2, 0x036)] =
      [(1, "HandleCharCreateOpcode"), (2, "HandleCharCreateOpcode")] :=
  ⟨initialize_lookup_charCreate,
   serializedQueueAfter_pair OpcodeTable.Initialize
     ⟨SessionStatus.STATUS_AUTHED, false⟩ 1 2 0x036 "HandleCharCreateOpcode"
     (dispatchRoute_serialized OpcodeTable.Initialize
       ⟨SessionStatus.STATUS_AUTHED, false⟩ 0x036
       charCreateEntry.descriptorOf initialize_lookup_charCreate rfl rfl)⟩
